import Mathlib

/-!
# Orion_Live: the asynchronous write path

A shallow embedding of the golden-comment seat reservation
(`internal/service/comment.go`, `internal/repository/video_repo.go`) and of the
relay consumers (`cmd/consumer/main.go`, `internal/repository/like_repo.go`,
`internal/data/transaction.go`), with the properties the specification states
about them.

Conventions of the embedding:
* Go `uint64` values are `Nat`; Redis integers are `Int`, with the signed 64-bit
  range made explicit where the store checks it.
* A Go `error` is a `GoError`; a Go result `(v, err)` is a pair or an `Except`.
* Redis, the relay and MySQL are explicit state; every call to one of them can be
  made to fail through an injected fault (`Option GoError`, `none` = the call
  reaches the store and the store answers).
* `encoding/json` is library code outside the repository; it is a parameter.
-/

namespace OrionLive

/-! ## Errors and logging -/

/-- A Go `error` value: a plain error (`errors.New`), a `*mysql.MySQLError` with its
number, or an error wrapping another one. -/
inductive GoError where
  | plain (msg : String)
  | mysql (number : Nat) (msg : String)
  | wrap (msg : String) (inner : GoError)
  deriving DecidableEq, Repr

/-- The number of the first `*mysql.MySQLError` in the chain of an error, as found by
`errors.As(err, &mysqlErr)`. -/
def GoError.asMySQL : GoError → Option Nat
  | .plain _ => none
  | .mysql n _ => some n
  | .wrap _ e => e.asMySQL

/-- The test `errors.As(err, &mysqlErr) && mysqlErr.Number == 1062` of both consumers. -/
def GoError.isDuplicateKey (e : GoError) : Bool :=
  e.asMySQL == some 1062

/-- Equality of Go results `(v, err)` modelled as `Except` is decidable. -/
instance instDecidableEqExcept {ε α : Type} [DecidableEq ε] [DecidableEq α] :
    DecidableEq (Except ε α)
  | .ok a, .ok b =>
    if h : a = b then isTrue (by rw [h]) else isFalse (by intro h2; cases h2; exact h rfl)
  | .error a, .error b =>
    if h : a = b then isTrue (by rw [h]) else isFalse (by intro h2; cases h2; exact h rfl)
  | .ok _, .error _ => isFalse (by intro h; cases h)
  | .error _, .ok _ => isFalse (by intro h; cases h)

/-- Severity of a logrus entry. -/
inductive Level where
  | info
  | warn
  | error
  deriving DecidableEq, Repr

/-- One log entry: its severity and its message (the structured fields are dropped). -/
structure LogEntry where
  level : Level
  msg : String
  deriving DecidableEq, Repr

/-! ## Models (`internal/model`) -/

/-- The persisted columns of `model.Comment`; the timestamps of `BaseModel` and the
preloaded `User` associations are not modelled. -/
structure Comment where
  ID : Nat := 0
  VideoID : Nat
  UserID : Nat
  Content : String
  LikeCount : Nat := 0
  IsGolden : Bool := false
  ParentID : Option Nat := none
  ReplyToUserID : Option Nat := none
  deriving DecidableEq, Repr

/-- The message `service.GoldenCommentMessage` handed to the relay. -/
structure GoldenCommentMessage where
  UserID : Nat
  VideoID : Nat
  Content : String
  deriving DecidableEq, Repr

/-! ## The fast-path store (Redis) -/

/-- Largest signed 64-bit integer, the largest value a Redis counter can hold. -/
def int64Max : Int := 2 ^ 63 - 1

/-- Smallest signed 64-bit integer. -/
def int64Min : Int := -(2 ^ 63)

/-- Go conversion `uint64(res)` of a signed 64-bit value. -/
def toUint64 (res : Int) : Nat :=
  (res % 2 ^ 64).toNat

/-- A string value of Redis as written by `SET key value expiration`: the value and the
expiration it was given (a Go `time.Duration`, in nanoseconds). -/
structure CacheEntry where
  value : String
  ttl : Nat
  deriving DecidableEq, Repr

/-- The keys of Redis the services use. `counters`: the integer keys, a missing key
reading as 0 (which is how `INCR` and `DECR` read it). `cache`: the string keys written
with an expiration, `none` for a missing key. `sets`: the set keys, as the membership
test of each (a missing key is the empty set). `hashes`: the integer fields of the hash
keys, a missing field reading as 0 (which is how `HINCRBY` reads it). -/
structure Redis where
  counters : String → Int
  cache : String → Option CacheEntry := fun _ => none
  sets : String → String → Bool := fun _ _ => false
  hashes : String → String → Int := fun _ _ => 0

/-- The key built by `keyVideoGoldenCount`: `video:golden_count:<id>`. -/
def keyVideoGoldenCount (videoID : Nat) : String :=
  "video:golden_count:" ++ toString videoID

/-- The effect of `INCR` on the integer under a key: the reply `(res, err)` seen by Go
(`res = 0` on error) and the integer afterwards. It fails without effect when the call
is faulted or when the value is already the largest 64-bit integer. -/
def incrValue (fault : Option GoError) (v : Int) : (Int × Option GoError) × Int :=
  match fault with
  | some e => ((0, some e), v)
  | none =>
    if v ≥ int64Max then ((0, some (.plain "ERR increment or decrement would overflow")), v)
    else ((v + 1, none), v + 1)

/-- The effect of `DECR` on the integer under a key; it fails without effect when
faulted or when the value is already the smallest 64-bit integer. -/
def decrValue (fault : Option GoError) (v : Int) : (Int × Option GoError) × Int :=
  match fault with
  | some e => ((0, some e), v)
  | none =>
    if v ≤ int64Min then ((0, some (.plain "ERR increment or decrement would overflow")), v)
    else ((v - 1, none), v - 1)

/-- Redis `INCR key`, one atomic step of the store. -/
def Redis.incr (fault : Option GoError) (key : String) (r : Redis) :
    (Int × Option GoError) × Redis :=
  let out := incrValue fault (r.counters key)
  (out.1, { r with counters := Function.update r.counters key out.2 })

/-- Redis `DECR key`, one atomic step of the store. -/
def Redis.decr (fault : Option GoError) (key : String) (r : Redis) :
    (Int × Option GoError) × Redis :=
  let out := decrValue fault (r.counters key)
  (out.1, { r with counters := Function.update r.counters key out.2 })

/-- The repository method `IncrementGoldenCount_Redis`: `INCR` on the seat counter of
the video, the result converted with `uint64(res)`. -/
def IncrementGoldenCount_Redis (fault : Option GoError) (videoID : Nat) (r : Redis) :
    (Nat × Option GoError) × Redis :=
  let out := r.incr fault (keyVideoGoldenCount videoID)
  ((toUint64 out.1.1, out.1.2), out.2)

/-- The repository method `DecrementGoldenCount_Redis`: `DECR` on the seat counter,
only the error being returned. -/
def DecrementGoldenCount_Redis (fault : Option GoError) (videoID : Nat) (r : Redis) :
    Option GoError × Redis :=
  let out := r.decr fault (keyVideoGoldenCount videoID)
  (out.1.2, out.2)

/-! ## The relay (RabbitMQ), producer side -/

/-- Name of the golden-comment queue. -/
def QueueGoldenComment : String := "orion.golden_comment.queue"

/-- Name of the like queue. -/
def QueueLike : String := "orion.like.queue"

/-- An `amqp.Publishing` together with the exchange and routing key it is sent to. -/
structure Publishing where
  exchange : String
  routingKey : String
  contentType : String
  body : String
  persistent : Bool
  deriving DecidableEq, Repr

/-- Everything a call of the comment service touches: Redis, the messages handed to
the relay so far (oldest first) and the log. -/
structure World where
  rdb : Redis
  relay : List Publishing
  log : List LogEntry

/-- The answers of the collaborators during one call of `CreateGoldenComment`: a fault
for each store or relay call it can make, and `json.Marshal` on the message. -/
structure Env where
  incrFault : Option GoError
  decrFault : Option GoError
  channelErr : Option GoError
  publishErr : Option GoError
  marshalGolden : GoldenCommentMessage → Except GoError String

/-- The private method `publishGoldenCommentMessage`: open a channel, marshal the
message, publish it persistently on the default exchange with the queue name as
routing key. Returns the error, if any, and the relay afterwards. -/
def publishGoldenCommentMessage (env : Env) (msg : GoldenCommentMessage)
    (relay : List Publishing) : Option GoError × List Publishing :=
  match env.channelErr with
  | some e => (some e, relay)
  | none =>
    match env.marshalGolden msg with
    | .error e => (some e, relay)
    | .ok body =>
      match env.publishErr with
      | some e => (some e, relay)
      | none =>
        (none, relay ++ [{ exchange := "", routingKey := QueueGoldenComment,
                           contentType := "application/json", body := body,
                           persistent := true }])

/-- The seat cap tested by `CreateGoldenComment` (`count > 100`). -/
def seatCap : Nat := 100

/-- Error returned when the Redis increment fails. -/
def errRedisBusy : GoError := .plain "系统繁忙，请稍后再试 (Redis错误)"

/-- Error returned when the seat counter exceeds the cap. -/
def errSeatFull : GoError := .plain "黄金评论席已满"

/-- Error returned when the message could not be handed to the relay. -/
def errPublishFailed : GoError := .plain "系统错误，评论失败"

/-- The log entry written when the publish fails after the seat was taken: error
severity, "delivery failed, Redis stock already deducted, needs manual check". -/
def logReconcile : LogEntry :=
  { level := .error, msg := "【严重】黄金评论消息投递失败！Redis库存已扣减，需人工核对！" }

/-- The service method `CreateGoldenComment`: take a seat with the Redis increment;
over the cap, give it back and fail; otherwise publish the message, and on a publish
failure give the seat back, log and fail; on success return the optimistic comment. -/
def CreateGoldenComment (env : Env) (userID videoID : Nat) (content : String) (w : World) :
    Except GoError Comment × World :=
  let inc := IncrementGoldenCount_Redis env.incrFault videoID w.rdb
  match inc.1.2 with
  | some _ => (.error errRedisBusy, { w with rdb := inc.2 })
  | none =>
    if inc.1.1 > seatCap then
      let dec := DecrementGoldenCount_Redis env.decrFault videoID inc.2
      (.error errSeatFull, { w with rdb := dec.2 })
    else
      let msg : GoldenCommentMessage := { UserID := userID, VideoID := videoID, Content := content }
      let pub := publishGoldenCommentMessage env msg w.relay
      match pub.1 with
      | some _ =>
        let dec := DecrementGoldenCount_Redis env.decrFault videoID inc.2
        (.error errPublishFailed,
          { rdb := dec.2, relay := pub.2, log := w.log ++ [logReconcile] })
      | none =>
        (.ok { UserID := userID, VideoID := videoID, Content := content, IsGolden := true },
          { w with rdb := inc.2, relay := pub.2 })

/-! ## Interleaved calls of `CreateGoldenComment`

Several calls run concurrently against one seat counter. Each call is cut at its
accesses to shared state: the Redis increment, the relay publish, the Redis
decrement; its return is a step of its own, so that a call that has published or
compensated and not yet returned is still in flight. A schedule picks, step by step,
which call moves next, and decides whether a publish succeeds. Store steps are not
faulted here. -/

/-- Where one call of `CreateGoldenComment` stands. -/
inductive Pc where
  | start          -- before the increment
  | seatFull       -- saw `count > 100`; its compensating decrement is pending
  | publishing     -- saw `count <= 100`; its publish is pending
  | publishFailed  -- its publish failed; its compensating decrement is pending
  | published      -- its publish succeeded; it has yet to return the comment
  | compensated    -- its compensating decrement is done; it has yet to return the error
  | returnedOk     -- returned the comment
  | returnedErr    -- returned an error
  deriving DecidableEq, Repr

/-- The shared seat counter of one video and the position of every call. -/
structure Sys where
  seat : Int
  calls : List Pc
  deriving DecidableEq, Repr

/-- One atomic step of a call standing at `pc`, the seat counter being `seat`;
`pubOk` tells whether the relay accepts the message if the step is the publish. -/
def callStep (pubOk : Bool) (seat : Int) : Pc → Int × Pc
  | .start =>
    let out := incrValue none seat
    match out.1.2 with
    | some _ => (out.2, .returnedErr)
    | none => if toUint64 out.1.1 > seatCap then (out.2, .seatFull) else (out.2, .publishing)
  | .seatFull => ((decrValue none seat).2, .compensated)
  | .publishing => if pubOk then (seat, .published) else (seat, .publishFailed)
  | .publishFailed => ((decrValue none seat).2, .compensated)
  | .published => (seat, .returnedOk)
  | .compensated => (seat, .returnedErr)
  | .returnedOk => (seat, .returnedOk)
  | .returnedErr => (seat, .returnedErr)

/-- The call with index `i` takes its next step (nothing happens when there is no
such call, or when it has returned). -/
def Sys.step (s : Sys) (i : Nat) (pubOk : Bool) : Sys :=
  match s.calls.get? i with
  | none => s
  | some pc =>
    let out := callStep pubOk s.seat pc
    { seat := out.1, calls := s.calls.set i out.2 }

/-- Run a schedule: a list of (index of the call that moves, outcome of its publish). -/
def Sys.run (s : Sys) (sched : List (Nat × Bool)) : Sys :=
  sched.foldl (fun st x => st.step x.1 x.2) s

/-- A call has returned. -/
def Pc.returned : Pc → Bool
  | .returnedOk => true
  | .returnedErr => true
  | _ => false

/-- All calls have returned: nothing is in flight. -/
def Sys.quiescent (s : Sys) : Bool :=
  s.calls.all Pc.returned

/-- Initial state: `n` calls about to start, the seat counter at `c`. -/
def Sys.init (c : Int) (n : Nat) : Sys :=
  { seat := c, calls := List.replicate n .start }

/-- The seats a call at `pc` holds on the counter: one from its increment on, given
back by its compensating decrement and kept by a successful call. -/
def Pc.held : Pc → Nat
  | .seatFull => 1
  | .publishing => 1
  | .publishFailed => 1
  | .published => 1
  | .returnedOk => 1
  | _ => 0

/-- Counts 1 for a call that passed the cap test and has not failed since. -/
def Pc.admitted : Pc → Nat
  | .publishing => 1
  | .published => 1
  | .returnedOk => 1
  | _ => 0

/-- The number of calls that returned success. -/
def Sys.successes (s : Sys) : Nat :=
  s.calls.count .returnedOk

/-- Counts 1 for a call in flight: it has incremented the counter and has not yet
returned, whatever it has done since (nothing, a publish, a compensating decrement). -/
def Pc.inFlight : Pc → Nat
  | .seatFull => 1
  | .publishing => 1
  | .publishFailed => 1
  | .published => 1
  | .compensated => 1
  | _ => 0

/-- The number of calls in flight. -/
def Sys.inFlight (s : Sys) : Nat :=
  (s.calls.map Pc.inFlight).sum

/-- An upper bound on the steps a call at `pc` still takes before it returns. -/
def Pc.rank : Pc → Nat
  | .start => 4
  | .publishing => 3
  | .seatFull => 2
  | .publishFailed => 2
  | .published => 1
  | .compensated => 1
  | .returnedOk => 0
  | .returnedErr => 0

/-! ## The durable store (MySQL through GORM) -/

/-- A row of `likes` (`model.Like`): the primary key and the pair under the unique
index `idx_user_video`. Timestamps are not modelled. -/
structure Like where
  ID : Nat := 0
  UserID : Nat
  VideoID : Nat
  deriving DecidableEq, Repr

/-- A row of `videos` (`model.Video`), timestamps and the preloaded author left out. -/
structure Video where
  ID : Nat
  AuthorID : Nat := 0
  Title : String := ""
  Description : String := ""
  LikeCount : Nat := 0
  GoldenCount : Nat := 0
  VideoURL : String := ""
  CoverURL : String := ""
  deriving DecidableEq, Repr

/-- The tables the consumers write, each auto-increment table with the next key its
allocator hands out. -/
structure DB where
  likes : List Like := []
  likesNextID : Nat := 1
  comments : List Comment := []
  commentsNextID : Nat := 1
  videos : List Video := []
  deriving DecidableEq, Repr

/-- Largest value of a `BIGINT UNSIGNED` column (Go `uint64`). -/
def uint64Max : Nat := 2 ^ 64 - 1

/-- MySQL error 1062, raised by an insert that violates a unique index. -/
def errDuplicateEntry : GoError := .mysql 1062 "Duplicate entry"

/-- MySQL error 1690, raised when an expression leaves the range of its column. -/
def errOutOfRange : GoError := .mysql 1690 "BIGINT UNSIGNED value is out of range"

/-- The repository method `likeRepository.Create`: `INSERT INTO likes`. The unique
index on (user_id, video_id) rejects a second row for the same pair with error 1062;
a zero primary key is filled in by the allocator. -/
def LikeRepository.Create (fault : Option GoError) (like : Like) (db : DB) :
    Option GoError × DB :=
  match fault with
  | some e => (some e, db)
  | none =>
    if db.likes.any (fun r => r.UserID == like.UserID && r.VideoID == like.VideoID) then
      (some errDuplicateEntry, db)
    else
      (none, { db with
        likes := db.likes ++ [{ like with ID := if like.ID = 0 then db.likesNextID else like.ID }]
        likesNextID := db.likesNextID + 1 })

/-- The repository method `likeRepository.Delete`:
`DELETE FROM likes WHERE user_id = ? AND video_id = ?`. Deleting no row is not an
error. -/
def LikeRepository.Delete (fault : Option GoError) (userID videoID : Nat) (db : DB) :
    Option GoError × DB :=
  match fault with
  | some e => (some e, db)
  | none =>
    (none, { db with
      likes := db.likes.filter (fun r => !(r.UserID == userID && r.VideoID == videoID)) })

/-- The repository method `IncrementLikeCount`:
`UPDATE videos SET like_count = like_count + 1 WHERE id = ?`. Updating no row is not
an error; leaving the range of the column is. -/
def VideoRepository.IncrementLikeCount (fault : Option GoError) (videoID : Nat) (db : DB) :
    Option GoError × DB :=
  match fault with
  | some e => (some e, db)
  | none =>
    if db.videos.any (fun v => v.ID == videoID && decide (v.LikeCount + 1 > uint64Max)) then
      (some errOutOfRange, db)
    else
      (none, { db with
        videos := db.videos.map
          (fun v => if v.ID = videoID then { v with LikeCount := v.LikeCount + 1 } else v) })

/-- The repository method `DecrementLikeCount`:
`UPDATE videos SET like_count = like_count - 1 WHERE id = ? AND like_count > 0`. -/
def VideoRepository.DecrementLikeCount (fault : Option GoError) (videoID : Nat) (db : DB) :
    Option GoError × DB :=
  match fault with
  | some e => (some e, db)
  | none =>
    (none, { db with
      videos := db.videos.map
        (fun v => if v.ID = videoID ∧ v.LikeCount > 0 then
          { v with LikeCount := v.LikeCount - 1 } else v) })

/-- The repository method `IncrementGoldenCount`:
`UPDATE videos SET golden_count = golden_count + 1 WHERE id = ?`; the count returned
to Go is always 0. -/
def VideoRepository.IncrementGoldenCount (fault : Option GoError) (videoID : Nat) (db : DB) :
    (Nat × Option GoError) × DB :=
  match fault with
  | some e => ((0, some e), db)
  | none =>
    if db.videos.any (fun v => v.ID == videoID && decide (v.GoldenCount + 1 > uint64Max)) then
      ((0, some errOutOfRange), db)
    else
      ((0, none), { db with
        videos := db.videos.map
          (fun v => if v.ID = videoID then { v with GoldenCount := v.GoldenCount + 1 } else v) })

/-- The repository method `commentRepository.Create`: `INSERT INTO comments`. The table
has no unique index besides its primary key, which the allocator fills in when zero. -/
def CommentRepository.Create (fault : Option GoError) (c : Comment) (db : DB) :
    Option GoError × DB :=
  match fault with
  | some e => (some e, db)
  | none =>
    (none, { db with
      comments := db.comments ++ [{ c with ID := if c.ID = 0 then db.commentsNextID else c.ID }]
      commentsNextID := db.commentsNextID + 1 })

/-- GORM `db.Transaction(fn)`: begin; run `fn` on the transaction; commit when it
returns nil, otherwise roll back and return its error unchanged. A failed begin or
commit leaves the store as it was. -/
def Transaction (beginErr commitErr : Option GoError) (fn : DB → Option GoError × DB)
    (db : DB) : Option GoError × DB :=
  match beginErr with
  | some e => (some e, db)
  | none =>
    match fn db with
    | (some e, _) => (some e, db)
    | (none, db1) =>
      match commitErr with
      | some e => (some e, db)
      | none => (none, db1)

/-- The method `Execute` of the unit of work in state-passing form, as the consumers
below use it: `fn` runs inside one `db.Transaction` and works on the tables as that
transaction sees them. The form with explicit handles is `gormUnitOfWork.Execute`
further down. -/
def UnitOfWork.Execute (beginErr commitErr : Option GoError) (fn : DB → Option GoError × DB)
    (db : DB) : Option GoError × DB :=
  Transaction beginErr commitErr fn db

/-! ## The consumers (`cmd/consumer/main.go`) -/

/-- The consumer-side `LikeMessage`. -/
structure LikeMessage where
  UserID : Nat
  VideoID : Nat
  Action : String
  deriving DecidableEq, Repr

/-- An `amqp.Delivery`, as far as the consumers read it. -/
structure Delivery where
  Body : String
  Redelivered : Bool := false
  MessageId : String := ""
  deriving DecidableEq, Repr

/-- What a consumer answers to the relay for one delivery: `d.Ack(multiple)` or
`d.Nack(multiple, requeue)`. -/
inductive Decision where
  | ack (multiple : Bool)
  | nack (multiple requeue : Bool)
  deriving DecidableEq, Repr

/-- Faults of the durable store while one delivery is handled: one for the begin, one
for each statement a consumer can issue, one for the commit. -/
structure DbFaults where
  beginTx : Option GoError := none
  likeCreate : Option GoError := none
  incrLike : Option GoError := none
  likeDelete : Option GoError := none
  decrLike : Option GoError := none
  commentCreate : Option GoError := none
  incrGolden : Option GoError := none
  commitTx : Option GoError := none
  deriving DecidableEq, Repr

/-- What handling one delivery leaves behind: the store, the answer to the relay, the
number of calls of `db.Transaction` / `uow.Execute`, and the log entries the consumer
itself writes (those of the repositories are not modelled). -/
structure Handled where
  db : DB
  decision : Decision
  transactions : Nat
  log : List LogEntry
  deriving DecidableEq, Repr

/-- The function passed to `db.Transaction` by `consumeLikes`: for "like", insert the
relation then increment the counter; for "unlike", delete the relation then decrement
the counter; the first error aborts. Any other action does nothing and returns nil. -/
def likeTxBody (f : DbFaults) (msg : LikeMessage) (tx : DB) : Option GoError × DB :=
  if msg.Action = "like" then
    match LikeRepository.Create f.likeCreate { UserID := msg.UserID, VideoID := msg.VideoID } tx with
    | (some e, tx1) => (some e, tx1)
    | (none, tx1) => VideoRepository.IncrementLikeCount f.incrLike msg.VideoID tx1
  else if msg.Action = "unlike" then
    match LikeRepository.Delete f.likeDelete msg.UserID msg.VideoID tx with
    | (some e, tx1) => (some e, tx1)
    | (none, tx1) => VideoRepository.DecrementLikeCount f.decrLike msg.VideoID tx1
  else
    (none, tx)

/-- The transaction of `consumeLikes` for one decoded message: its error and the store
afterwards. -/
def likeTx (f : DbFaults) (msg : LikeMessage) (db : DB) : Option GoError × DB :=
  Transaction f.beginTx f.commitTx (likeTxBody f msg) db

/-- The answer both consumers derive from the error of their transaction: `Ack` when
there is none or when it is a duplicate-key error (with a warning), `Nack` with
requeue otherwise (with an error entry). -/
def decide_ack (opErr : Option GoError) : Decision × List LogEntry :=
  match opErr with
  | some e =>
    if e.isDuplicateKey then
      (.ack false,
        [{ level := .warn, msg := "处理消息时出现重复键错误，可能是一次重复消费，消息将被确认为成功。" }])
    else
      (.nack false true, [{ level := .error, msg := "处理消息失败，将进行重试" }])
  | none => (.ack false, [])

/-- One iteration of the loop of `consumeLikes`: decode the body; an undecodable body
is logged and answered `Nack(false, false)`; otherwise the transaction runs and its
error decides the answer. -/
def consumeLikesOne (unmarshal : String → Except GoError LikeMessage) (f : DbFaults)
    (d : Delivery) (db : DB) : Handled :=
  let received : LogEntry := { level := .info, msg := "收到一条点赞消息" }
  match unmarshal d.Body with
  | .error _ =>
    { db := db, decision := .nack false false, transactions := 0,
      log := [received, { level := .error, msg := "消息JSON解析失败" }] }
  | .ok msg =>
    let out := likeTx f msg db
    let ans := decide_ack out.1
    { db := out.2, decision := ans.1, transactions := 1, log := received :: ans.2 }

/-- The function passed to `uow.Execute` by `consumeGoldenComments`: insert the golden
comment, then increment the golden counter of its video. -/
def goldenTxBody (f : DbFaults) (msg : GoldenCommentMessage) (tx : DB) : Option GoError × DB :=
  let newComment : Comment :=
    { UserID := msg.UserID, VideoID := msg.VideoID, Content := msg.Content, IsGolden := true }
  match CommentRepository.Create f.commentCreate newComment tx with
  | (some e, tx1) => (some e, tx1)
  | (none, tx1) =>
    let out := VideoRepository.IncrementGoldenCount f.incrGolden newComment.VideoID tx1
    (out.1.2, out.2)

/-- The unit of work of `consumeGoldenComments` for one decoded message. -/
def goldenTx (f : DbFaults) (msg : GoldenCommentMessage) (db : DB) : Option GoError × DB :=
  UnitOfWork.Execute f.beginTx f.commitTx (goldenTxBody f msg) db

/-- One iteration of the loop of `consumeGoldenComments`: decode the body; an
undecodable body is logged and answered `Ack(false)`; otherwise the unit of work runs
and its error decides the answer. -/
def consumeGoldenCommentsOne (unmarshal : String → Except GoError GoldenCommentMessage)
    (f : DbFaults) (d : Delivery) (db : DB) : Handled :=
  let received : LogEntry := { level := .info, msg := "收到一条黄金评论！" }
  match unmarshal d.Body with
  | .error _ =>
    { db := db, decision := .ack false, transactions := 0,
      log := [received, { level := .error, msg := "消息JSON解析失败" }] }
  | .ok msg =>
    let out := goldenTx f msg db
    let ans := decide_ack out.1
    { db := out.2, decision := ans.1, transactions := 1, log := received :: ans.2 }

/-- The loop of `consumeLikes` over the deliveries it receives, each with the faults
the store shows while it is handled: the store afterwards and the answers in order. -/
def consumeLikes (unmarshal : String → Except GoError LikeMessage) :
    List (Delivery × DbFaults) → DB → DB × List Decision
  | [], db => (db, [])
  | (d, f) :: rest, db =>
    let h := consumeLikesOne unmarshal f d db
    let out := consumeLikes unmarshal rest h.db
    (out.1, h.decision :: out.2)

/-- The loop of `consumeGoldenComments` over the deliveries it receives. -/
def consumeGoldenComments (unmarshal : String → Except GoError GoldenCommentMessage) :
    List (Delivery × DbFaults) → DB → DB × List Decision
  | [], db => (db, [])
  | (d, f) :: rest, db =>
    let h := consumeGoldenCommentsOne unmarshal f d db
    let out := consumeGoldenComments unmarshal rest h.db
    (out.1, h.decision :: out.2)

/-- The `like_count` column of a video, if the video exists. -/
def DB.likeCount (db : DB) (videoID : Nat) : Option Nat :=
  (db.videos.find? (fun v => v.ID == videoID)).map (fun v => v.LikeCount)

/-- The number of rows of `likes` for a video. -/
def DB.relationCount (db : DB) (videoID : Nat) : Nat :=
  (db.likes.filter (fun r => r.VideoID == videoID)).length

/-- The reply of `json.Unmarshal` into a `LikeMessage` on the bodies of the worked
examples below: three bodies as the producer writes them, and a body that is not JSON.
The table says nothing about other bodies (they are rejected). -/
def unmarshalLikeTable (body : String) : Except GoError LikeMessage :=
  if body = "\x7b\"user_id\":7,\"video_id\":42,\"action\":\"like\"\x7d" then
    .ok { UserID := 7, VideoID := 42, Action := "like" }
  else if body = "\x7b\"user_id\":7,\"video_id\":42,\"action\":\"unlike\"\x7d" then
    .ok { UserID := 7, VideoID := 42, Action := "unlike" }
  else if body = "\x7b\"user_id\":8,\"video_id\":42,\"action\":\"like\"\x7d" then
    .ok { UserID := 8, VideoID := 42, Action := "like" }
  else
    .error (.plain "invalid character in JSON input")

/-- The reply of `json.Unmarshal` into a `GoldenCommentMessage` on the bodies of the
worked examples: one body as the producer writes it; other bodies are rejected. -/
def unmarshalGoldenTable (body : String) : Except GoError GoldenCommentMessage :=
  if body = "\x7b\"user_id\":7,\"video_id\":9,\"content\":\"first\"\x7d" then
    .ok { UserID := 7, VideoID := 9, Content := "first" }
  else
    .error (.plain "invalid character in JSON input")

/-- The reply of `json.Marshal` on a `GoldenCommentMessage` for the worked examples:
numbers in decimal, the content copied between quotes (the examples use contents
that need no escaping). -/
def marshalGoldenPlain (msg : GoldenCommentMessage) : Except GoError String :=
  .ok ("\x7b\"user_id\":" ++ toString msg.UserID ++ ",\"video_id\":" ++ toString msg.VideoID
    ++ ",\"content\":\"" ++ msg.Content ++ "\"\x7d")

/-! ## The cache-aside read path (`video_repo.go`, `service/video.go`) -/

/-- The error `redis.Nil` with which the client reports a missing key. -/
def redisNil : GoError := .plain "redis: nil"

/-- The error `gorm.ErrRecordNotFound`. -/
def errRecordNotFound : GoError := .plain "record not found"

/-- Go `time.Second`, in nanoseconds. -/
def second : Nat := 1000000000

/-- Go `time.Minute`, in nanoseconds. -/
def minute : Nat := 60 * second

/-- The key built by `keyVideoInfo`: `video:info:<id>`. -/
def keyVideoInfo (videoID : Nat) : String :=
  "video:info:" ++ toString videoID

/-- Redis `GET key` as the client reports it: the fault if the call is faulted,
`redis.Nil` for a missing key, the value otherwise. -/
def Redis.get (fault : Option GoError) (key : String) (r : Redis) : String × Option GoError :=
  match fault with
  | some e => ("", some e)
  | none =>
    match r.cache key with
    | none => ("", some redisNil)
    | some entry => (entry.value, none)

/-- Redis `SET key value` with an expiration. -/
def Redis.set (fault : Option GoError) (key value : String) (expiration : Nat) (r : Redis) :
    Option GoError × Redis :=
  match fault with
  | some e => (some e, r)
  | none =>
    (none, { r with cache := Function.update r.cache key (some { value := value, ttl := expiration }) })

/-- The repository method `GetVideoCache`: `GET video:info:<id>`; a missing key is a
miss (`nil, nil`, here `ok none`), any other error of the client is returned, and so is
a value that does not decode. -/
def GetVideoCache (fault : Option GoError) (unmarshal : String → Except GoError Video)
    (videoID : Nat) (r : Redis) : Except GoError (Option Video) :=
  let reply := r.get fault (keyVideoInfo videoID)
  match reply.2 with
  | some e => if e = redisNil then .ok none else .error e
  | none =>
    match unmarshal reply.1 with
    | .error e => .error e
    | .ok video => .ok (some video)

/-- The expiration computed by `SetVideoCache`:
`time.Minute*5 + time.Duration(rand.Intn(60))*time.Second`, `jitter` being the value
drawn by `rand.Intn(60)`. -/
def cacheExpiration (jitter : Nat) : Nat :=
  minute * 5 + jitter * second

/-- The repository method `SetVideoCache`: marshal the video, compute the expiration
from the jitter drawn, `SET video:info:<id>` with that expiration. -/
def SetVideoCache (fault : Option GoError) (marshal : Video → Except GoError String)
    (jitter : Nat) (video : Video) (r : Redis) : Option GoError × Redis :=
  match marshal video with
  | .error e => (some e, r)
  | .ok videoJSON => r.set fault (keyVideoInfo video.ID) videoJSON (cacheExpiration jitter)

/-- A command executed by one of the stores on the read path. -/
inductive Op where
  | cacheGet (key : String)
  | cacheSet (key value : String) (expiration : Nat)
  | dbFetch (videoID : Nat)
  deriving DecidableEq, Repr

/-- What the read path works on: Redis, MySQL, and the commands the two stores have
executed so far, oldest first (a faulted call does not reach its store). -/
structure Store where
  rdb : Redis
  db : DB
  ops : List Op := []

/-- The answers of the collaborators during one call of `GetVideoByID`: a fault for
each store call it can make, the two jitters `rand.Intn(60)` can be asked for, and
`encoding/json` on videos. The fields with `Repo` belong to the calls made inside
`videoRepository.FindByID`. -/
structure ReadEnv where
  cacheGet : Option GoError := none
  cacheGetRepo : Option GoError := none
  dbFind : Option GoError := none
  cacheSetRepo : Option GoError := none
  cacheSet : Option GoError := none
  jitterRepo : Nat := 0
  jitter : Nat := 0
  marshalVideo : Video → Except GoError String
  unmarshalVideo : String → Except GoError Video

/-- Record a `GET` in the list of executed commands unless it was faulted. -/
def Store.noteGet (fault : Option GoError) (videoID : Nat) (st : Store) : Store :=
  match fault with
  | some _ => st
  | none => { st with ops := st.ops ++ [.cacheGet (keyVideoInfo videoID)] }

/-- Run `SetVideoCache` on the Redis of a store, recording the `SET` it executes. -/
def Store.setVideoCache (fault : Option GoError) (marshal : Video → Except GoError String)
    (jitter : Nat) (video : Video) (st : Store) : Option GoError × Store :=
  let out := SetVideoCache fault marshal jitter video st.rdb
  match out.1, marshal video with
  | none, .ok videoJSON =>
    (none, { st with rdb := out.2, ops := st.ops ++
      [.cacheSet (keyVideoInfo video.ID) videoJSON (cacheExpiration jitter)] })
  | err, _ => (err, { st with rdb := out.2 })

/-- The repository method `videoRepository.FindByID`: read the cache and return a hit;
otherwise fetch the row by primary key from MySQL (one fetch, its author preloaded),
return the error if there is none, and write the row back to the cache, ignoring the
error of that write. -/
def VideoRepository.FindByID (env : ReadEnv) (videoID : Nat) (st : Store) :
    Except GoError Video × Store :=
  let st1 := st.noteGet env.cacheGetRepo videoID
  match GetVideoCache env.cacheGetRepo env.unmarshalVideo videoID st.rdb with
  | .ok (some video) => (.ok video, st1)
  | _ =>
    match env.dbFind with
    | some e => (.error e, st1)
    | none =>
      let st2 : Store := { st1 with ops := st1.ops ++ [.dbFetch videoID] }
      match st.db.videos.find? (fun v => v.ID == videoID) with
      | none => (.error errRecordNotFound, st2)
      | some dbVideo =>
        (.ok dbVideo,
          (st2.setVideoCache env.cacheSetRepo env.marshalVideo env.jitterRepo dbVideo).2)

/-- The service method `GetVideoByID`, for a caller that is alone in its singleflight
group (`sf.Do` then simply runs the function): return a cache hit; return a cache
error that is not `redis.Nil`; otherwise call `FindByID`, return its error, or write
the row to the cache (ignoring the error of that write) and return it. -/
def GetVideoByID (env : ReadEnv) (videoID : Nat) (st : Store) : Except GoError Video × Store :=
  let st1 := st.noteGet env.cacheGet videoID
  match GetVideoCache env.cacheGet env.unmarshalVideo videoID st.rdb with
  | .ok (some video) => (.ok video, st1)
  | .error e =>
    if e ≠ redisNil then (.error e, st1)
    else
      match VideoRepository.FindByID env videoID st1 with
      | (.error dbErr, st2) => (.error dbErr, st2)
      | (.ok dbVideo, st2) =>
        (.ok dbVideo, (st2.setVideoCache env.cacheSet env.marshalVideo env.jitter dbVideo).2)
  | .ok none =>
    match VideoRepository.FindByID env videoID st1 with
    | (.error dbErr, st2) => (.error dbErr, st2)
    | (.ok dbVideo, st2) =>
      (.ok dbVideo, (st2.setVideoCache env.cacheSet env.marshalVideo env.jitter dbVideo).2)

/-! ## The like service (`service/like.go`) and its Redis commands -/

/-- The hash `video:like_counts`, one field per video. -/
def keyVideoLikeCountHash : String := "video:like_counts"

/-- The set of the users who like a video: `video:likers:<id>`. -/
def keyVideoLikers (videoID : Nat) : String :=
  "video:likers" ++ ":" ++ toString videoID

/-- The repository method `IsUserLikeVideo`: `SISMEMBER video:likers:<id> <user>`. -/
def IsUserLikeVideo (fault : Option GoError) (videoID userID : Nat) (r : Redis) :
    Bool × Option GoError :=
  match fault with
  | some e => (false, some e)
  | none => (r.sets (keyVideoLikers videoID) (toString userID), none)

/-- The repository method `AddVideoLike`: a pipeline of `SADD video:likers:<id> <user>`
and `HINCRBY video:like_counts <id> 1`. A pipeline is not a transaction: the commands
run one after the other, and when the second fails the first has taken effect. -/
def AddVideoLike (fault : Option GoError) (videoID userID : Nat) (r : Redis) :
    Option GoError × Redis :=
  match fault with
  | some e => (some e, r)
  | none =>
    let r1 : Redis := { r with sets := (Function.update r.sets (keyVideoLikers videoID)
      (Function.update (r.sets (keyVideoLikers videoID)) (toString userID) true)) }
    let out := incrValue none (r.hashes keyVideoLikeCountHash (toString videoID))
    (out.1.2, { r1 with hashes := (Function.update r.hashes keyVideoLikeCountHash
      (Function.update (r.hashes keyVideoLikeCountHash) (toString videoID) out.2)) })

/-- The repository method `RemoveVideoLike`: a pipeline of `SREM video:likers:<id> <user>`
and `HINCRBY video:like_counts <id> -1`. -/
def RemoveVideoLike (fault : Option GoError) (videoID userID : Nat) (r : Redis) :
    Option GoError × Redis :=
  match fault with
  | some e => (some e, r)
  | none =>
    let r1 : Redis := { r with sets := (Function.update r.sets (keyVideoLikers videoID)
      (Function.update (r.sets (keyVideoLikers videoID)) (toString userID) false)) }
    let out := decrValue none (r.hashes keyVideoLikeCountHash (toString videoID))
    (out.1.2, { r1 with hashes := (Function.update r.hashes keyVideoLikeCountHash
      (Function.update (r.hashes keyVideoLikeCountHash) (toString videoID) out.2)) })

/-- Whether `target` is in the chain of an error, as `errors.Is(err, target)` tests. -/
def GoError.is (target : GoError) : GoError → Bool
  | .plain m => GoError.plain m == target
  | .mysql n m => GoError.mysql n m == target
  | .wrap m inner => GoError.wrap m inner == target || GoError.is target inner

/-- Error of the like service when the video does not exist. -/
def errVideoNotExist : GoError := .plain "视频不存在"

/-- Error of `LikeVideo` when the user is already in the likers set. -/
def errAlreadyLiked : GoError := .plain "您已经点赞过该视频"

/-- Error of `UnlikeVideo` when the user is not in the likers set. -/
def errNotLiked : GoError := .plain "您还未点赞该视频"

/-- What a call of the like service touches: the stores of the read path and the
messages handed to the relay so far. -/
structure LikeWorld where
  store : Store
  relay : List Publishing

/-- The answers of the collaborators during one call of the like service: those of the
read path (for `FindByID`), a fault for the membership test, for the pipeline, for the
channel and for the publish, and `json.Marshal` on the message. -/
structure LikeEnv where
  read : ReadEnv
  sismember : Option GoError := none
  pipeline : Option GoError := none
  channelErr : Option GoError := none
  publishErr : Option GoError := none
  marshalLike : LikeMessage → Except GoError String

/-- The private method `publishLikeMessage`: open a channel, marshal the message,
publish it on the default exchange with the like queue as routing key (no delivery
mode is set). -/
def publishLikeMessage (env : LikeEnv) (msg : LikeMessage) (relay : List Publishing) :
    Option GoError × List Publishing :=
  match env.channelErr with
  | some e => (some e, relay)
  | none =>
    match env.marshalLike msg with
    | .error e => (some e, relay)
    | .ok body =>
      match env.publishErr with
      | some e => (some e, relay)
      | none =>
        (none, relay ++ [{ exchange := "", routingKey := QueueLike,
                           contentType := "application/json", body := body,
                           persistent := false }])

/-- The service method `LikeVideo`: check that the video exists (`FindByID`), check in
Redis that the user has not liked it, add the like in Redis, publish the message. -/
def LikeVideo (env : LikeEnv) (userID videoID : Nat) (w : LikeWorld) :
    Option GoError × LikeWorld :=
  match VideoRepository.FindByID env.read videoID w.store with
  | (.error e, st1) =>
    if GoError.is errRecordNotFound e then (some errVideoNotExist, { w with store := st1 })
    else (some e, { w with store := st1 })
  | (.ok _, st1) =>
    let liked := IsUserLikeVideo env.sismember videoID userID st1.rdb
    match liked.2 with
    | some e => (some e, { w with store := st1 })
    | none =>
      if liked.1 then (some errAlreadyLiked, { w with store := st1 })
      else
        match AddVideoLike env.pipeline videoID userID st1.rdb with
        | (some e, r2) => (some e, { w with store := { st1 with rdb := r2 } })
        | (none, r2) =>
          let pub := publishLikeMessage env
            { UserID := userID, VideoID := videoID, Action := "like" } w.relay
          (pub.1, { store := { st1 with rdb := r2 }, relay := pub.2 })

/-- The service method `UnlikeVideo`: check that the video exists, check in Redis that
the user has liked it, remove the like in Redis, publish the message. -/
def UnlikeVideo (env : LikeEnv) (userID videoID : Nat) (w : LikeWorld) :
    Option GoError × LikeWorld :=
  match VideoRepository.FindByID env.read videoID w.store with
  | (.error e, st1) =>
    if GoError.is errRecordNotFound e then (some errVideoNotExist, { w with store := st1 })
    else (some e, { w with store := st1 })
  | (.ok _, st1) =>
    let liked := IsUserLikeVideo env.sismember videoID userID st1.rdb
    match liked.2 with
    | some e => (some e, { w with store := st1 })
    | none =>
      if !liked.1 then (some errNotLiked, { w with store := st1 })
      else
        match RemoveVideoLike env.pipeline videoID userID st1.rdb with
        | (some e, r2) => (some e, { w with store := { st1 with rdb := r2 } })
        | (none, r2) =>
          let pub := publishLikeMessage env
            { UserID := userID, VideoID := videoID, Action := "unlike" } w.relay
          (pub.1, { store := { st1 with rdb := r2 }, relay := pub.2 })

/-! ## The comment service (`service/comment.go`): comments and replies -/

/-- Error of `CreateReply` when the parent is itself a reply. -/
def errReplyToReply : GoError := .plain "不能对二级评论进行回复"

/-- The primary key GORM writes back into a comment after `Create`: the key given, or
the next key of the allocator when the key given is zero. -/
def CommentRepository.assignedID (c : Comment) (db : DB) : Nat :=
  if c.ID = 0 then db.commentsNextID else c.ID

/-- The repository method `commentRepository.FindByID`: the row with that primary key
(its associations preloaded), or the not-found error. -/
def CommentRepository.FindByID (fault : Option GoError) (commentID : Nat) (db : DB) :
    Except GoError Comment :=
  match fault with
  | some e => .error e
  | none =>
    match db.comments.find? (fun c => c.ID == commentID) with
    | none => .error errRecordNotFound
    | some c => .ok c

/-- The service method `CreateComment`: insert a top-level comment (no parent, not
golden), then read it back by the key it was given. -/
def CreateComment (createFault findFault : Option GoError) (userID videoID : Nat)
    (content : String) (db : DB) : Except GoError Comment × DB :=
  let newComment : Comment :=
    { UserID := userID, VideoID := videoID, Content := content, LikeCount := 0,
      IsGolden := false }
  match CommentRepository.Create createFault newComment db with
  | (some e, db1) => (.error e, db1)
  | (none, db1) =>
    (CommentRepository.FindByID findFault (CommentRepository.assignedID newComment db) db1, db1)

/-- The service method `CreateReply`: refuse a parent that is itself a reply; otherwise
insert a reply carrying the key and the author of the parent and the video of the
parent, then read it back. -/
def CreateReply (createFault findFault : Option GoError) (userID : Nat)
    (parentComment : Comment) (content : String) (db : DB) : Except GoError Comment × DB :=
  if parentComment.ParentID ≠ none then (.error errReplyToReply, db)
  else
    let newReply : Comment :=
      { UserID := userID, VideoID := parentComment.VideoID, Content := content,
        LikeCount := 0, IsGolden := false, ParentID := some parentComment.ID,
        ReplyToUserID := some parentComment.UserID }
    match CommentRepository.Create createFault newReply db with
    | (some e, db1) => (.error e, db1)
    | (none, db1) =>
      (CommentRepository.FindByID findFault (CommentRepository.assignedID newReply db) db1, db1)

/-! ## The consumer process (`cmd/consumer/main.go`, function `main`)

The main goroutine runs `main` statement by statement; the goroutines started by
`consumeLikes` and `consumeGoldenComments` handle deliveries. `logger.Log.Fatalf` ends
the process. The channel `forever` of each consumer is unbuffered: a receive from it
proceeds only when a goroutine is ready to send on it. -/

/-- Where the main goroutine of the consumer process stands. -/
inductive MainPc where
  | initLogger     -- `logger.InitLogger()`
  | openDB         -- `gorm.Open`
  | dialMQ         -- `rabbitmq.InitRabbitMQ()`
  | likesChannel   -- `consumeLikes`: `conn.Channel()`
  | likesConsume   -- `consumeLikes`: `ch.Consume(QueueLike, ...)`
  | likesForever   -- `consumeLikes`: worker goroutine started, at `<-forever`
  | goldenChannel  -- `consumeGoldenComments`: `conn.Channel()`
  | goldenConsume  -- `consumeGoldenComments`: `ch.Consume(QueueGoldenComment, ...)`
  | goldenForever  -- `consumeGoldenComments`: worker goroutine started, at `<-forever`
  | returned       -- `main` has returned
  | exited         -- the process was ended by a `Fatalf`
  deriving DecidableEq, Repr

/-- The consumer process: the position of the main goroutine, which worker goroutines
run, how many goroutines are ready to send on each `forever` channel, the durable
store, and the answers given so far on each queue. -/
structure Proc where
  main : MainPc := .initLogger
  likeWorker : Bool := false
  goldenWorker : Bool := false
  likesForeverSenders : Nat := 0
  goldenForeverSenders : Nat := 0
  db : DB
  likeAnswers : List Decision := []
  goldenAnswers : List Decision := []
  deriving DecidableEq, Repr

/-- What can happen next in the process: the main goroutine runs its next statement
(`ok` tells whether the external call of that statement succeeds), or the relay
delivers a message on one of the two queues. -/
inductive ProcEvent where
  | main (ok : Bool)
  | likeDelivery (d : Delivery) (f : DbFaults)
  | goldenDelivery (d : Delivery) (f : DbFaults)
  deriving DecidableEq, Repr

/-- The next statement of `main`. A failing external call ends the process through
`Fatalf`; `<-forever` proceeds only if a sender is ready and otherwise blocks (the
state does not change); no statement of any goroutine sends on a `forever` channel. -/
def Proc.mainStep (s : Proc) (ok : Bool) : Proc :=
  match s.main with
  | .initLogger => { s with main := if ok then .openDB else .exited }
  | .openDB => { s with main := if ok then .dialMQ else .exited }
  | .dialMQ => { s with main := if ok then .likesChannel else .exited }
  | .likesChannel => { s with main := if ok then .likesConsume else .exited }
  | .likesConsume =>
    if ok then { s with main := .likesForever, likeWorker := true }
    else { s with main := .exited }
  | .likesForever =>
    if s.likesForeverSenders > 0 then
      { s with main := .goldenChannel, likesForeverSenders := s.likesForeverSenders - 1 }
    else s
  | .goldenChannel => { s with main := if ok then .goldenConsume else .exited }
  | .goldenConsume =>
    if ok then { s with main := .goldenForever, goldenWorker := true }
    else { s with main := .exited }
  | .goldenForever =>
    if s.goldenForeverSenders > 0 then
      { s with main := .returned, goldenForeverSenders := s.goldenForeverSenders - 1 }
    else s
  | .returned => s
  | .exited => s

/-- One event of the process. A delivery is handled only by a running worker goroutine
of a live process (a process that has exited or whose `main` has returned handles
nothing). -/
def Proc.step (uL : String → Except GoError LikeMessage)
    (uG : String → Except GoError GoldenCommentMessage) (s : Proc) : ProcEvent → Proc
  | .main ok => s.mainStep ok
  | .likeDelivery d f =>
    if s.likeWorker ∧ s.main ≠ .exited ∧ s.main ≠ .returned then
      { s with db := (consumeLikesOne uL f d s.db).db,
               likeAnswers := s.likeAnswers ++ [(consumeLikesOne uL f d s.db).decision] }
    else s
  | .goldenDelivery d f =>
    if s.goldenWorker ∧ s.main ≠ .exited ∧ s.main ≠ .returned then
      { s with db := (consumeGoldenCommentsOne uG f d s.db).db,
               goldenAnswers := s.goldenAnswers ++
                 [(consumeGoldenCommentsOne uG f d s.db).decision] }
    else s

/-- Run the process through a list of events. -/
def Proc.run (uL : String → Except GoError LikeMessage)
    (uG : String → Except GoError GoldenCommentMessage) (s : Proc) (events : List ProcEvent) :
    Proc :=
  events.foldl (Proc.step uL uG) s

/-- Whether `consumeGoldenComments` has been entered. -/
def MainPc.inGolden : MainPc → Bool
  | .goldenChannel => true
  | .goldenConsume => true
  | .goldenForever => true
  | .returned => true
  | _ => false

/-! ## Concurrent callers of `GetVideoByID` and the singleflight group

Several callers ask for the same video. Each caller is cut at its accesses to shared
state: its cache read, its entry into `sf.Do`, and, for the caller that runs the
function, `FindByID`, the cache write of the function, and the completion of the
call. `sf.Do` (package `singleflight`) runs the function for the first caller of a key
and makes every caller that arrives while that call is in flight wait for it and
receive its result; when the call completes the key is forgotten, so a later caller
starts a new call. -/

/-- Where one caller of `GetVideoByID` stands. -/
inductive ReadPc where
  | start                               -- before the cache read
  | atDo                                -- missed the cache, about to enter `sf.Do`
  | leading                             -- runs the function: `FindByID` is next
  | fetched (r : Except GoError Video)  -- `FindByID` answered, the cache write is next
  | finishing (r : Except GoError Video) -- the function returned, the call completes next
  | waiting                             -- joined a call in flight, blocked until it completes
  | returned (r : Except GoError Video) -- `GetVideoByID` returned `r`
  deriving DecidableEq, Repr

/-- The stores, whether the group holds a call in flight for the key, and the position
of every caller. -/
structure ReadSys where
  store : Store
  inFlight : Bool := false
  callers : List ReadPc

/-- What the completion of a call does to a caller: one that waits receives the result. -/
def ReadPc.wake (r : Except GoError Video) : ReadPc → ReadPc
  | .waiting => .returned r
  | pc => pc

/-- The caller with index `i` takes its next step (nothing happens when there is no
such caller, when it waits, or when it has returned). -/
def ReadSys.step (env : ReadEnv) (videoID : Nat) (s : ReadSys) (i : Nat) : ReadSys :=
  match s.callers[i]? with
  | none => s
  | some .start =>
    let st1 := s.store.noteGet env.cacheGet videoID
    match GetVideoCache env.cacheGet env.unmarshalVideo videoID s.store.rdb with
    | .ok (some video) =>
      { s with store := st1, callers := s.callers.set i (.returned (.ok video)) }
    | .error e =>
      if e ≠ redisNil then
        { s with store := st1, callers := s.callers.set i (.returned (.error e)) }
      else { s with store := st1, callers := s.callers.set i .atDo }
    | .ok none => { s with store := st1, callers := s.callers.set i .atDo }
  | some .atDo =>
    if s.inFlight then { s with callers := s.callers.set i .waiting }
    else { s with inFlight := true, callers := s.callers.set i .leading }
  | some .leading =>
    { s with store := (VideoRepository.FindByID env videoID s.store).2,
             callers := s.callers.set i (.fetched (VideoRepository.FindByID env videoID s.store).1) }
  | some (.fetched (.error e)) => { s with callers := s.callers.set i (.finishing (.error e)) }
  | some (.fetched (.ok video)) =>
    { s with store := (s.store.setVideoCache env.cacheSet env.marshalVideo env.jitter video).2,
             callers := s.callers.set i (.finishing (.ok video)) }
  | some (.finishing r) =>
    { s with inFlight := false,
             callers := (s.callers.set i (.returned r)).map (ReadPc.wake r) }
  | some .waiting => s
  | some (.returned _) => s

/-- Run a schedule: the list of the indices of the callers that move, in order. -/
def ReadSys.run (env : ReadEnv) (videoID : Nat) (s : ReadSys) (sched : List Nat) : ReadSys :=
  sched.foldl (ReadSys.step env videoID) s

/-- Initial state: `k` callers about to start, no call in flight. -/
def ReadSys.init (st : Store) (k : Nat) : ReadSys :=
  { store := st, inFlight := false, callers := List.replicate k .start }

/-- An upper bound on the steps a caller still takes, or waits for, before it
returns. -/
def ReadPc.rank : ReadPc → Nat
  | .start => 5
  | .atDo => 4
  | .leading => 3
  | .fetched _ => 2
  | .finishing _ => 1
  | .waiting => 1
  | .returned _ => 0

/-- A `*gorm.DB` handle: the connection pool, or the transaction with the given number. -/
inductive Conn where
  | pool
  | tx (id : Nat)
  deriving DecidableEq, Repr

/-- The MySQL server as the handles see it: the committed tables; for each transaction
that is open, what its statements so far do to the tables; the number the next
transaction gets. -/
structure MySQL where
  committed : DB
  txs : Nat → Option (DB → DB) := fun _ => none
  nextTx : Nat := 1

/-- The error of `database/sql` for a statement on a transaction that is not open. -/
def errTxDone : GoError := .plain "sql: transaction has already been committed or rolled back"

/-- A statement sent through a handle. Through the pool it is applied to the committed
tables at once (autocommit). Through the handle of an open transaction it is run on
the tables as that transaction sees them and joins what the transaction does; the
committed tables do not move. -/
def Conn.exec (c : Conn) (stmt : DB → Option GoError × DB) (m : MySQL) :
    Option GoError × MySQL :=
  match c with
  | .pool => ((stmt m.committed).1, { m with committed := (stmt m.committed).2 })
  | .tx id =>
    match m.txs id with
    | none => (some errTxDone, m)
    | some eff =>
      ((stmt (eff m.committed)).1,
        { m with txs := Function.update m.txs id (some (fun d => (stmt (eff d)).2)) })

/-- `tx.Commit()`: what the transaction did is applied to the committed tables, and
the transaction is closed. -/
def MySQL.commit (id : Nat) (m : MySQL) : MySQL :=
  match m.txs id with
  | none => m
  | some eff => { m with committed := eff m.committed, txs := Function.update m.txs id none }

/-- `tx.Rollback()`: the transaction is closed and what it did is dropped. -/
def MySQL.rollback (id : Nat) (m : MySQL) : MySQL :=
  { m with txs := Function.update m.txs id none }

/-- What a Go function does to the database: it returns an error or nil, or it sends a
statement through a handle and goes on according to the error of that statement. -/
inductive Prog where
  | ret (err : Option GoError)
  | exec (c : Conn) (stmt : DB → Option GoError × DB) (next : Option GoError → Prog)

/-- Run a function against the server. -/
def Prog.run : Prog → MySQL → Option GoError × MySQL
  | .ret err, m => (err, m)
  | .exec c stmt next, m => (next (c.exec stmt m).1).run (c.exec stmt m).2

/-- The statements of a function applied in order to given tables, whatever handle
each is sent through. -/
def Prog.onDB : Prog → DB → Option GoError × DB
  | .ret err, d => (err, d)
  | .exec _ stmt next, d => (next (stmt d).1).onDB (stmt d).2

/-- GORM `db.Transaction(fc)` on the connection pool: begin a transaction, call `fc`
with its handle; commit when `fc` returns nil, roll back when it returns an error or
when the commit fails; the error of `fc` is returned as it is. -/
def MySQL.Transaction (beginErr commitErr : Option GoError) (fc : Conn → Prog) (m : MySQL) :
    Option GoError × MySQL :=
  match beginErr with
  | some e => (some e, m)
  | none =>
    let id := m.nextTx
    let m1 : MySQL :=
      { m with txs := Function.update m.txs id (some (fun d => d)), nextTx := id + 1 }
    let out := (fc (.tx id)).run m1
    match out.1 with
    | some e => (some e, out.2.rollback id)
    | none =>
      match commitErr with
      | some e => (some e, out.2.rollback id)
      | none => (none, out.2.commit id)

/-- The struct `commentRepository`: a handle. -/
structure commentRepository where
  db : Conn
  deriving DecidableEq, Repr

/-- The struct `videoRepository`, as far as MySQL goes: a handle. -/
structure videoRepository where
  db : Conn
  deriving DecidableEq, Repr

/-- The method `commentRepository.WithTx`: a copy that holds the handle `tx`. -/
def commentRepository.WithTx (_r : commentRepository) (tx : Conn) : commentRepository :=
  { db := tx }

/-- The method `videoRepository.WithTx`: a copy that holds the handle `tx`. -/
def videoRepository.WithTx (_r : videoRepository) (tx : Conn) : videoRepository :=
  { db := tx }

/-- The method `commentRepository.Create` (`r.db.Create(comment)`): the insert goes
through the handle the repository holds. -/
def commentRepository.Create (r : commentRepository) (fault : Option GoError) (c : Comment)
    (next : Option GoError → Prog) : Prog :=
  .exec r.db (CommentRepository.Create fault c) next

/-- The method `videoRepository.IncrementGoldenCount`: the update goes through the
handle the repository holds. -/
def videoRepository.IncrementGoldenCount (r : videoRepository) (fault : Option GoError)
    (videoID : Nat) (next : Option GoError → Prog) : Prog :=
  .exec r.db
    (fun d => ((VideoRepository.IncrementGoldenCount fault videoID d).1.2,
      (VideoRepository.IncrementGoldenCount fault videoID d).2))
    next

/-- The struct `TransactionalRepositories`. -/
structure TransactionalRepositories where
  VideoRepo : videoRepository
  CommentRepo : commentRepository
  deriving DecidableEq, Repr

/-- The struct `gormUnitOfWork`: the repositories `NewUnitOfWork` was given, which are
not bound to a transaction. Its handle `db` is the connection pool, the only handle
`main` creates. -/
structure gormUnitOfWork where
  videoRepo : videoRepository
  commentRepo : commentRepository
  deriving DecidableEq, Repr

/-- The repositories `Execute` builds for the transaction `tx`:
`u.videoRepo.WithTx(tx)` and `u.commentRepo.WithTx(tx)`. -/
def gormUnitOfWork.transactionalRepos (u : gormUnitOfWork) (tx : Conn) :
    TransactionalRepositories :=
  { VideoRepo := u.videoRepo.WithTx tx, CommentRepo := u.commentRepo.WithTx tx }

/-- The method `gormUnitOfWork.Execute`: `u.db.Transaction`, whose callback builds the
repositories of the transaction and passes them to `fn`. -/
def gormUnitOfWork.Execute (u : gormUnitOfWork) (beginErr commitErr : Option GoError)
    (fn : TransactionalRepositories → Prog) (m : MySQL) : Option GoError × MySQL :=
  MySQL.Transaction beginErr commitErr (fun tx => fn (u.transactionalRepos tx)) m

/-- Every statement of the function goes through a repository of `repos`. -/
def Prog.within (repos : TransactionalRepositories) : Prog → Prop
  | .ret _ => True
  | .exec c _ next =>
    (c = repos.VideoRepo.db ∨ c = repos.CommentRepo.db) ∧ ∀ e, (next e).within repos

/-- The function `consumeGoldenComments` passes to `uow.Execute`: insert the golden
comment through `repos.CommentRepo`, then increment the golden counter of its video
through `repos.VideoRepo`; the first error is returned. -/
def goldenFn (f : DbFaults) (msg : GoldenCommentMessage) (repos : TransactionalRepositories) :
    Prog :=
  repos.CommentRepo.Create f.commentCreate
    { UserID := msg.UserID, VideoID := msg.VideoID, Content := msg.Content, IsGolden := true }
    (fun err =>
      match err with
      | some e => .ret (some e)
      | none => repos.VideoRepo.IncrementGoldenCount f.incrGolden msg.VideoID (fun err2 => .ret err2))

/-- The names of the repositories in `TransactionalRepositories`. -/
inductive RepoSel where
  | VideoRepo
  | CommentRepo
  deriving DecidableEq, Repr

/-- The handle held by the repository of the given name. -/
def TransactionalRepositories.handle (repos : TransactionalRepositories) : RepoSel → Conn
  | .VideoRepo => repos.VideoRepo.db
  | .CommentRepo => repos.CommentRepo.db

/-- A function `fn` as `Execute` accepts it, written over the argument it will
receive: it returns an error or nil, or it calls a method of `repos.VideoRepo` or of
`repos.CommentRepo` (a statement) and goes on according to the error of that call. -/
inductive Script where
  | ret (err : Option GoError)
  | call (sel : RepoSel) (stmt : DB → Option GoError × DB) (next : Option GoError → Script)

/-- The function a script is, applied to the repositories `repos`: every call goes
through the handle the repository of that name holds. -/
def Script.bind (repos : TransactionalRepositories) : Script → Prog
  | .ret err => .ret err
  | .call sel stmt next => .exec (repos.handle sel) stmt (fun e => (next e).bind repos)

/-- The statements of a script applied in order to given tables: the error the
function returns and the tables its writes produce. -/
def Script.onDB : Script → DB → Option GoError × DB
  | .ret err, d => (err, d)
  | .call _ stmt next, d => (next (stmt d).1).onDB (stmt d).2

/-- The function of the golden-comment consumer as a script. -/
def goldenScript (f : DbFaults) (msg : GoldenCommentMessage) : Script :=
  .call .CommentRepo
    (CommentRepository.Create f.commentCreate
      { UserID := msg.UserID, VideoID := msg.VideoID, Content := msg.Content, IsGolden := true })
    (fun err =>
      match err with
      | some e => .ret (some e)
      | none =>
        .call .VideoRepo
          (fun d => ((VideoRepository.IncrementGoldenCount f.incrGolden msg.VideoID d).1.2,
            (VideoRepository.IncrementGoldenCount f.incrGolden msg.VideoID d).2))
          (fun err2 => .ret err2))

/-- A function that inserts a comment through `repos.CommentRepo` and then fails. -/
def insertThenFail (c : Comment) (e : GoError) : Script :=
  .call .CommentRepo (CommentRepository.Create none c) (fun _ => .ret (some e))

/-- The unit of work `main` builds: both repositories on the connection pool. -/
def uowMain : gormUnitOfWork :=
  { videoRepo := { db := .pool }, commentRepo := { db := .pool } }

/-- A server whose committed tables hold videos 42 and 9 and nothing else. -/
def mysqlFresh : MySQL :=
  { committed := { videos := [{ ID := 42 }, { ID := 9 }] } }

/-! ## The wire format (`encoding/json` on the two message structs) -/

/-- The replacement character U+FFFD, which `encoding/json` substitutes for an
escaped surrogate that has no partner. -/
def replacementChar : Char := Char.ofNat 0xFFFD

/-- The text `json.Marshal` writes for one character of a Go string (HTML escaping
on, as `Marshal` has it): the quote and the backslash get a backslash; newline,
carriage return and tab their short form; backspace and form feed their short form
when `shortBF` (Go 1.22 and later) and the six-character form otherwise; the other
control characters and `<`, `>`, `&` the form `\u00XX`; U+2028 and U+2029 the form
`\u202X`; every other character is copied. -/
def escapeChar (shortBF : Bool) (c : Char) : List Char :=
  if c = '"' then ['\\', '"']
  else if c = '\\' then ['\\', '\\']
  else if c = '\n' then ['\\', 'n']
  else if c = '\r' then ['\\', 'r']
  else if c = '\t' then ['\\', 't']
  else if shortBF = true ∧ c = Char.ofNat 8 then ['\\', 'b']
  else if shortBF = true ∧ c = Char.ofNat 12 then ['\\', 'f']
  else if c.toNat < 0x20 ∨ c = '<' ∨ c = '>' ∨ c = '&' then
    ['\\', 'u', '0', '0', Nat.digitChar (c.toNat / 16), Nat.digitChar (c.toNat % 16)]
  else if c = Char.ofNat 0x2028 ∨ c = Char.ofNat 0x2029 then
    ['\\', 'u', '2', '0', '2', Nat.digitChar (c.toNat % 16)]
  else [c]

/-- The escaped text of a whole string, without the surrounding quotes. -/
def escapeString (shortBF : Bool) : List Char → List Char
  | [] => []
  | c :: cs => escapeChar shortBF c ++ escapeString shortBF cs

/-- A JSON string literal as `json.Marshal` writes it. -/
def quoteString (shortBF : Bool) (s : String) : List Char :=
  ['"'] ++ escapeString shortBF s.data ++ ['"']

/-- The body `json.Marshal` writes for a struct with the fields `user_id` (uint64),
`video_id` (uint64) and a string field named `third`, in the order of declaration:
every name as a string literal, the numbers in decimal. -/
def encodeMessage (shortBF : Bool) (third : String) (userID videoID : Nat) (text : String) :
    List Char :=
  [Char.ofNat 123] ++ quoteString shortBF "user_id" ++ [':'] ++ Nat.toDigits 10 userID
    ++ [','] ++ quoteString shortBF "video_id" ++ [':'] ++ Nat.toDigits 10 videoID
    ++ [','] ++ quoteString shortBF third ++ [':'] ++ quoteString shortBF text
    ++ [Char.ofNat 125]

/-- A token of a JSON text. -/
inductive JTok where
  | lbrace | rbrace | lbrack | rbrack | colon | comma
  | str (s : List Char)
  | num (literal : List Char)
  | tTrue | tFalse | tNull
  deriving DecidableEq, Repr

/-- Where the scanner stands inside a number literal. -/
inductive NumState where
  | neg | zero | int | dot | frac | exp | expSign | expDigits
  deriving DecidableEq, Repr

/-- Whether a number literal may end in this state. -/
def NumState.accepting : NumState → Bool
  | .zero | .int | .frac | .expDigits => true
  | _ => false

/-- Whether a character is a decimal digit. -/
def isDigit (c : Char) : Bool := 48 ≤ c.toNat && c.toNat ≤ 57

/-- The scanner inside a number literal reads one more character of it, if the
character continues the literal. -/
def NumState.next (st : NumState) (c : Char) : Option NumState :=
  match st with
  | .neg => if c = '0' then some .zero else if isDigit c then some .int else none
  | .zero =>
    if c = '.' then some .dot else if c = 'e' ∨ c = 'E' then some .exp else none
  | .int =>
    if isDigit c then some .int else if c = '.' then some .dot
    else if c = 'e' ∨ c = 'E' then some .exp else none
  | .dot => if isDigit c then some .frac else none
  | .frac =>
    if isDigit c then some .frac else if c = 'e' ∨ c = 'E' then some .exp else none
  | .exp =>
    if c = '+' ∨ c = '-' then some .expSign else if isDigit c then some .expDigits else none
  | .expSign => if isDigit c then some .expDigits else none
  | .expDigits => if isDigit c then some .expDigits else none

/-- What the scanner is in the middle of: nothing (`idle`), a string (the characters
decoded so far and an escaped high surrogate still waiting for its partner), an
escape after the backslash, the hexadecimal digits of a `\u` escape, a number, or
one of the words `true`, `false`, `null` (the characters still expected). -/
inductive LexMode where
  | idle
  | inStr (acc : List Char) (hi : Option Nat)
  | inEsc (acc : List Char) (hi : Option Nat)
  | inHex (acc : List Char) (hi : Option Nat) (digits : List Nat)
  | inNum (acc : List Char) (st : NumState)
  | inWord (rest : List Char) (tok : JTok)
  | failed
  deriving DecidableEq, Repr

/-- The scanner: what it is in the middle of and the tokens completed so far. -/
structure LexState where
  mode : LexMode
  toks : List JTok
  deriving DecidableEq, Repr

/-- The value of a hexadecimal digit. -/
def hexVal (c : Char) : Option Nat :=
  if 48 ≤ c.toNat ∧ c.toNat ≤ 57 then some (c.toNat - 48)
  else if 97 ≤ c.toNat ∧ c.toNat ≤ 102 then some (c.toNat - 87)
  else if 65 ≤ c.toNat ∧ c.toNat ≤ 70 then some (c.toNat - 55)
  else none

/-- The character an escape of two characters stands for. -/
def simpleEscape (c : Char) : Option Char :=
  if c = '"' then some '"'
  else if c = '\\' then some '\\'
  else if c = '/' then some '/'
  else if c = 'b' then some (Char.ofNat 8)
  else if c = 'f' then some (Char.ofNat 12)
  else if c = 'n' then some '\n'
  else if c = 'r' then some '\r'
  else if c = 't' then some '\t'
  else none

/-- A high surrogate that found no partner becomes U+FFFD. -/
def flushHi (acc : List Char) (hi : Option Nat) : List Char :=
  match hi with
  | none => acc
  | some _ => acc ++ [replacementChar]

/-- A `\uXXXX` escape of value `v` that does not complete a pair: a high surrogate
waits for its partner, a low surrogate alone becomes U+FFFD, anything else is the
character itself. -/
def plainEscape (acc : List Char) (v : Nat) : LexMode :=
  if 0xD800 ≤ v ∧ v < 0xDC00 then .inStr acc (some v)
  else if 0xDC00 ≤ v ∧ v < 0xE000 then .inStr (acc ++ [replacementChar]) none
  else .inStr (acc ++ [Char.ofNat v]) none

/-- A `\uXXXX` escape of value `v` inside a string: after a waiting high surrogate a
low surrogate completes the pair; otherwise the waiting one becomes U+FFFD and the
escape is read on its own. -/
def unicodeEscape (acc : List Char) (hi : Option Nat) (v : Nat) : LexMode :=
  match hi with
  | some h =>
    if 0xDC00 ≤ v ∧ v < 0xE000 then
      .inStr (acc ++ [Char.ofNat (0x10000 + (h - 0xD800) * 0x400 + (v - 0xDC00))]) none
    else plainEscape (acc ++ [replacementChar]) v
  | none => plainEscape acc v

/-- The value of four hexadecimal digits. -/
def hex4 (ds : List Nat) : Nat :=
  ds.foldl (fun a d => a * 16 + d) 0

/-- The scanner between two tokens reads one character. -/
def lexIdle (toks : List JTok) (c : Char) : LexState :=
  if c = ' ' ∨ c = '\t' ∨ c = '\n' ∨ c = '\r' then { mode := .idle, toks := toks }
  else if c = Char.ofNat 123 then { mode := .idle, toks := toks ++ [.lbrace] }
  else if c = Char.ofNat 125 then { mode := .idle, toks := toks ++ [.rbrace] }
  else if c = '[' then { mode := .idle, toks := toks ++ [.lbrack] }
  else if c = ']' then { mode := .idle, toks := toks ++ [.rbrack] }
  else if c = ':' then { mode := .idle, toks := toks ++ [.colon] }
  else if c = ',' then { mode := .idle, toks := toks ++ [.comma] }
  else if c = '"' then { mode := .inStr [] none, toks := toks }
  else if c = '-' then { mode := .inNum [c] .neg, toks := toks }
  else if c = '0' then { mode := .inNum [c] .zero, toks := toks }
  else if isDigit c then { mode := .inNum [c] .int, toks := toks }
  else if c = 't' then { mode := .inWord ['r', 'u', 'e'] .tTrue, toks := toks }
  else if c = 'f' then { mode := .inWord ['a', 'l', 's', 'e'] .tFalse, toks := toks }
  else if c = 'n' then { mode := .inWord ['u', 'l', 'l'] .tNull, toks := toks }
  else { mode := .failed, toks := toks }

/-- The scanner reads one character. -/
def lexStep (s : LexState) (c : Char) : LexState :=
  match s.mode with
  | .failed => s
  | .idle => lexIdle s.toks c
  | .inStr acc hi =>
    if c = '"' then { mode := .idle, toks := s.toks ++ [.str (flushHi acc hi)] }
    else if c = '\\' then { s with mode := .inEsc acc hi }
    else if c.toNat < 0x20 then { s with mode := .failed }
    else { s with mode := .inStr (flushHi acc hi ++ [c]) none }
  | .inEsc acc hi =>
    if c = 'u' then { s with mode := .inHex acc hi [] }
    else
      match simpleEscape c with
      | some d => { s with mode := .inStr (flushHi acc hi ++ [d]) none }
      | none => { s with mode := .failed }
  | .inHex acc hi ds =>
    match hexVal c with
    | none => { s with mode := .failed }
    | some d =>
      if ds.length < 3 then { s with mode := .inHex acc hi (ds ++ [d]) }
      else { s with mode := unicodeEscape acc hi (hex4 (ds ++ [d])) }
  | .inNum acc st =>
    match st.next c with
    | some st2 => { s with mode := .inNum (acc ++ [c]) st2 }
    | none =>
      if st.accepting then lexIdle (s.toks ++ [.num acc]) c
      else { s with mode := .failed }
  | .inWord rest tok =>
    match rest with
    | [] => { s with mode := .failed }
    | [e] =>
      if c = e then { mode := .idle, toks := s.toks ++ [tok] }
      else { s with mode := .failed }
    | e :: more =>
      if c = e then { s with mode := .inWord more tok } else { s with mode := .failed }

/-- The error `encoding/json` reports for a text that is not JSON. -/
def errSyntax : GoError := .plain "json: syntax error"

/-- The error `encoding/json` reports for a JSON value that does not fit the Go type
it is decoded into (`*json.UnmarshalTypeError`). -/
def errUnmarshalType : GoError := .plain "json: cannot unmarshal value into Go value"

/-- The tokens of a text, or nothing when the scanner rejects it or the text ends in
the middle of a token. -/
def lex (body : List Char) : Option (List JTok) :=
  let s := body.foldl lexStep { mode := .idle, toks := [] }
  match s.mode with
  | .idle => some s.toks
  | .inNum acc st => if st.accepting then some (s.toks ++ [.num acc]) else none
  | _ => none

/-- What the decoder is inside of. -/
inductive Ctx where
  | obj | arr
  deriving DecidableEq, Repr

/-- What the decoder expects next. -/
inductive Expect where
  | value | valueOrClose | keyOrClose | key | colon | commaOrClose | done | bad
  deriving DecidableEq, Repr

/-- The decoder of a struct with the fields `user_id`, `video_id` (uint64) and one
string field: what it expects, the containers it is inside of (innermost first), the
key of the member of the outermost object it is reading, the three fields as
decoded so far, and whether a value did not fit the type of its field. -/
structure DecodeState where
  expect : Expect := .value
  stack : List Ctx := []
  key : List Char := []
  userID : Nat := 0
  videoID : Nat := 0
  text : List Char := []
  typeErr : Bool := false
  deriving DecidableEq, Repr

/-- The key of a member as `encoding/json` compares it with the name of a field when
no field has exactly that name: letters of ASCII in upper case, and the two
characters outside ASCII that fold to a letter of ASCII (U+017F to S, U+212A to K). -/
def foldChar (c : Char) : Char :=
  if 97 ≤ c.toNat ∧ c.toNat ≤ 122 then Char.ofNat (c.toNat - 32)
  else if c = Char.ofNat 0x17F then 'S'
  else if c = Char.ofNat 0x212A then 'K'
  else c

/-- Whether a key selects the field of the given name. -/
def keyMatches (key : List Char) (name : String) : Bool :=
  key.map foldChar = name.data.map foldChar

/-- The value of a literal of decimal digits (`strconv.ParseUint(s, 10, 64)`):
nothing when a character is not a digit or the value does not fit 64 bits. -/
def parseUint64 (literal : List Char) : Option Nat :=
  if literal ≠ [] ∧ literal.all isDigit then
    let v := literal.foldl (fun a c => a * 10 + (c.toNat - 48)) 0
    if v < 2 ^ 64 then some v else none
  else none

/-- The value a uint64 field takes from a scalar: that of a number `ParseUint`
accepts; `null` leaves the field as it is; anything else is a type error (nothing). -/
def uintValue (tok : JTok) (cur : Nat) : Option Nat :=
  match tok with
  | .num literal => parseUint64 literal
  | .tNull => some cur
  | _ => none

/-- The value a string field takes from a scalar: that of a string; `null` leaves
the field as it is; anything else is a type error (nothing). -/
def textValue (tok : JTok) (cur : List Char) : Option (List Char) :=
  match tok with
  | .str v => some v
  | .tNull => some cur
  | _ => none

/-- Store a scalar into the field the current key selects, if any. -/
def DecodeState.assign (third : String) (s : DecodeState) (tok : JTok) : DecodeState :=
  if keyMatches s.key "user_id" then
    match uintValue tok s.userID with
    | some n => { s with userID := n }
    | none => { s with typeErr := true }
  else if keyMatches s.key "video_id" then
    match uintValue tok s.videoID with
    | some n => { s with videoID := n }
    | none => { s with typeErr := true }
  else if keyMatches s.key third then
    match textValue tok s.text with
    | some v => { s with text := v }
    | none => { s with typeErr := true }
  else s

/-- Whether the current key selects one of the three fields. -/
def DecodeState.keyKnown (third : String) (s : DecodeState) : Bool :=
  keyMatches s.key "user_id" || keyMatches s.key "video_id" || keyMatches s.key third

/-- The decoder has read a whole value inside the containers `stack`. -/
def afterValue (stack : List Ctx) : Expect :=
  match stack with
  | [] => .done
  | _ => .commaOrClose

/-- The decoder reads one token. -/
def decodeStep (third : String) (s : DecodeState) (tok : JTok) : DecodeState :=
  match tok with
  | .str v =>
    match s.expect with
    | .key | .keyOrClose =>
      if s.stack = [.obj] then { s with key := v, expect := .colon }
      else { s with expect := .colon }
    | .value | .valueOrClose =>
      match s.stack with
      | [] => { s with typeErr := true, expect := .done }
      | [.obj] => { s.assign third tok with expect := .commaOrClose }
      | _ => { s with expect := .commaOrClose }
    | _ => { s with expect := .bad }
  | .num _ | .tTrue | .tFalse =>
    match s.expect with
    | .value | .valueOrClose =>
      match s.stack with
      | [] => { s with typeErr := true, expect := .done }
      | [.obj] => { s.assign third tok with expect := .commaOrClose }
      | _ => { s with expect := .commaOrClose }
    | _ => { s with expect := .bad }
  | .tNull =>
    match s.expect with
    | .value | .valueOrClose =>
      match s.stack with
      | [] => { s with expect := .done }
      | [.obj] => { s.assign third tok with expect := .commaOrClose }
      | _ => { s with expect := .commaOrClose }
    | _ => { s with expect := .bad }
  | .lbrace =>
    match s.expect with
    | .value | .valueOrClose =>
      match s.stack with
      | [] => { s with stack := [.obj], expect := .keyOrClose }
      | [.obj] =>
        { s with typeErr := s.typeErr || s.keyKnown third, stack := .obj :: s.stack,
                 expect := .keyOrClose }
      | _ => { s with stack := .obj :: s.stack, expect := .keyOrClose }
    | _ => { s with expect := .bad }
  | .lbrack =>
    match s.expect with
    | .value | .valueOrClose =>
      match s.stack with
      | [] => { s with typeErr := true, stack := [.arr], expect := .valueOrClose }
      | [.obj] =>
        { s with typeErr := s.typeErr || s.keyKnown third, stack := .arr :: s.stack,
                 expect := .valueOrClose }
      | _ => { s with stack := .arr :: s.stack, expect := .valueOrClose }
    | _ => { s with expect := .bad }
  | .colon =>
    match s.expect with
    | .colon => { s with expect := .value }
    | _ => { s with expect := .bad }
  | .comma =>
    match s.expect, s.stack with
    | .commaOrClose, .obj :: _ => { s with expect := .key }
    | .commaOrClose, .arr :: _ => { s with expect := .value }
    | _, _ => { s with expect := .bad }
  | .rbrace =>
    match s.expect, s.stack with
    | .commaOrClose, .obj :: rest => { s with stack := rest, expect := afterValue rest }
    | .keyOrClose, .obj :: rest => { s with stack := rest, expect := afterValue rest }
    | _, _ => { s with expect := .bad }
  | .rbrack =>
    match s.expect, s.stack with
    | .commaOrClose, .arr :: rest => { s with stack := rest, expect := afterValue rest }
    | .valueOrClose, .arr :: rest => { s with stack := rest, expect := afterValue rest }
    | _, _ => { s with expect := .bad }

/-- The call `json.Unmarshal(body, &msg)` on a zero struct with the fields `user_id`,
`video_id` (uint64) and the string field `third`: a text that is not one JSON value
is a syntax error; a value that does not fit (a top-level value that is neither an
object nor `null`, a member that does not fit its field) is a type error; otherwise
the three fields, those not mentioned (or given as `null`) being zero. -/
def decodeMessage (third : String) (body : List Char) : Except GoError (Nat × Nat × String) :=
  match lex body with
  | none => .error errSyntax
  | some toks =>
    let s := toks.foldl (decodeStep third) {}
    if s.expect = .done then
      if s.typeErr then .error errUnmarshalType
      else .ok (s.userID, s.videoID, String.mk s.text)
    else .error errSyntax

/-- The call `json.Marshal(msg)` of the like producer (`service.LikeMessage`, tags
`user_id`, `video_id`, `action`); it cannot fail on this struct. -/
def jsonMarshalLike (shortBF : Bool) (msg : LikeMessage) : Except GoError String :=
  .ok (String.mk (encodeMessage shortBF "action" msg.UserID msg.VideoID msg.Action))

/-- The call `json.Unmarshal(d.Body, &msg)` of the like consumer (the `LikeMessage`
of `cmd/consumer/main.go`, tags `user_id`, `video_id`, `action`). -/
def jsonUnmarshalLike (body : String) : Except GoError LikeMessage :=
  match decodeMessage "action" body.data with
  | .error e => .error e
  | .ok (u, v, a) => .ok { UserID := u, VideoID := v, Action := a }

/-- The call `json.Marshal(msg)` of the golden-comment producer
(`service.GoldenCommentMessage`, tags `user_id`, `video_id`, `content`). -/
def jsonMarshalGolden (shortBF : Bool) (msg : GoldenCommentMessage) :
    Except GoError String :=
  .ok (String.mk (encodeMessage shortBF "content" msg.UserID msg.VideoID msg.Content))

/-- The call `json.Unmarshal(d.Body, &msg)` of the golden-comment consumer (the
`GoldenCommentMessage` of `cmd/consumer/main.go`). -/
def jsonUnmarshalGolden (body : String) : Except GoError GoldenCommentMessage :=
  match decodeMessage "content" body.data with
  | .error e => .error e
  | .ok (u, v, c) => .ok { UserID := u, VideoID := v, Content := c }

/-! ## Readings of the durable store used by the properties -/

/-- The durable store answering every call: no fault injected. -/
def noFaults : DbFaults := {}


/-- Whether `likes` holds a row for the pair (user, video). -/
def DB.hasRelation (db : DB) (userID videoID : Nat) : Bool :=
  db.likes.any (fun r => r.UserID == userID && r.VideoID == videoID)

/-- The `golden_count` column of a video, if the video exists. -/
def DB.goldenCount (db : DB) (videoID : Nat) : Option Nat :=
  (db.videos.find? (fun v => v.ID == videoID)).map (fun v => v.GoldenCount)

/-- Store faults with the counter statement of the like transaction failing on a lost
connection. -/
def faultsIncrLikeDown : DbFaults :=
  { incrLike := some (.plain "invalid connection") }

/-- Store faults with the counter statement of the golden-comment unit of work failing
on a lost connection. -/
def faultsIncrGoldenDown : DbFaults :=
  { incrGolden := some (.plain "invalid connection") }

/-! ## Worked inputs for the read path -/

/-- Video 5 of the worked examples. -/
def video5 : Video :=
  { ID := 5, AuthorID := 1, Title := "intro",
    VideoURL := "https://placeholder.com/video.mp4",
    CoverURL := "https://placeholder.com/cover.jpg" }

/-- The reply of `json.Marshal` on a video for the worked examples, cut down to the
modelled columns the examples tell apart: the key and the two counters in decimal,
the title copied between quotes (the examples use titles that need no escaping). -/
def marshalVideoPlain (v : Video) : Except GoError String :=
  .ok ("\x7b\"ID\":" ++ toString v.ID ++ ",\"Title\":\"" ++ v.Title ++ "\",\"LikeCount\":"
    ++ toString v.LikeCount ++ ",\"GoldenCount\":" ++ toString v.GoldenCount ++ "\x7d")

/-- The body `marshalVideoPlain` gives for video 5. -/
def jsonVideo5 : String :=
  "\x7b\"ID\":5,\"Title\":\"intro\",\"LikeCount\":0,\"GoldenCount\":0\x7d"

/-- The reply of `json.Unmarshal` into a video for the worked examples: the body of
video 5 decodes to video 5, other bodies are rejected. -/
def unmarshalVideoTable (body : String) : Except GoError Video :=
  if body = jsonVideo5 then .ok video5
  else .error (.plain "invalid character in JSON input")

/-- Collaborators of the read path that all answer, the two jitters drawn being 17
and 42. -/
def envRead : ReadEnv :=
  { jitterRepo := 17, jitter := 42,
    marshalVideo := marshalVideoPlain, unmarshalVideo := unmarshalVideoTable }

/-- Collaborators of the read path with Redis unreachable for the first cache read. -/
def envCacheDown : ReadEnv :=
  { envRead with cacheGet := some (.plain "dial tcp 127.0.0.1:6379: connect: connection refused") }

/-- A store whose MySQL holds video 5 and whose Redis holds nothing. -/
def storeMiss5 : Store :=
  { rdb := { counters := fun _ => 0 }, db := { videos := [video5] } }

/-- A store whose MySQL holds video 5 and whose Redis holds its cache entry. -/
def storeHit5 : Store :=
  { rdb := { counters := fun _ => 0,
             cache := fun k => if k = "video:info:5" then
               some { value := jsonVideo5, ttl := 330 * second } else none },
    db := { videos := [video5] } }

/-- A store whose MySQL holds no video and whose Redis holds nothing. -/
def storeEmpty : Store :=
  { rdb := { counters := fun _ => 0 }, db := {} }

/-- A store with video 9 and one top-level comment of user 3 on it. -/
def dbOneComment : DB :=
  { comments := [{ ID := 1, VideoID := 9, UserID := 3, Content := "top" }]
    commentsNextID := 2
    videos := [{ ID := 9 }] }

/-- The reply of `json.Marshal` on a `LikeMessage` for the worked examples: numbers in
decimal, the action copied between quotes. -/
def marshalLikePlain (msg : LikeMessage) : Except GoError String :=
  .ok ("\x7b\"user_id\":" ++ toString msg.UserID ++ ",\"video_id\":" ++ toString msg.VideoID
    ++ ",\"action\":\"" ++ msg.Action ++ "\"\x7d")

/-- Collaborators of the like service that all answer. -/
def envLike : LikeEnv :=
  { read := envRead, marshalLike := marshalLikePlain }

/-- Collaborators of the like service of which the relay refuses the publish. -/
def envLikePublishDown : LikeEnv :=
  { envLike with publishErr := some (.plain "channel/connection is not open") }

/-- A world in which video 5 is stored and cached, user 7 is in its likers set, its
fast-path like count is 1, and the relay is empty. -/
def likeWorld5 : LikeWorld :=
  { store :=
      { rdb := { counters := fun _ => 0,
                 cache := fun k => if k = "video:info:5" then
                   some { value := jsonVideo5, ttl := 330 * second } else none,
                 sets := fun k m => k == "video:likers:5" && m == "7",
                 hashes := fun k f => if k = "video:like_counts" ∧ f = "5" then 1 else 0 },
        db := { videos := [video5] } },
    relay := [] }

/-- A body of the like queue that is well-formed JSON with an action the consumer
does not know. -/
def bodyDislike7 : String := "\x7b\"user_id\":7,\"video_id\":42,\"action\":\"dislike\"\x7d"

/-- A body of the like queue that is well-formed JSON without an action. -/
def bodyNoAction7 : String := "\x7b\"user_id\":7,\"video_id\":42\x7d"

/-- A golden comment whose content needs escaping on the wire. -/
def goldenEscaped : GoldenCommentMessage :=
  { UserID := 7, VideoID := 9, Content := "a<b> \"q\" \\ \n\t é😀" }

/-! ## Worked inputs for the seat reservation -/

/-- A Redis in which the seat counter of video 9 holds `c` and every other key 0. -/
def rdbSeat9 (c : Int) : Redis :=
  { counters := fun k => if k = "video:golden_count:9" then c else 0 }

/-- A world with the seat counter of video 9 at `c`, an empty relay and an empty log. -/
def worldSeat9 (c : Int) : World :=
  { rdb := rdbSeat9 c, relay := [], log := [] }

/-- Collaborators that all answer. -/
def envOk : Env :=
  { incrFault := none, decrFault := none, channelErr := none, publishErr := none,
    marshalGolden := marshalGoldenPlain }

/-- The body the like producer writes for "user 7 likes video 42". -/
def bodyLike7 : String := "\x7b\"user_id\":7,\"video_id\":42,\"action\":\"like\"\x7d"

/-- The body the like producer writes for "user 8 likes video 42". -/
def bodyLike8 : String := "\x7b\"user_id\":8,\"video_id\":42,\"action\":\"like\"\x7d"

/-- The body the like producer writes for "user 7 unlikes video 42". -/
def bodyUnlike7 : String := "\x7b\"user_id\":7,\"video_id\":42,\"action\":\"unlike\"\x7d"

/-- The body the golden-comment producer writes for user 7, video 9, content "first". -/
def bodyGolden7 : String := "\x7b\"user_id\":7,\"video_id\":9,\"content\":\"first\"\x7d"

/-- A store holding video 42 with no like, and video 9. -/
def dbFresh : DB :=
  { videos := [{ ID := 42 }, { ID := 9 }] }

/-- A store in which users 7 and 8 like video 42, whose counter is 2. -/
def dbTwoLikers : DB :=
  { likes := [{ ID := 1, UserID := 7, VideoID := 42 }, { ID := 2, UserID := 8, VideoID := 42 }]
    likesNextID := 3
    videos := [{ ID := 42, LikeCount := 2 }] }

/-- Store faults with the connection to MySQL down: the transaction cannot begin. -/
def faultsStoreDown : DbFaults :=
  { beginTx := some (.plain "dial tcp 127.0.0.1:3306: connect: connection refused") }

/-! ## Properties: seat reservation -/

theorem toUint64_of_range (v : Int) (h0 : 0 ≤ v) (h1 : v < 2 ^ 64) : toUint64 v = v.toNat := by
  unfold toUint64
  rw [Int.emod_eq_of_lt h0 h1]

theorem key9 : keyVideoGoldenCount 9 = "video:golden_count:9" := by decide

/-- C1: with the Redis increment and decrement answering, a call that finds the seat
counter at `c >= 100` gets `c + 1` from the increment, fails with the seat-full error,
leaves every Redis counter (the seat counter included) as before the call, and hands
nothing to the relay. -/
theorem C1_seat_full_rejected (env : Env) (userID videoID : Nat) (content : String) (w : World)
    (hincr : env.incrFault = none) (hdecr : env.decrFault = none)
    (hc : 100 ≤ w.rdb.counters (keyVideoGoldenCount videoID))
    (hmax : w.rdb.counters (keyVideoGoldenCount videoID) < int64Max) :
    (IncrementGoldenCount_Redis env.incrFault videoID w.rdb).1
        = ((w.rdb.counters (keyVideoGoldenCount videoID) + 1).toNat, none) ∧
      (CreateGoldenComment env userID videoID content w).1 = .error errSeatFull ∧
      (CreateGoldenComment env userID videoID content w).2.rdb.counters = w.rdb.counters ∧
      (CreateGoldenComment env userID videoID content w).2.relay = w.relay := by
  have hmax2 : ¬ (w.rdb.counters (keyVideoGoldenCount videoID) ≥ int64Max) := not_le.mpr hmax
  have hmin : ¬ (w.rdb.counters (keyVideoGoldenCount videoID) + 1 ≤ int64Min) := by
    unfold int64Min; omega
  have hu : toUint64 (w.rdb.counters (keyVideoGoldenCount videoID) + 1)
      = (w.rdb.counters (keyVideoGoldenCount videoID) + 1).toNat := by
    apply toUint64_of_range
    · omega
    · unfold int64Max at hmax; omega
  have hgt : (w.rdb.counters (keyVideoGoldenCount videoID) + 1).toNat > seatCap := by
    unfold seatCap; omega
  simp [CreateGoldenComment, IncrementGoldenCount_Redis, DecrementGoldenCount_Redis,
    Redis.incr, Redis.decr, incrValue, decrValue, hincr, hdecr, hmax2, hmin, hu, hgt]

/-- C1, worked: the seat counter of video 9 is at 100; the increment returns 101, the
call is rejected with the seat-full error, the counter is back at 100 and the relay is
still empty. -/
theorem C1_seat_full_rejected_witness :
    (IncrementGoldenCount_Redis envOk.incrFault 9 (worldSeat9 100).rdb).1 = (101, none) ∧
      (CreateGoldenComment envOk 7 9 "first" (worldSeat9 100)).1 = .error errSeatFull ∧
      (CreateGoldenComment envOk 7 9 "first" (worldSeat9 100)).2.rdb.counters
          (keyVideoGoldenCount 9) = 100 ∧
      (CreateGoldenComment envOk 7 9 "first" (worldSeat9 100)).2.relay = [] := by
  have hval : (worldSeat9 100).rdb.counters (keyVideoGoldenCount 9) = 100 := by
    simp [worldSeat9, rdbSeat9, key9]
  have h := C1_seat_full_rejected envOk 7 9 "first" (worldSeat9 100) rfl rfl
    (by rw [hval]) (by rw [hval]; decide)
  rw [hval] at h
  refine ⟨h.1, h.2.1, ?_, h.2.2.2⟩
  rw [h.2.2.1, hval]

theorem publish_ok_relay (env : Env) (msg : GoldenCommentMessage) (relay : List Publishing)
    (h : (publishGoldenCommentMessage env msg relay).1 = none) :
    ∃ body, env.marshalGolden msg = .ok body ∧
      (publishGoldenCommentMessage env msg relay).2 =
        relay ++ [{ exchange := "", routingKey := QueueGoldenComment,
                    contentType := "application/json", body := body, persistent := true }] := by
  unfold publishGoldenCommentMessage at h ⊢
  cases hch : env.channelErr with
  | some e1 => simp [hch] at h
  | none =>
    cases hm : env.marshalGolden msg with
    | error e2 => simp [hch, hm] at h
    | ok body =>
      cases hp : env.publishErr with
      | some e3 => simp [hch, hm, hp] at h
      | none => exact ⟨body, rfl, by simp⟩

/-- C3: with the Redis increment answering, a call that finds the seat counter at `c`
with `0 <= c < 100` and whose publish succeeds returns the comment with the userID,
videoID and content of the caller and `IsGolden = true`; Redis is the result of the
increment alone, the seat counter being `c + 1` and every other counter unchanged; and
the relay has received exactly one more message, persistent, on the golden-comment
queue, whose body is the JSON encoding of the message with those three fields. -/
theorem C3_reservation_success (env : Env) (userID videoID : Nat) (content : String)
    (w : World)
    (hincr : env.incrFault = none)
    (h0 : 0 ≤ w.rdb.counters (keyVideoGoldenCount videoID))
    (h100 : w.rdb.counters (keyVideoGoldenCount videoID) < 100)
    (hpub : (publishGoldenCommentMessage env
      { UserID := userID, VideoID := videoID, Content := content } w.relay).1 = none) :
    (CreateGoldenComment env userID videoID content w).1
        = .ok { UserID := userID, VideoID := videoID, Content := content, IsGolden := true } ∧
      (CreateGoldenComment env userID videoID content w).2.rdb =
        (IncrementGoldenCount_Redis none videoID w.rdb).2 ∧
      (CreateGoldenComment env userID videoID content w).2.rdb.counters =
        Function.update w.rdb.counters (keyVideoGoldenCount videoID)
          (w.rdb.counters (keyVideoGoldenCount videoID) + 1) ∧
      (∃ body,
        env.marshalGolden { UserID := userID, VideoID := videoID, Content := content }
          = .ok body ∧
        (CreateGoldenComment env userID videoID content w).2.relay =
          w.relay ++ [{ exchange := "", routingKey := QueueGoldenComment,
                        contentType := "application/json", body := body,
                        persistent := true }]) ∧
      (CreateGoldenComment env userID videoID content w).2.log = w.log := by
  obtain ⟨body, hbody, hrel⟩ := publish_ok_relay env _ w.relay hpub
  have hmax2 : ¬ (w.rdb.counters (keyVideoGoldenCount videoID) ≥ int64Max) := by
    unfold int64Max; omega
  have hu : toUint64 (w.rdb.counters (keyVideoGoldenCount videoID) + 1)
      = (w.rdb.counters (keyVideoGoldenCount videoID) + 1).toNat := by
    apply toUint64_of_range <;> omega
  have hle : ¬ ((w.rdb.counters (keyVideoGoldenCount videoID) + 1).toNat > seatCap) := by
    unfold seatCap; omega
  refine ⟨?_, ?_, ?_, ⟨body, hbody, ?_⟩, ?_⟩ <;>
    simp [CreateGoldenComment, IncrementGoldenCount_Redis, Redis.incr, incrValue, hincr,
      hmax2, hu, hle, hpub, hrel]

/-- C3, worked: the seat counter of video 9 is at 99; the call succeeds, the counter is
at 100 and the relay holds the one message of user 7 for video 9. -/
theorem C3_reservation_success_witness :
    (CreateGoldenComment envOk 7 9 "first" (worldSeat9 99)).1
        = .ok { UserID := 7, VideoID := 9, Content := "first", IsGolden := true } ∧
      (CreateGoldenComment envOk 7 9 "first" (worldSeat9 99)).2.rdb.counters
          (keyVideoGoldenCount 9) = 100 ∧
      (∃ body,
        marshalGoldenPlain { UserID := 7, VideoID := 9, Content := "first" } = .ok body ∧
        (CreateGoldenComment envOk 7 9 "first" (worldSeat9 99)).2.relay =
          [{ exchange := "", routingKey := QueueGoldenComment,
             contentType := "application/json", body := body, persistent := true }]) := by
  have hval : (worldSeat9 99).rdb.counters (keyVideoGoldenCount 9) = 99 := by
    simp [worldSeat9, rdbSeat9, key9]
  have h := C3_reservation_success envOk 7 9 "first" (worldSeat9 99) rfl
    (by rw [hval]; decide) (by rw [hval]; decide) rfl
  refine ⟨h.1, ?_, h.2.2.2.1⟩
  rw [h.2.2.1, hval]
  simp

/-! ## Properties: interleaved reservations -/

theorem sum_map_set (f : Pc → Nat) (x pc : Pc) :
    ∀ (l : List Pc) (i : Nat), l.get? i = some pc →
      ((l.set i x).map f).sum + f pc = (l.map f).sum + f x := by
  intro l
  induction l with
  | nil => intro i h; simp at h
  | cons a t ih =>
    intro i h
    cases i with
    | zero =>
      simp only [List.get?_cons_zero, Option.some.injEq] at h
      subst h
      simp only [List.set_cons_zero, List.map_cons, List.sum_cons]
      omega
    | succ j =>
      simp only [List.get?_cons_succ] at h
      have := ih j h
      simp only [List.set_cons_succ, List.map_cons, List.sum_cons]
      omega

/-- One step of one call, seen from the counter: the counter moves by the seats the
call takes or gives back, and a call is admitted only while the cap allows it. -/
theorem callStep_local (b : Bool) (seat c : Int) (pc : Pc) (H A : Nat) (h0 : 0 ≤ c)
    (hseat : seat = c + H) (hcap : c + A ≤ 100) (hAH : A ≤ H)
    (hH : pc.held ≤ H) (hA : pc.admitted ≤ A) :
    (callStep b seat pc).1 + pc.held = seat + (callStep b seat pc).2.held ∧
      c + A + (callStep b seat pc).2.admitted ≤ 100 + pc.admitted := by
  cases pc with
  | start =>
    change 0 ≤ H at hH
    change 0 ≤ A at hA
    by_cases hov : seat ≥ int64Max
    · simp [callStep, incrValue, hov, Pc.held, Pc.admitted]
      omega
    · have hu : toUint64 (seat + 1) = (seat + 1).toNat := by
        apply toUint64_of_range
        · omega
        · unfold int64Max at hov; omega
      by_cases hfull : (seat + 1).toNat > seatCap
      · simp [callStep, incrValue, hov, hu, hfull, Pc.held, Pc.admitted]
        omega
      · simp [callStep, incrValue, hov, hu, hfull, Pc.held, Pc.admitted]
        unfold seatCap at hfull
        omega
  | seatFull =>
    change 1 ≤ H at hH
    change 0 ≤ A at hA
    have hmin : ¬ (seat ≤ int64Min) := by
      unfold int64Min; omega
    simp [callStep, decrValue, hmin, Pc.held, Pc.admitted]
    omega
  | publishing =>
    change 1 ≤ H at hH
    change 1 ≤ A at hA
    cases b
    · simp [callStep, Pc.held, Pc.admitted]
      omega
    · simp [callStep, Pc.held, Pc.admitted]
      omega
  | publishFailed =>
    change 1 ≤ H at hH
    change 0 ≤ A at hA
    have hmin : ¬ (seat ≤ int64Min) := by
      unfold int64Min; omega
    simp [callStep, decrValue, hmin, Pc.held, Pc.admitted]
    omega
  | published =>
    change 1 ≤ H at hH
    change 1 ≤ A at hA
    simp [callStep, Pc.held, Pc.admitted]
    omega
  | compensated =>
    change 0 ≤ H at hH
    change 0 ≤ A at hA
    simp [callStep, Pc.held, Pc.admitted]
    omega
  | returnedOk =>
    change 1 ≤ H at hH
    change 1 ≤ A at hA
    simp [callStep, Pc.held, Pc.admitted]
    omega
  | returnedErr =>
    change 0 ≤ H at hH
    change 0 ≤ A at hA
    simp [callStep, Pc.held, Pc.admitted]
    omega

theorem admitted_le_held (l : List Pc) : (l.map Pc.admitted).sum ≤ (l.map Pc.held).sum := by
  induction l with
  | nil => simp
  | cons a t ih => cases a <;> simp [Pc.admitted, Pc.held] <;> omega

/-- The invariant of the interleaving: the seat counter is its initial value plus the
seats held, and the initial value plus the admitted calls does not exceed the cap. -/
theorem step_invariant (c : Int) (h0 : 0 ≤ c) (s : Sys) (i : Nat) (b : Bool)
    (hseat : s.seat = c + ((s.calls.map Pc.held).sum : Nat))
    (hcap : c + ((s.calls.map Pc.admitted).sum : Nat) ≤ 100) :
    (s.step i b).seat = c + (((s.step i b).calls.map Pc.held).sum : Nat) ∧
      c + (((s.step i b).calls.map Pc.admitted).sum : Nat) ≤ 100 := by
  unfold Sys.step
  cases hget : s.calls.get? i with
  | none => exact ⟨hseat, hcap⟩
  | some pc =>
    have hle1 := admitted_le_held s.calls
    have h1 := sum_map_set Pc.held (callStep b s.seat pc).2 pc s.calls i hget
    have h2 := sum_map_set Pc.admitted (callStep b s.seat pc).2 pc s.calls i hget
    have h3 := sum_map_set Pc.held .returnedErr pc s.calls i hget
    have h4 := sum_map_set Pc.admitted .returnedErr pc s.calls i hget
    have e3 : Pc.held .returnedErr = 0 := rfl
    have e4 : Pc.admitted .returnedErr = 0 := rfl
    rw [e3] at h3
    rw [e4] at h4
    have hH : pc.held ≤ (s.calls.map Pc.held).sum := by omega
    have hA : pc.admitted ≤ (s.calls.map Pc.admitted).sum := by omega
    have hloc := callStep_local b s.seat c pc _ _ h0 hseat hcap hle1 hH hA
    show (callStep b s.seat pc).1
        = c + (((s.calls.set i (callStep b s.seat pc).2).map Pc.held).sum : Nat) ∧
      c + (((s.calls.set i (callStep b s.seat pc).2).map Pc.admitted).sum : Nat) ≤ 100
    generalize ((s.calls.set i (callStep b s.seat pc).2).map Pc.held).sum = H1 at h1 ⊢
    generalize ((s.calls.set i (callStep b s.seat pc).2).map Pc.admitted).sum = A1 at h2 ⊢
    generalize (s.calls.map Pc.held).sum = H at *
    generalize (s.calls.map Pc.admitted).sum = A at *
    omega

theorem run_invariant (c : Int) (h0 : 0 ≤ c) (sched : List (Nat × Bool)) :
    ∀ s : Sys, s.seat = c + ((s.calls.map Pc.held).sum : Nat) →
      c + ((s.calls.map Pc.admitted).sum : Nat) ≤ 100 →
      (s.run sched).seat = c + (((s.run sched).calls.map Pc.held).sum : Nat) ∧
        c + (((s.run sched).calls.map Pc.admitted).sum : Nat) ≤ 100 := by
  induction sched with
  | nil => intro s h1 h2; exact ⟨h1, h2⟩
  | cons x rest ih =>
    intro s h1 h2
    have hs := step_invariant c h0 s x.1 x.2 h1 h2
    exact ih (s.step x.1 x.2) hs.1 hs.2

theorem quiescent_sums (l : List Pc) (h : l.all Pc.returned = true) :
    (l.map Pc.held).sum = l.count .returnedOk ∧
      (l.map Pc.admitted).sum = l.count .returnedOk := by
  induction l with
  | nil => simp
  | cons a t ih =>
    simp only [List.all_cons, Bool.and_eq_true] at h
    have := ih h.2
    cases a with
    | returnedOk => simp [Pc.held, Pc.admitted, this]; omega
    | returnedErr => simp [Pc.held, Pc.admitted, this]
    | start => simp [Pc.returned] at h
    | seatFull => simp [Pc.returned] at h
    | publishing => simp [Pc.returned] at h
    | publishFailed => simp [Pc.returned] at h
    | published => simp [Pc.returned] at h
    | compensated => simp [Pc.returned] at h

theorem callStep_rank (b : Bool) (seat : Int) (pc : Pc) (h : pc.returned = false) :
    (callStep b seat pc).2.rank < pc.rank := by
  cases pc with
  | start =>
    by_cases hov : seat ≥ int64Max
    · simp [callStep, incrValue, hov, Pc.rank]
    · by_cases hfull : toUint64 (seat + 1) > seatCap
      · simp [callStep, incrValue, hov, hfull, Pc.rank]
      · simp [callStep, incrValue, hov, hfull, Pc.rank]
  | seatFull => simp [callStep, Pc.rank]
  | publishing => cases b <;> simp [callStep, Pc.rank]
  | publishFailed => simp [callStep, Pc.rank]
  | published => simp [callStep, Pc.rank]
  | compensated => simp [callStep, Pc.rank]
  | returnedOk => simp [Pc.returned] at h
  | returnedErr => simp [Pc.returned] at h

theorem exists_pending (l : List Pc) (h : l.all Pc.returned = false) :
    ∃ i pc, l.get? i = some pc ∧ pc.returned = false := by
  induction l with
  | nil => simp at h
  | cons a t ih =>
    cases ha : a.returned with
    | false => exact ⟨0, a, rfl, ha⟩
    | true =>
      have ht : t.all Pc.returned = false := by
        rw [List.all_cons, ha, Bool.true_and] at h
        exact h
      obtain ⟨i, pc, hi, hpc⟩ := ih ht
      exact ⟨i + 1, pc, by simpa using hi, hpc⟩

/-- Every state of the interleaving can be run to quiescence: the calls always return. -/
theorem exists_quiescent_schedule :
    ∀ (k : Nat) (s : Sys), (s.calls.map Pc.rank).sum ≤ k →
      ∃ sched, (s.run sched).quiescent = true := by
  intro k
  induction k with
  | zero =>
    intro s hk
    refine ⟨[], ?_⟩
    cases hq : s.calls.all Pc.returned with
    | true => exact hq
    | false =>
      obtain ⟨i, pc, hi, hpc⟩ := exists_pending s.calls hq
      have h1 := sum_map_set Pc.rank .returnedErr pc s.calls i hi
      have e0 : Pc.rank .returnedErr = 0 := rfl
      rw [e0] at h1
      have hr := callStep_rank true 0 pc hpc
      omega
  | succ k ih =>
    intro s hk
    cases hq : s.calls.all Pc.returned with
    | true => exact ⟨[], hq⟩
    | false =>
      obtain ⟨i, pc, hi, hpc⟩ := exists_pending s.calls hq
      have h1 := sum_map_set Pc.rank (callStep true s.seat pc).2 pc s.calls i hi
      have hr := callStep_rank true s.seat pc hpc
      have hstep : (s.step i true).calls = s.calls.set i (callStep true s.seat pc).2 := by
        unfold Sys.step
        rw [hi]
      obtain ⟨sched, hs⟩ := ih (s.step i true) (by rw [hstep]; omega)
      exact ⟨(i, true) :: sched, hs⟩

/-- The interleaving model agrees with `CreateGoldenComment`: one call running alone
through its steps (four are enough on every path), with no store fault and the publish outcome of the sequential call,
ends with the seat counter the sequential call leaves, and returns success exactly
when the sequential call does. -/
theorem callStep_agrees (env : Env) (userID videoID : Nat) (content : String) (w : World)
    (b : Bool) (hincr : env.incrFault = none) (hdecr : env.decrFault = none)
    (hb : b = ((publishGoldenCommentMessage env
      { UserID := userID, VideoID := videoID, Content := content } w.relay).1).isNone) :
    ((Sys.init (w.rdb.counters (keyVideoGoldenCount videoID)) 1).run
        [(0, b), (0, b), (0, b), (0, b)]).seat
        = (CreateGoldenComment env userID videoID content w).2.rdb.counters
            (keyVideoGoldenCount videoID) ∧
      ((Sys.init (w.rdb.counters (keyVideoGoldenCount videoID)) 1).run
        [(0, b), (0, b), (0, b), (0, b)]).quiescent = true ∧
      (((Sys.init (w.rdb.counters (keyVideoGoldenCount videoID)) 1).run
        [(0, b), (0, b), (0, b), (0, b)]).successes = 1 ↔
        (CreateGoldenComment env userID videoID content w).1.toBool = true) := by
  by_cases hov : w.rdb.counters (keyVideoGoldenCount videoID) ≥ int64Max
  · simp [Sys.init, Sys.run, Sys.step, callStep, CreateGoldenComment,
      IncrementGoldenCount_Redis, Redis.incr, incrValue, hincr, hov, Sys.quiescent,
      Pc.returned, Sys.successes, Except.toBool]
  · by_cases hfull : toUint64 (w.rdb.counters (keyVideoGoldenCount videoID) + 1) > seatCap
    · by_cases hmin : w.rdb.counters (keyVideoGoldenCount videoID) + 1 ≤ int64Min
      · simp [Sys.init, Sys.run, Sys.step, callStep, CreateGoldenComment,
          IncrementGoldenCount_Redis, DecrementGoldenCount_Redis, Redis.incr, Redis.decr,
          incrValue, decrValue, hincr, hdecr, hov, hfull, hmin, Sys.quiescent,
          Pc.returned, Sys.successes, Except.toBool]
      · simp [Sys.init, Sys.run, Sys.step, callStep, CreateGoldenComment,
          IncrementGoldenCount_Redis, DecrementGoldenCount_Redis, Redis.incr, Redis.decr,
          incrValue, decrValue, hincr, hdecr, hov, hfull, hmin, Sys.quiescent,
          Pc.returned, Sys.successes, Except.toBool]
    · cases hp : (publishGoldenCommentMessage env
          { UserID := userID, VideoID := videoID, Content := content } w.relay).1 with
      | none =>
        rw [hp] at hb
        subst hb
        simp [Sys.init, Sys.run, Sys.step, callStep, CreateGoldenComment,
          IncrementGoldenCount_Redis, Redis.incr, incrValue, hincr, hov, hfull, hp,
          Sys.quiescent, Pc.returned, Sys.successes, Except.toBool]
      | some e =>
        rw [hp] at hb
        subst hb
        by_cases hmin : w.rdb.counters (keyVideoGoldenCount videoID) + 1 ≤ int64Min
        · simp [Sys.init, Sys.run, Sys.step, callStep, CreateGoldenComment,
            IncrementGoldenCount_Redis, DecrementGoldenCount_Redis, Redis.incr, Redis.decr,
            incrValue, decrValue, hincr, hdecr, hov, hfull, hmin, hp, Sys.quiescent,
            Pc.returned, Sys.successes, Except.toBool]
        · simp [Sys.init, Sys.run, Sys.step, callStep, CreateGoldenComment,
            IncrementGoldenCount_Redis, DecrementGoldenCount_Redis, Redis.incr, Redis.decr,
            incrValue, decrValue, hincr, hdecr, hov, hfull, hmin, hp, Sys.quiescent,
            Pc.returned, Sys.successes, Except.toBool]

/-- C4: start `n` calls of `CreateGoldenComment` on one video whose seat counter holds
`c` with `0 <= c <= 100`, and let them run under any schedule (any interleaving of their
increments, publishes and decrements, each publish succeeding or failing as the
schedule says). Whenever all calls have returned, the seat counter is at most 100 and
equals `c` plus the number of calls that returned success. -/
theorem C4_cap_at_quiescence (c : Int) (n : Nat) (sched : List (Nat × Bool))
    (h0 : 0 ≤ c) (h100 : c ≤ 100)
    (hq : ((Sys.init c n).run sched).quiescent = true) :
    ((Sys.init c n).run sched).seat ≤ 100 ∧
      ((Sys.init c n).run sched).seat = c + ((Sys.init c n).run sched).successes := by
  have hinitH : ((Sys.init c n).calls.map Pc.held).sum = 0 := by
    simp [Sys.init, Pc.held]
  have hinitA : ((Sys.init c n).calls.map Pc.admitted).sum = 0 := by
    simp [Sys.init, Pc.admitted]
  have hinv := run_invariant c h0 sched (Sys.init c n)
    (by rw [hinitH]; simp [Sys.init]) (by rw [hinitA]; simpa using h100)
  have hsum := quiescent_sums ((Sys.init c n).run sched).calls hq
  rw [hsum.1] at hinv
  rw [hsum.2] at hinv
  unfold Sys.successes
  omega

/-- C4, worked: three calls on a counter at 99. The first takes the last seat, the other
two are over the cap and give their seat back, the first publishes, and each returns;
at the end the counter is at 100 = 99 + 1 success. -/
theorem C4_cap_at_quiescence_witness :
    ((Sys.init 99 3).run
        [(0, true), (1, true), (2, true), (1, true), (0, true), (2, true), (1, true),
          (0, true), (2, true)]).quiescent = true ∧
      ((Sys.init 99 3).run
        [(0, true), (1, true), (2, true), (1, true), (0, true), (2, true), (1, true),
          (0, true), (2, true)]).calls
          = [.returnedOk, .returnedErr, .returnedErr] ∧
      ((Sys.init 99 3).run
        [(0, true), (1, true), (2, true), (1, true), (0, true), (2, true), (1, true),
          (0, true), (2, true)]).seat = 100 ∧
      ((Sys.init 99 3).run
        [(0, true), (1, true), (2, true), (1, true), (0, true), (2, true), (1, true),
          (0, true), (2, true)]).seat ≤ 100 := by
  have hq : ((Sys.init 99 3).run
      [(0, true), (1, true), (2, true), (1, true), (0, true), (2, true), (1, true),
          (0, true), (2, true)]).quiescent = true := by
    decide
  have h := C4_cap_at_quiescence 99 3
    [(0, true), (1, true), (2, true), (1, true), (0, true), (2, true), (1, true),
          (0, true), (2, true)]
    (by decide) (by decide) hq
  refine ⟨hq, by decide, ?_, h.1⟩
  rw [h.2]
  decide

/-! ## Properties: acknowledgment decisions of the consumers -/

theorem decide_ack_ack_iff (opErr : Option GoError) :
    (decide_ack opErr).1 = .ack false ↔
      (opErr = none ∨ ∃ e, opErr = some e ∧ e.asMySQL = some 1062) := by
  cases opErr with
  | none => simp [decide_ack]
  | some e =>
    by_cases h : e.asMySQL = some 1062
    · simp [decide_ack, GoError.isDuplicateKey, h]
    · simp [decide_ack, GoError.isDuplicateKey, h]

theorem decide_ack_nack (e : GoError) (h : e.asMySQL ≠ some 1062) :
    (decide_ack (some e)).1 = .nack false true := by
  simp [decide_ack, GoError.isDuplicateKey, h]

theorem decide_ack_multiple (opErr : Option GoError) (m : Bool)
    (h : (decide_ack opErr).1 = .ack m) : m = false := by
  cases opErr with
  | none => simp [decide_ack] at h; exact h
  | some e =>
    by_cases hd : e.isDuplicateKey <;> simp [decide_ack, hd] at h
    exact h

/-- C5: a delivery that decodes is acknowledged with `Ack` exactly when its transaction
returns no error or fails with a MySQL error numbered 1062 (duplicate key); this holds
for the like consumer and, independently, for the golden-comment consumer. -/
theorem C5_ack_iff_success_or_duplicate
    (uL : String → Except GoError LikeMessage)
    (uG : String → Except GoError GoldenCommentMessage)
    (fL fG : DbFaults) (dL dG : Delivery) (dbL dbG : DB)
    (msgL : LikeMessage) (msgG : GoldenCommentMessage) :
    (uL dL.Body = .ok msgL →
      ((consumeLikesOne uL fL dL dbL).decision = .ack false ↔
        ((likeTx fL msgL dbL).1 = none ∨
          ∃ e, (likeTx fL msgL dbL).1 = some e ∧ e.asMySQL = some 1062)) ∧
      (∀ m, (consumeLikesOne uL fL dL dbL).decision = .ack m → m = false)) ∧
    (uG dG.Body = .ok msgG →
      ((consumeGoldenCommentsOne uG fG dG dbG).decision = .ack false ↔
        ((goldenTx fG msgG dbG).1 = none ∨
          ∃ e, (goldenTx fG msgG dbG).1 = some e ∧ e.asMySQL = some 1062)) ∧
      (∀ m, (consumeGoldenCommentsOne uG fG dG dbG).decision = .ack m → m = false)) := by
  constructor
  · intro hL
    have e1 : (consumeLikesOne uL fL dL dbL).decision
        = (decide_ack (likeTx fL msgL dbL).1).1 := by
      simp [consumeLikesOne, hL]
    rw [e1]
    exact ⟨decide_ack_ack_iff _, fun m hm => decide_ack_multiple _ m hm⟩
  · intro hG
    have e2 : (consumeGoldenCommentsOne uG fG dG dbG).decision
        = (decide_ack (goldenTx fG msgG dbG).1).1 := by
      simp [consumeGoldenCommentsOne, hG]
    rw [e2]
    exact ⟨decide_ack_ack_iff _, fun m hm => decide_ack_multiple _ m hm⟩

/-- C5, worked: user 7 likes video 42 again while the relation exists: the insert fails
with error 1062 and the delivery is acknowledged; a golden comment on video 9 commits
and is acknowledged. -/
theorem C5_ack_iff_success_or_duplicate_witness :
    (likeTx {} { UserID := 7, VideoID := 42, Action := "like" } dbTwoLikers).1
        = some errDuplicateEntry ∧
      (consumeLikesOne unmarshalLikeTable {} { Body := bodyLike7 } dbTwoLikers).decision
        = .ack false ∧
      (goldenTx {} { UserID := 7, VideoID := 9, Content := "first" } dbFresh).1 = none ∧
      (consumeGoldenCommentsOne unmarshalGoldenTable {} { Body := bodyGolden7 }
        dbFresh).decision = .ack false := by
  have h := C5_ack_iff_success_or_duplicate unmarshalLikeTable unmarshalGoldenTable {} {}
    { Body := bodyLike7 } { Body := bodyGolden7 } dbTwoLikers dbFresh
    { UserID := 7, VideoID := 42, Action := "like" }
    { UserID := 7, VideoID := 9, Content := "first" }
  have h1 : (likeTx {} { UserID := 7, VideoID := 42, Action := "like" } dbTwoLikers).1
      = some errDuplicateEntry := by decide
  have h2 : (goldenTx {} { UserID := 7, VideoID := 9, Content := "first" } dbFresh).1
      = none := by decide
  exact ⟨h1, (h.1 (by decide)).1.mpr (Or.inr ⟨errDuplicateEntry, h1, by decide⟩), h2,
    (h.2 (by decide)).1.mpr (Or.inl h2)⟩

/-- C6: a delivery that decodes and whose transaction fails with an error that is not a
MySQL error numbered 1062 is answered `Nack(false, true)`: requeued, neither
acknowledged nor discarded; for the like consumer and, independently, for the
golden-comment consumer. -/
theorem C6_other_failure_requeued
    (uL : String → Except GoError LikeMessage)
    (uG : String → Except GoError GoldenCommentMessage)
    (fL fG : DbFaults) (dL dG : Delivery) (dbL dbG : DB)
    (msgL : LikeMessage) (msgG : GoldenCommentMessage) (eL eG : GoError) :
    (uL dL.Body = .ok msgL → (likeTx fL msgL dbL).1 = some eL → eL.asMySQL ≠ some 1062 →
      (consumeLikesOne uL fL dL dbL).decision = .nack false true ∧
      (∀ m, (consumeLikesOne uL fL dL dbL).decision ≠ .ack m ∧
        (consumeLikesOne uL fL dL dbL).decision ≠ .nack m false)) ∧
    (uG dG.Body = .ok msgG → (goldenTx fG msgG dbG).1 = some eG → eG.asMySQL ≠ some 1062 →
      (consumeGoldenCommentsOne uG fG dG dbG).decision = .nack false true ∧
      (∀ m, (consumeGoldenCommentsOne uG fG dG dbG).decision ≠ .ack m ∧
        (consumeGoldenCommentsOne uG fG dG dbG).decision ≠ .nack m false)) := by
  constructor
  · intro hL hfail hnot
    have e1 : (consumeLikesOne uL fL dL dbL).decision = .nack false true := by
      simp [consumeLikesOne, hL, hfail, decide_ack_nack eL hnot]
    rw [e1]
    simp
  · intro hG hfail hnot
    have e2 : (consumeGoldenCommentsOne uG fG dG dbG).decision = .nack false true := by
      simp [consumeGoldenCommentsOne, hG, hfail, decide_ack_nack eG hnot]
    rw [e2]
    simp

/-- C6, worked: MySQL is unreachable; the like delivery and the golden-comment delivery
are both answered `Nack(false, true)` and the store is untouched. -/
theorem C6_other_failure_requeued_witness :
    (consumeLikesOne unmarshalLikeTable faultsStoreDown { Body := bodyLike8 } dbFresh).decision
        = .nack false true ∧
      (consumeGoldenCommentsOne unmarshalGoldenTable faultsStoreDown { Body := bodyGolden7 }
        dbFresh).decision = .nack false true ∧
      (consumeLikesOne unmarshalLikeTable faultsStoreDown { Body := bodyLike8 } dbFresh).db
        = dbFresh := by
  have h := C6_other_failure_requeued unmarshalLikeTable unmarshalGoldenTable
    faultsStoreDown faultsStoreDown { Body := bodyLike8 } { Body := bodyGolden7 }
    dbFresh dbFresh
    { UserID := 8, VideoID := 42, Action := "like" }
    { UserID := 7, VideoID := 9, Content := "first" }
    (.plain "dial tcp 127.0.0.1:3306: connect: connection refused")
    (.plain "dial tcp 127.0.0.1:3306: connect: connection refused")
  exact ⟨(h.1 (by decide) (by decide) (by decide)).1,
    (h.2 (by decide) (by decide) (by decide)).1, by decide⟩

/-- C7: a delivery on the like queue whose body does not decode into a `LikeMessage`
is answered `Nack(false, false)` (discarded), `db.Transaction` is not called and the
store is unchanged. -/
theorem C7_like_poison_discarded (uL : String → Except GoError LikeMessage) (f : DbFaults)
    (d : Delivery) (db : DB) (e : GoError) (hbad : uL d.Body = .error e) :
    (consumeLikesOne uL f d db).decision = .nack false false ∧
      (consumeLikesOne uL f d db).transactions = 0 ∧
      (consumeLikesOne uL f d db).db = db := by
  simp [consumeLikesOne, hbad]

/-- C7, worked: the body `not json` on the like queue is discarded and the two likes of
video 42 stay as they are. -/
theorem C7_like_poison_discarded_witness :
    (consumeLikesOne unmarshalLikeTable {} { Body := "not json" } dbTwoLikers).decision
        = .nack false false ∧
      (consumeLikesOne unmarshalLikeTable {} { Body := "not json" } dbTwoLikers).transactions
        = 0 ∧
      (consumeLikesOne unmarshalLikeTable {} { Body := "not json" } dbTwoLikers).db
        = dbTwoLikers :=
  C7_like_poison_discarded unmarshalLikeTable {} { Body := "not json" } dbTwoLikers
    (.plain "invalid character in JSON input") (by decide)

/-- C8 as stated fails: the body `not json` on the golden-comment queue does not decode,
and the golden-comment consumer answers `Ack(false)`, not `Nack(false, false)`. -/
theorem C8_golden_poison_not_nacked :
    unmarshalGoldenTable "not json" = .error (.plain "invalid character in JSON input") ∧
      (consumeGoldenCommentsOne unmarshalGoldenTable {} { Body := "not json" } dbFresh).decision
        = .ack false ∧
      (consumeGoldenCommentsOne unmarshalGoldenTable {} { Body := "not json" } dbFresh).decision
        ≠ .nack false false := by
  decide

/-- C8, amended: a delivery on the golden-comment queue whose body does not decode into
a `GoldenCommentMessage` is removed from the queue by `Ack(false)`, `uow.Execute` is
not called and the store is unchanged. -/
theorem C8_golden_poison_acked (uG : String → Except GoError GoldenCommentMessage)
    (f : DbFaults) (d : Delivery) (db : DB) (e : GoError) (hbad : uG d.Body = .error e) :
    (consumeGoldenCommentsOne uG f d db).decision = .ack false ∧
      (consumeGoldenCommentsOne uG f d db).transactions = 0 ∧
      (consumeGoldenCommentsOne uG f d db).db = db := by
  simp [consumeGoldenCommentsOne, hbad]

/-- C8 amended, worked: an empty body on the golden-comment queue is acknowledged, no
unit of work runs and the store is unchanged. -/
theorem C8_golden_poison_acked_witness :
    (consumeGoldenCommentsOne unmarshalGoldenTable {} { Body := "" } dbTwoLikers).decision
        = .ack false ∧
      (consumeGoldenCommentsOne unmarshalGoldenTable {} { Body := "" } dbTwoLikers).transactions
        = 0 ∧
      (consumeGoldenCommentsOne unmarshalGoldenTable {} { Body := "" } dbTwoLikers).db
        = dbTwoLikers :=
  C8_golden_poison_acked unmarshalGoldenTable {} { Body := "" } dbTwoLikers
    (.plain "invalid character in JSON input") (by decide)

/-! ## Properties: redelivery and the like counter -/

/-- C9 fails on the code for unlike events: users 7 and 8 like video 42 (counter 2).
One delivery of "user 7 unlikes video 42" leaves the relation of user 8 and the counter
at 1; delivering it a second time is acknowledged, deletes nothing and decrements the
counter again, to 0. The persisted state after two deliveries differs from the state
after one. -/
theorem C9_unlike_redelivery_drifts :
    (consumeLikes unmarshalLikeTable [({ Body := bodyUnlike7 }, {})] dbTwoLikers)
        = ({ likes := [{ ID := 2, UserID := 8, VideoID := 42 }], likesNextID := 3,
             videos := [{ ID := 42, LikeCount := 1 }] }, [.ack false]) ∧
      (consumeLikes unmarshalLikeTable
          [({ Body := bodyUnlike7 }, {}), ({ Body := bodyUnlike7, Redelivered := true }, {})]
          dbTwoLikers)
        = ({ likes := [{ ID := 2, UserID := 8, VideoID := 42 }], likesNextID := 3,
             videos := [{ ID := 42, LikeCount := 0 }] }, [.ack false, .ack false]) ∧
      (consumeLikes unmarshalLikeTable
          [({ Body := bodyUnlike7 }, {}), ({ Body := bodyUnlike7, Redelivered := true }, {})]
          dbTwoLikers).1
        ≠ (consumeLikes unmarshalLikeTable [({ Body := bodyUnlike7 }, {})] dbTwoLikers).1 := by
  decide

/-- C10 fails on the code: video 42 starts with no like and counter 0. User 7 likes,
user 8 likes, user 7 unlikes, and the unlike is delivered once more. Every statement
succeeds, every delivery is acknowledged, and at the end one relation (user 8) is
persisted while the counter is 0. -/
theorem C10_counter_drifts_from_relations :
    (dbFresh.likeCount 42 = some 0 ∧ dbFresh.relationCount 42 = 0) ∧
      (consumeLikes unmarshalLikeTable
          [({ Body := bodyLike7 }, {}), ({ Body := bodyLike8 }, {}),
           ({ Body := bodyUnlike7 }, {}), ({ Body := bodyUnlike7, Redelivered := true }, {})]
          dbFresh).2 = [.ack false, .ack false, .ack false, .ack false] ∧
      (consumeLikes unmarshalLikeTable
          [({ Body := bodyLike7 }, {}), ({ Body := bodyLike8 }, {}),
           ({ Body := bodyUnlike7 }, {}), ({ Body := bodyUnlike7, Redelivered := true }, {})]
          dbFresh).1.likeCount 42 = some 0 ∧
      (consumeLikes unmarshalLikeTable
          [({ Body := bodyLike7 }, {}), ({ Body := bodyLike8 }, {}),
           ({ Body := bodyUnlike7 }, {}), ({ Body := bodyUnlike7, Redelivered := true }, {})]
          dbFresh).1.relationCount 42 = 1 := by
  decide

/-! ## Properties: what one like delivery does to the store -/

theorem consumeLikes_append (uL : String → Except GoError LikeMessage)
    (xs ys : List (Delivery × DbFaults)) :
    ∀ db : DB, consumeLikes uL (xs ++ ys) db =
      ((consumeLikes uL ys (consumeLikes uL xs db).1).1,
        (consumeLikes uL xs db).2 ++ (consumeLikes uL ys (consumeLikes uL xs db).1).2) := by
  induction xs with
  | nil => intro db; simp [consumeLikes]
  | cons x rest ih =>
    intro db
    obtain ⟨d, f⟩ := x
    simp [consumeLikes, ih]

theorem likeTx_like_relation (msg : LikeMessage) (db : DB) (hact : msg.Action = "like")
    (h : (likeTx noFaults msg db).1 = none ∨
      ∃ e, (likeTx noFaults msg db).1 = some e ∧ e.asMySQL = some 1062) :
    (likeTx noFaults msg db).2.hasRelation msg.UserID msg.VideoID = true := by
  by_cases hex : db.likes.any (fun r => r.UserID == msg.UserID && r.VideoID == msg.VideoID) = true
  · have hres : likeTx noFaults msg db = (some errDuplicateEntry, db) := by
      simp [noFaults, likeTx, Transaction, likeTxBody, hact, LikeRepository.Create, hex]
    rw [hres]
    exact hex
  · by_cases hov : db.videos.any
        (fun v => v.ID == msg.VideoID && decide (v.LikeCount + 1 > uint64Max)) = true
    · have hres : (likeTx noFaults msg db).1 = some errOutOfRange := by
        simp [noFaults, likeTx, Transaction, likeTxBody, hact, LikeRepository.Create, hex,
          VideoRepository.IncrementLikeCount, hov]
      rw [hres] at h
      rcases h with h | ⟨e, he, hn⟩
      · cases h
      · cases he
        simp [errOutOfRange, GoError.asMySQL] at hn
    · have hres : (likeTx noFaults msg db).2.likes = db.likes ++
          [{ ID := db.likesNextID, UserID := msg.UserID, VideoID := msg.VideoID }] := by
        simp [noFaults, likeTx, Transaction, likeTxBody, hact, LikeRepository.Create, hex,
          VideoRepository.IncrementLikeCount, hov]
      unfold DB.hasRelation
      rw [hres]
      simp

theorem likeTx_unlike_relation (msg : LikeMessage) (db : DB) (hact : msg.Action = "unlike") :
    (likeTx noFaults msg db).1 = none ∧
      (likeTx noFaults msg db).2.hasRelation msg.UserID msg.VideoID = false := by
  have hne : ¬ (msg.Action = "like") := by rw [hact]; decide
  constructor
  · simp [noFaults, likeTx, Transaction, likeTxBody, hact, LikeRepository.Delete,
      VideoRepository.DecrementLikeCount]
  · simp [noFaults, likeTx, Transaction, likeTxBody, hact, LikeRepository.Delete,
      VideoRepository.DecrementLikeCount, DB.hasRelation]
    intro x _ hx hu hv
    rcases hx with hx | hx
    · exact hx hu
    · exact hx hv

/-- C11: let the like consumer handle any deliveries, and then one more that decodes
to an event of the pair (user, video) with action like or unlike, the store answering
that last transaction without fault and with no failure other than a duplicate-key
rejection (the delivery is acknowledged). Afterwards the relation of the pair exists
if and only if the action of that last event is like. In particular this holds for
every non-empty sequence of events of one pair. -/
theorem C11_relation_matches_last_action (uL : String → Except GoError LikeMessage)
    (pre : List (Delivery × DbFaults)) (d : Delivery) (db : DB)
    (userID videoID : Nat) (action : String)
    (hdec : uL d.Body = .ok { UserID := userID, VideoID := videoID, Action := action })
    (hact : action = "like" ∨ action = "unlike")
    (hack : (consumeLikes uL (pre ++ [(d, noFaults)]) db).2.getLast? = some (.ack false)) :
    ((consumeLikes uL (pre ++ [(d, noFaults)]) db).1.hasRelation userID videoID = true ↔
      action = "like") := by
  rw [consumeLikes_append] at hack ⊢
  generalize (consumeLikes uL pre db).1 = db1 at hack ⊢
  generalize (consumeLikes uL pre db).2 = acks at hack
  have hone : consumeLikes uL [(d, noFaults)] db1 =
      ((likeTx noFaults { UserID := userID, VideoID := videoID, Action := action } db1).2,
        [(decide_ack (likeTx noFaults { UserID := userID, VideoID := videoID, Action := action }
          db1).1).1]) := by
    simp [consumeLikes, consumeLikesOne, hdec]
  rw [hone] at hack ⊢
  have hack1 : (decide_ack (likeTx noFaults
      { UserID := userID, VideoID := videoID, Action := action } db1).1).1 = .ack false := by
    simpa [List.getLast?_append, Option.or] using hack
  rcases hact with hl | hu
  · subst hl
    have hrel := likeTx_like_relation
      { UserID := userID, VideoID := videoID, Action := "like" } db1 rfl
      ((decide_ack_ack_iff _).mp hack1)
    simp only at hrel
    simp [hrel]
  · subst hu
    have hrel := (likeTx_unlike_relation
      { UserID := userID, VideoID := videoID, Action := "unlike" } db1 rfl).2
    simp only at hrel
    simp [hrel]

/-- C11, worked: user 7 likes, unlikes and likes video 42 again; the relation exists
at the end. Stopping after the unlike, it does not. -/
theorem C11_relation_matches_last_action_witness :
    (consumeLikes unmarshalLikeTable
        ([({ Body := bodyLike7 }, noFaults), ({ Body := bodyUnlike7 }, noFaults)]
          ++ [({ Body := bodyLike7 }, noFaults)]) dbFresh).1.hasRelation 7 42 = true ∧
      (consumeLikes unmarshalLikeTable
        ([({ Body := bodyLike7 }, noFaults)] ++ [({ Body := bodyUnlike7 }, noFaults)])
        dbFresh).1.hasRelation 7 42 = false := by
  have h1 := C11_relation_matches_last_action unmarshalLikeTable
    [({ Body := bodyLike7 }, noFaults), ({ Body := bodyUnlike7 }, noFaults)] { Body := bodyLike7 }
    dbFresh 7 42 "like" (by decide) (Or.inl rfl) (by decide)
  exact ⟨h1.mpr rfl, by decide⟩

/-- C12: when the relation of a pair (user, video) exists and the store answers the
begin and the insert, a like event of that pair fails in the insert with the
duplicate-key error 1062: the function run in the transaction returns at the insert,
before the counter statement, with the store as it was; the delivery leaves the whole
store (relations and counters) unchanged and is acknowledged. -/
theorem C12_duplicate_like_is_noop (uL : String → Except GoError LikeMessage) (f : DbFaults)
    (d : Delivery) (db : DB) (userID videoID : Nat)
    (hdec : uL d.Body = .ok { UserID := userID, VideoID := videoID, Action := "like" })
    (hbegin : f.beginTx = none) (hcreate : f.likeCreate = none)
    (hex : db.hasRelation userID videoID = true) :
    likeTxBody f { UserID := userID, VideoID := videoID, Action := "like" } db
        = LikeRepository.Create f.likeCreate { UserID := userID, VideoID := videoID } db ∧
      likeTxBody f { UserID := userID, VideoID := videoID, Action := "like" } db
        = (some errDuplicateEntry, db) ∧
      (consumeLikesOne uL f d db).db = db ∧
      (consumeLikesOne uL f d db).decision = .ack false := by
  unfold DB.hasRelation at hex
  have hbody : likeTxBody f { UserID := userID, VideoID := videoID, Action := "like" } db
      = (some errDuplicateEntry, db) := by
    simp [likeTxBody, LikeRepository.Create, hcreate, hex]
  have hcr : LikeRepository.Create f.likeCreate { UserID := userID, VideoID := videoID } db
      = (some errDuplicateEntry, db) := by
    simp [LikeRepository.Create, hcreate, hex]
  refine ⟨by rw [hbody, hcr], hbody, ?_, ?_⟩
  · simp [consumeLikesOne, hdec, likeTx, Transaction, hbegin, hbody]
  · simp [consumeLikesOne, hdec, likeTx, Transaction, hbegin, hbody, decide_ack,
      GoError.isDuplicateKey, errDuplicateEntry, GoError.asMySQL]

/-- C12, worked: user 7 likes video 42 twice, starting with no relation and counter 0.
After the first delivery the relation exists and the counter is 1; the second delivery
is acknowledged and leaves the relation and the counter at 1. -/
theorem C12_duplicate_like_is_noop_witness :
    (consumeLikesOne unmarshalLikeTable {} { Body := bodyLike7 } dbFresh).db.hasRelation 7 42
        = true ∧
      (consumeLikesOne unmarshalLikeTable {} { Body := bodyLike7 } dbFresh).db.likeCount 42
        = some 1 ∧
      (consumeLikesOne unmarshalLikeTable {} { Body := bodyLike7, Redelivered := true }
        (consumeLikesOne unmarshalLikeTable {} { Body := bodyLike7 } dbFresh).db).db
        = (consumeLikesOne unmarshalLikeTable {} { Body := bodyLike7 } dbFresh).db ∧
      (consumeLikesOne unmarshalLikeTable {} { Body := bodyLike7, Redelivered := true }
        (consumeLikesOne unmarshalLikeTable {} { Body := bodyLike7 } dbFresh).db).db.likeCount 42
        = some 1 ∧
      (consumeLikesOne unmarshalLikeTable {} { Body := bodyLike7, Redelivered := true }
        (consumeLikesOne unmarshalLikeTable {} { Body := bodyLike7 } dbFresh).db).decision
        = .ack false := by
  have h := C12_duplicate_like_is_noop unmarshalLikeTable {}
    { Body := bodyLike7, Redelivered := true }
    (consumeLikesOne unmarshalLikeTable {} { Body := bodyLike7 } dbFresh).db 7 42
    (by decide) rfl rfl (by decide)
  refine ⟨by decide, by decide, h.2.2.1, ?_, h.2.2.2⟩
  rw [h.2.2.1]
  decide

theorem find_map_same_id (vid : Nat) (g : Video → Video) (hg : ∀ v, (g v).ID = v.ID) :
    ∀ l : List Video,
      (l.map (fun v => if v.ID = vid then g v else v)).find? (fun v => v.ID == vid)
        = (l.find? (fun v => v.ID == vid)).map g := by
  intro l
  induction l with
  | nil => simp
  | cons a t ih =>
    by_cases ha : a.ID = vid
    · simp [List.find?, ha, hg]
    · simp only [List.map_cons, ha, if_false, List.find?]
      have hb : (a.ID == vid) = false := by simpa using ha
      rw [hb]
      exact ih

theorem likeCount_after_decrement (videos : List Video) (vid n : Nat)
    (hcount : (videos.find? (fun v => v.ID == vid)).map (fun v => v.LikeCount) = some n)
    (hn : n > 0) :
    ((videos.map (fun v => if v.ID = vid ∧ v.LikeCount > 0 then
        { v with LikeCount := v.LikeCount - 1 } else v)).find? (fun v => v.ID == vid)).map
          (fun v => v.LikeCount) = some (n - 1) := by
  have hfun : (fun v : Video => if v.ID = vid ∧ v.LikeCount > 0 then
        { v with LikeCount := v.LikeCount - 1 } else v)
      = (fun v : Video => if v.ID = vid then
        (fun w : Video => if w.LikeCount > 0 then
          { w with LikeCount := w.LikeCount - 1 } else w) v else v) := by
    funext v
    by_cases h1 : v.ID = vid <;> by_cases h2 : v.LikeCount > 0 <;> simp [h1, h2]
  have hfind := find_map_same_id vid
    (fun w : Video => if w.LikeCount > 0 then { w with LikeCount := w.LikeCount - 1 } else w)
    (fun v => by by_cases h2 : v.LikeCount > 0 <;> simp [h2]) videos
  rw [hfun, hfind]
  rcases hf : videos.find? (fun v => v.ID == vid) with _ | v
  · rw [hf] at hcount
    simp at hcount
  · rw [hf] at hcount
    simp only [Option.map_some', Option.some.injEq] at hcount
    have hpos : v.LikeCount > 0 := by omega
    rw [hf]
    simp only [Option.map_some', if_pos hpos]
    rw [hcount]

/-- C13: the like transaction is atomic. If it returns an error (from the begin, from
a statement or from the commit), the store after the delivery is the store before it.
If it succeeds on a like event, the relation was absent, one row for the pair has been
appended to `likes` and the counter of the video, if the video exists, is the old value
plus 1. If it succeeds on an unlike event of an existing relation on a video whose
counter is `n > 0`, `likes` is what it was without the rows of the pair and the
counter is `n - 1`. -/
theorem C13_like_transaction_atomic (f : DbFaults) (msg : LikeMessage) (db : DB) :
    (∀ e, (likeTx f msg db).1 = some e → (likeTx f msg db).2 = db) ∧
    (msg.Action = "like" → (likeTx f msg db).1 = none →
      db.hasRelation msg.UserID msg.VideoID = false ∧
      (likeTx f msg db).2.likes = db.likes ++
        [{ ID := db.likesNextID, UserID := msg.UserID, VideoID := msg.VideoID }] ∧
      (likeTx f msg db).2.hasRelation msg.UserID msg.VideoID = true ∧
      (likeTx f msg db).2.likeCount msg.VideoID
        = (db.likeCount msg.VideoID).map (fun n => n + 1)) ∧
    (msg.Action = "unlike" → (likeTx f msg db).1 = none →
      ∀ n, db.hasRelation msg.UserID msg.VideoID = true →
        db.likeCount msg.VideoID = some n → n > 0 →
        (likeTx f msg db).2.likes = db.likes.filter
          (fun r => !(r.UserID == msg.UserID && r.VideoID == msg.VideoID)) ∧
        (likeTx f msg db).2.hasRelation msg.UserID msg.VideoID = false ∧
        (likeTx f msg db).2.likeCount msg.VideoID = some (n - 1)) := by
  refine ⟨?_, ?_, ?_⟩
  · intro e he
    unfold likeTx Transaction at he ⊢
    cases hb : f.beginTx with
    | some e1 => simp
    | none =>
      rcases hbody : likeTxBody f msg db with ⟨err, db1⟩
      cases err with
      | some e2 => simp
      | none =>
        cases hc : f.commitTx with
        | some e3 => simp
        | none => simp [hb, hbody, hc] at he
  · intro hact hok
    unfold likeTx Transaction at hok ⊢
    cases hb : f.beginTx with
    | some e1 => simp [hb] at hok
    | none =>
      cases hc : f.commitTx with
      | some e3 =>
        rcases hbody : likeTxBody f msg db with ⟨err, db1⟩
        cases err <;> simp [hb, hbody, hc] at hok
      | none =>
        cases hcr : f.likeCreate with
        | some e4 => simp [hb, hc, likeTxBody, hact, LikeRepository.Create, hcr] at hok
        | none =>
          by_cases hex : db.likes.any
              (fun r => r.UserID == msg.UserID && r.VideoID == msg.VideoID) = true
          · simp [hb, hc, likeTxBody, hact, LikeRepository.Create, hcr, hex] at hok
          · cases hin : f.incrLike with
            | some e5 =>
              simp [hb, hc, likeTxBody, hact, LikeRepository.Create, hcr, hex,
                VideoRepository.IncrementLikeCount, hin] at hok
            | none =>
              by_cases hov : db.videos.any
                  (fun v => v.ID == msg.VideoID && decide (v.LikeCount + 1 > uint64Max)) = true
              · simp [hb, hc, likeTxBody, hact, LikeRepository.Create, hcr, hex,
                  VideoRepository.IncrementLikeCount, hin, hov] at hok
              · have hfind := find_map_same_id msg.VideoID
                  (fun v => { v with LikeCount := v.LikeCount + 1 }) (fun v => rfl) db.videos
                refine ⟨by simpa [DB.hasRelation] using hex, ?_, ?_, ?_⟩
                · simp [hb, hc, likeTxBody, hact, LikeRepository.Create, hcr, hex,
                    VideoRepository.IncrementLikeCount, hin, hov]
                · simp [hb, hc, likeTxBody, hact, LikeRepository.Create, hcr, hex,
                    VideoRepository.IncrementLikeCount, hin, hov, DB.hasRelation]
                · simp only [DB.likeCount]
                  simp [hb, hc, likeTxBody, hact, LikeRepository.Create, hcr, hex,
                    VideoRepository.IncrementLikeCount, hin, hov, hfind]
                  rfl
  · intro hact hok n hrel hcount hn
    have hne : ¬ (msg.Action = "like") := by rw [hact]; decide
    unfold likeTx Transaction at hok
    cases hb : f.beginTx with
    | some e1 => simp [hb] at hok
    | none =>
      cases hc : f.commitTx with
      | some e3 =>
        rcases hbody : likeTxBody f msg db with ⟨err, db1⟩
        cases err <;> simp [hb, hbody, hc] at hok
      | none =>
        cases hdl : f.likeDelete with
        | some e4 => simp [hb, hc, likeTxBody, hact, LikeRepository.Delete, hdl] at hok
        | none =>
          cases hdc : f.decrLike with
          | some e5 =>
            simp [hb, hc, likeTxBody, hact, LikeRepository.Delete, hdl,
              VideoRepository.DecrementLikeCount, hdc] at hok
          | none =>
            have hres : likeTx f msg db = (none, { db with
                likes := db.likes.filter
                  (fun r => !(r.UserID == msg.UserID && r.VideoID == msg.VideoID))
                videos := db.videos.map (fun v => if v.ID = msg.VideoID ∧ v.LikeCount > 0 then
                  { v with LikeCount := v.LikeCount - 1 } else v) }) := by
              simp [likeTx, Transaction, hb, hc, likeTxBody, hact, LikeRepository.Delete, hdl,
                VideoRepository.DecrementLikeCount, hdc]
            rw [hres]
            refine ⟨rfl, ?_, ?_⟩
            · simp [DB.hasRelation]
              intro x _ hx hu hv
              rcases hx with hx | hx
              · exact hx hu
              · exact hx hv
            · exact likeCount_after_decrement db.videos msg.VideoID n hcount hn

/-- C13, worked: with the counter statement failing after the insert, a like of user 7
on video 42 leaves the store as it was; without fault it appends the relation and sets
the counter to 1; and an unlike by user 7 of video 42, liked by users 7 and 8 with
counter 2, removes the relation and sets the counter to 1. -/
theorem C13_like_transaction_atomic_witness :
    (likeTx faultsIncrLikeDown { UserID := 7, VideoID := 42, Action := "like" } dbFresh)
        = (some (.plain "invalid connection"), dbFresh) ∧
      ((likeTx noFaults { UserID := 7, VideoID := 42, Action := "like" } dbFresh).2.likes
          = [{ ID := 1, UserID := 7, VideoID := 42 }] ∧
        (likeTx noFaults { UserID := 7, VideoID := 42, Action := "like" } dbFresh).2.likeCount 42
          = some 1) ∧
      ((likeTx noFaults { UserID := 7, VideoID := 42, Action := "unlike" } dbTwoLikers).2.likes
          = [{ ID := 2, UserID := 8, VideoID := 42 }] ∧
        (likeTx noFaults { UserID := 7, VideoID := 42, Action := "unlike" }
          dbTwoLikers).2.likeCount 42 = some 1) := by
  have hfail := (C13_like_transaction_atomic faultsIncrLikeDown
    { UserID := 7, VideoID := 42, Action := "like" } dbFresh).1
    (.plain "invalid connection") (by decide)
  have hlike := (C13_like_transaction_atomic noFaults
    { UserID := 7, VideoID := 42, Action := "like" } dbFresh).2.1 rfl (by decide)
  have hunlike := (C13_like_transaction_atomic noFaults
    { UserID := 7, VideoID := 42, Action := "unlike" } dbTwoLikers).2.2 rfl (by decide)
    2 (by decide) (by decide) (by decide)
  refine ⟨?_, ⟨?_, ?_⟩, ⟨?_, ?_⟩⟩
  · exact Prod.ext (by decide) hfail
  · rw [hlike.2.1]; decide
  · rw [hlike.2.2.2]; decide
  · rw [hunlike.1]; decide
  · rw [hunlike.2.2]

/-! ## Properties: the golden-comment unit of work -/

/-- C14: the golden-comment unit of work is atomic. If it returns an error, the store
after it is the store before it, and a failing insert or a failing counter statement
does make it return that error. If it succeeds, exactly one row has been appended
to `comments`, carrying the userID, videoID and content of the event, `IsGolden = true`
and no parent, nothing else in the tables of likes and comments has changed, and the
golden counter of the video, if the video exists, is the old value plus 1. -/
theorem C14_golden_transaction_atomic (f : DbFaults) (msg : GoldenCommentMessage) (db : DB) :
    (∀ e, (goldenTx f msg db).1 = some e → (goldenTx f msg db).2 = db) ∧
    (∀ e, f.beginTx = none → f.commentCreate = some e → goldenTx f msg db = (some e, db)) ∧
    (∀ e, f.beginTx = none → f.commentCreate = none → f.incrGolden = some e →
      goldenTx f msg db = (some e, db)) ∧
    ((goldenTx f msg db).1 = none →
      (goldenTx f msg db).2.comments = db.comments ++
        [{ ID := db.commentsNextID, VideoID := msg.VideoID, UserID := msg.UserID,
           Content := msg.Content, LikeCount := 0, IsGolden := true,
           ParentID := none, ReplyToUserID := none }] ∧
      (goldenTx f msg db).2.likes = db.likes ∧
      (goldenTx f msg db).2.goldenCount msg.VideoID
        = (db.goldenCount msg.VideoID).map (fun n => n + 1)) := by
  refine ⟨?_, ?_, ?_, ?_⟩
  · intro e he
    unfold goldenTx UnitOfWork.Execute Transaction at he ⊢
    cases hb : f.beginTx with
    | some e1 => simp
    | none =>
      rcases hbody : goldenTxBody f msg db with ⟨err, db1⟩
      cases err with
      | some e2 => simp
      | none =>
        cases hc : f.commitTx with
        | some e3 => simp
        | none => simp [hb, hbody, hc] at he
  · intro e hb hcr
    simp [goldenTx, UnitOfWork.Execute, Transaction, hb, goldenTxBody,
      CommentRepository.Create, hcr]
  · intro e hb hcr hin
    simp [goldenTx, UnitOfWork.Execute, Transaction, hb, goldenTxBody,
      CommentRepository.Create, hcr, VideoRepository.IncrementGoldenCount, hin]
  · intro hok
    unfold goldenTx UnitOfWork.Execute Transaction at hok
    cases hb : f.beginTx with
    | some e1 => simp [hb] at hok
    | none =>
      cases hc : f.commitTx with
      | some e3 =>
        rcases hbody : goldenTxBody f msg db with ⟨err, db1⟩
        cases err <;> simp [hb, hbody, hc] at hok
      | none =>
        cases hcr : f.commentCreate with
        | some e4 => simp [hb, hc, goldenTxBody, CommentRepository.Create, hcr] at hok
        | none =>
          cases hin : f.incrGolden with
          | some e5 =>
            simp [hb, hc, goldenTxBody, CommentRepository.Create, hcr,
              VideoRepository.IncrementGoldenCount, hin] at hok
          | none =>
            by_cases hov : db.videos.any
                (fun v => v.ID == msg.VideoID && decide (v.GoldenCount + 1 > uint64Max)) = true
            · simp [hb, hc, goldenTxBody, CommentRepository.Create, hcr,
                VideoRepository.IncrementGoldenCount, hin, hov] at hok
            · have hres : goldenTx f msg db = (none, { db with
                  comments := db.comments ++
                    [{ ID := db.commentsNextID, VideoID := msg.VideoID, UserID := msg.UserID,
                       Content := msg.Content, LikeCount := 0, IsGolden := true,
                       ParentID := none, ReplyToUserID := none }]
                  commentsNextID := db.commentsNextID + 1
                  videos := db.videos.map (fun v => if v.ID = msg.VideoID then
                    { v with GoldenCount := v.GoldenCount + 1 } else v) }) := by
                simp [goldenTx, UnitOfWork.Execute, Transaction, hb, hc, goldenTxBody,
                  CommentRepository.Create, hcr, VideoRepository.IncrementGoldenCount, hin, hov]
              rw [hres]
              refine ⟨rfl, rfl, ?_⟩
              have hfind := find_map_same_id msg.VideoID
                (fun v => { v with GoldenCount := v.GoldenCount + 1 }) (fun v => rfl) db.videos
              unfold DB.goldenCount
              simp only
              rw [hfind]
              cases db.videos.find? (fun v => v.ID == msg.VideoID) <;> rfl

/-- C14, worked: the golden comment "first" of user 7 on video 9 appends one golden
row and sets the golden counter of video 9 to 1; with the counter statement failing,
the store stays as it was. -/
theorem C14_golden_transaction_atomic_witness :
    ((goldenTx noFaults { UserID := 7, VideoID := 9, Content := "first" } dbFresh).2.comments
        = [{ ID := 1, VideoID := 9, UserID := 7, Content := "first", IsGolden := true }] ∧
      (goldenTx noFaults { UserID := 7, VideoID := 9, Content := "first" }
        dbFresh).2.goldenCount 9 = some 1) ∧
      goldenTx faultsIncrGoldenDown { UserID := 7, VideoID := 9, Content := "first" } dbFresh
        = (some (.plain "invalid connection"), dbFresh) := by
  have hok := (C14_golden_transaction_atomic noFaults
    { UserID := 7, VideoID := 9, Content := "first" } dbFresh).2.2.2 (by decide)
  have hfail := (C14_golden_transaction_atomic faultsIncrGoldenDown
    { UserID := 7, VideoID := 9, Content := "first" } dbFresh).2.2.1
    (.plain "invalid connection") rfl rfl rfl
  refine ⟨⟨?_, ?_⟩, hfail⟩
  · rw [hok.1]; decide
  · rw [hok.2.2]; decide

/-- C15 fails on the code: `comments` has no unique index on the content of a golden
comment, so nothing rejects a redelivery. Delivering the golden comment "first" of
user 7 on video 9 once appends one row and sets the golden counter to 1; delivering it
twice appends two rows and sets the counter to 2, both deliveries being acknowledged
after a successful commit (no duplicate-key error occurs). -/
theorem C15_golden_redelivery_duplicates :
    (consumeGoldenComments unmarshalGoldenTable [({ Body := bodyGolden7 }, noFaults)] dbFresh)
        = ({ dbFresh with
             comments := [{ ID := 1, VideoID := 9, UserID := 7, Content := "first",
                            IsGolden := true }]
             commentsNextID := 2
             videos := [{ ID := 42 }, { ID := 9, GoldenCount := 1 }] }, [.ack false]) ∧
      (consumeGoldenComments unmarshalGoldenTable
          [({ Body := bodyGolden7 }, noFaults),
           ({ Body := bodyGolden7, Redelivered := true }, noFaults)] dbFresh)
        = ({ dbFresh with
             comments := [{ ID := 1, VideoID := 9, UserID := 7, Content := "first",
                            IsGolden := true },
                          { ID := 2, VideoID := 9, UserID := 7, Content := "first",
                            IsGolden := true }]
             commentsNextID := 3
             videos := [{ ID := 42 }, { ID := 9, GoldenCount := 2 }] },
           [.ack false, .ack false]) ∧
      (goldenTx noFaults { UserID := 7, VideoID := 9, Content := "first" }
        (goldenTx noFaults { UserID := 7, VideoID := 9, Content := "first" } dbFresh).2).1
        = none := by
  decide

/-! ## Properties: the unit of work -/

/-- A function whose statements all go through the handle of an open transaction:
its error is the one its statements give on the tables as the transaction sees them,
the committed tables do not move, and the transaction has done what it had done
before followed by these statements. -/
theorem run_in_transaction (id : Nat) (p : Prog) :
    ∀ (repos : TransactionalRepositories) (m : MySQL) (eff : DB → DB),
      repos.VideoRepo.db = .tx id → repos.CommentRepo.db = .tx id → p.within repos →
      m.txs id = some eff →
      (p.run m).1 = (p.onDB (eff m.committed)).1 ∧
        (p.run m).2.committed = m.committed ∧
        (p.run m).2.nextTx = m.nextTx ∧
        ∃ eff2, (p.run m).2.txs = Function.update m.txs id (some eff2) ∧
          eff2 m.committed = (p.onDB (eff m.committed)).2 := by
  induction p with
  | ret err =>
    intro repos m eff _ _ _ hm
    refine ⟨rfl, rfl, rfl, eff, ?_, rfl⟩
    funext k
    by_cases hk : k = id
    · subst hk; simp [Prog.run, hm]
    · simp [Prog.run, Function.update, hk]
  | exec c stmt next ih =>
    intro repos m eff hv hc hw hm
    have hcid : c = .tx id := by
      rcases hw.1 with h | h
      · rw [h, hv]
      · rw [h, hc]
    subst hcid
    have hexec : (Conn.tx id).exec stmt m
        = ((stmt (eff m.committed)).1,
            { m with txs := Function.update m.txs id (some (fun d => (stmt (eff d)).2)) }) := by
      simp [Conn.exec, hm]
    have hnext := ih (stmt (eff m.committed)).1 repos
      { m with txs := Function.update m.txs id (some (fun d => (stmt (eff d)).2)) }
      (fun d => (stmt (eff d)).2) hv hc (hw.2 _) (by simp)
    simp only [Prog.run, Prog.onDB, hexec]
    refine ⟨hnext.1, hnext.2.1, hnext.2.2.1, ?_⟩
    rcases hnext.2.2.2 with ⟨eff2, h1, h2⟩
    refine ⟨eff2, ?_, h2⟩
    rw [h1]
    simp

theorem bind_within (repos : TransactionalRepositories) (fn : Script) :
    (fn.bind repos).within repos := by
  induction fn with
  | ret err => exact True.intro
  | call sel stmt next ih =>
    refine ⟨?_, fun e => ih e⟩
    cases sel
    · exact Or.inl rfl
    · exact Or.inr rfl

theorem bind_onDB (repos : TransactionalRepositories) (fn : Script) :
    ∀ d : DB, (fn.bind repos).onDB d = fn.onDB d := by
  induction fn with
  | ret err => intro d; rfl
  | call sel stmt next ih =>
    intro d
    exact ih (stmt d).1 (stmt d).2

/-- The function of the golden-comment consumer, written with the methods of the
repositories it receives, is the script of the same name. -/
theorem goldenFn_eq_bind (f : DbFaults) (msg : GoldenCommentMessage)
    (repos : TransactionalRepositories) :
    goldenFn f msg repos = (goldenScript f msg).bind repos := by
  unfold goldenFn goldenScript commentRepository.Create videoRepository.IncrementGoldenCount
  simp only [Script.bind, TransactionalRepositories.handle]
  congr 1
  funext err
  cases err <;> rfl

/-- The statements of the function of the golden-comment consumer, applied to given
tables, are the function the state-passing consumer runs. -/
theorem goldenScript_onDB (f : DbFaults) (msg : GoldenCommentMessage) (d : DB) :
    (goldenScript f msg).onDB d = goldenTxBody f msg d := by
  unfold goldenScript goldenTxBody
  simp only [Script.onDB]
  rcases hc : CommentRepository.Create f.commentCreate
    { UserID := msg.UserID, VideoID := msg.VideoID, Content := msg.Content, IsGolden := true }
    d with ⟨err, d1⟩
  cases err with
  | some e => simp [Script.onDB]
  | none => simp [Script.onDB]

/-- What the rebinding in `Execute` is for: were the function handed the repositories
of the unit of work as they are (bound to the connection pool) instead of their
`WithTx` copies, the insert of a function that then fails would stay in the committed
tables. -/
theorem unbound_repositories_not_rolled_back :
    (MySQL.Transaction none none
        (fun _ => (insertThenFail { UserID := 7, VideoID := 9, Content := "first" }
          (.plain "boom")).bind
            { VideoRepo := uowMain.videoRepo, CommentRepo := uowMain.commentRepo })
        mysqlFresh).1 = some (.plain "boom") ∧
      (MySQL.Transaction none none
        (fun _ => (insertThenFail { UserID := 7, VideoID := 9, Content := "first" }
          (.plain "boom")).bind
            { VideoRepo := uowMain.videoRepo, CommentRepo := uowMain.commentRepo })
        mysqlFresh).2.committed.comments
        = [{ ID := 1, UserID := 7, VideoID := 9, Content := "first" }] ∧
      (uowMain.Execute none none
        (insertThenFail { UserID := 7, VideoID := 9, Content := "first" }
          (.plain "boom")).bind mysqlFresh).2.committed.comments = [] := by
  decide

/-- What `Execute` does with a function whose statements all go through the
repositories it receives: they run in the transaction `Execute` opens, with the error
they give on the tables before the call and without moving the committed tables; the
transaction is closed afterwards; the error of the function is returned with the
tables as before, nil with a successful commit leaves the tables its statements
produce, a failed commit or begin leaves the tables as before. -/
theorem execute_within (u : gormUnitOfWork) (commitErr : Option GoError)
    (fn : TransactionalRepositories → Prog) (m : MySQL)
    (hfn : ∀ repos, (fn repos).within repos) :
    (((fn (u.transactionalRepos (.tx m.nextTx))).run
          { m with txs := Function.update m.txs m.nextTx (some (fun d => d)),
                   nextTx := m.nextTx + 1 }).1
        = ((fn (u.transactionalRepos (.tx m.nextTx))).onDB m.committed).1 ∧
      ((fn (u.transactionalRepos (.tx m.nextTx))).run
          { m with txs := Function.update m.txs m.nextTx (some (fun d => d)),
                   nextTx := m.nextTx + 1 }).2.committed = m.committed) ∧
      (u.Execute none commitErr fn m).2.txs m.nextTx = none ∧
      (∀ e, ((fn (u.transactionalRepos (.tx m.nextTx))).onDB m.committed).1 = some e →
        (u.Execute none commitErr fn m).1 = some e ∧
          (u.Execute none commitErr fn m).2.committed = m.committed) ∧
      (((fn (u.transactionalRepos (.tx m.nextTx))).onDB m.committed).1 = none →
        commitErr = none →
        (u.Execute none commitErr fn m).1 = none ∧
          (u.Execute none commitErr fn m).2.committed
            = ((fn (u.transactionalRepos (.tx m.nextTx))).onDB m.committed).2) ∧
      (∀ e, ((fn (u.transactionalRepos (.tx m.nextTx))).onDB m.committed).1 = none →
        commitErr = some e →
        (u.Execute none commitErr fn m).1 = some e ∧
          (u.Execute none commitErr fn m).2.committed = m.committed) := by
  have hrun := run_in_transaction m.nextTx (fn (u.transactionalRepos (.tx m.nextTx)))
    (u.transactionalRepos (.tx m.nextTx))
    { m with txs := Function.update m.txs m.nextTx (some (fun d => d)),
             nextTx := m.nextTx + 1 }
    (fun d => d) rfl rfl (hfn _) (by simp)
  rcases hrun with ⟨herr, hcomm, _, eff2, htxs, heff⟩
  simp only at herr hcomm htxs heff
  have hlook : ∀ (s : MySQL), s.txs = Function.update
      (Function.update m.txs m.nextTx (some (fun d => d))) m.nextTx (some eff2) →
      s.txs m.nextTx = some eff2 := by
    intro s hs
    rw [hs]
    simp
  have hl := hlook _ htxs
  refine ⟨⟨herr, hcomm⟩, ?_, ?_, ?_, ?_⟩
  · simp only [gormUnitOfWork.Execute, MySQL.Transaction]
    cases h1 : ((fn (u.transactionalRepos (.tx m.nextTx))).run
        { m with txs := Function.update m.txs m.nextTx (some (fun d => d)),
                 nextTx := m.nextTx + 1 }).1 with
    | some e => simp [MySQL.rollback]
    | none =>
      cases commitErr with
      | some e => simp [MySQL.rollback]
      | none => simp [MySQL.commit, hl]
  · intro e he
    rw [← herr] at he
    simp only [gormUnitOfWork.Execute, MySQL.Transaction, he]
    exact ⟨trivial, hcomm⟩
  · intro hok hc
    rw [← herr] at hok
    subst hc
    simp only [gormUnitOfWork.Execute, MySQL.Transaction, hok]
    refine ⟨trivial, ?_⟩
    simp only [MySQL.commit, hl, hcomm]
    exact heff
  · intro e hok hc
    rw [← herr] at hok
    subst hc
    simp only [gormUnitOfWork.Execute, MySQL.Transaction, hok]
    exact ⟨trivial, hcomm⟩

/-- The state-passing `UnitOfWork.Execute` that the consumers above are written with
computes the error and the committed tables of `gormUnitOfWork.Execute`, for every
function that sends its statements through the repositories it receives. -/
theorem Execute_agrees_with_state_passing (u : gormUnitOfWork)
    (beginErr commitErr : Option GoError) (fn : TransactionalRepositories → Prog) (m : MySQL)
    (hfn : ∀ repos, (fn repos).within repos) :
    (u.Execute beginErr commitErr fn m).1
        = (UnitOfWork.Execute beginErr commitErr
            (fn (u.transactionalRepos (.tx m.nextTx))).onDB m.committed).1 ∧
      (u.Execute beginErr commitErr fn m).2.committed
        = (UnitOfWork.Execute beginErr commitErr
            (fn (u.transactionalRepos (.tx m.nextTx))).onDB m.committed).2 := by
  cases beginErr with
  | some e => exact ⟨rfl, rfl⟩
  | none =>
    have h := execute_within u commitErr fn m hfn
    simp only [UnitOfWork.Execute, Transaction]
    rcases hp : (fn (u.transactionalRepos (.tx m.nextTx))).onDB m.committed with ⟨err, d1⟩
    rw [hp] at h
    cases err with
    | some e => exact h.2.2.1 e rfl
    | none =>
      cases commitErr with
      | some e => exact h.2.2.2.2 e rfl rfl
      | none => exact h.2.2.2.1 rfl rfl

/-- C16: `Execute` is all-or-nothing and transparent, and the repositories it hands to
`fn` are bound to the one transaction it opens. Whatever handles the repositories of
the unit of work hold, the two repositories built for a transaction both hold the
handle of that transaction. For every function `fn` (any sequence of calls on the
repositories it receives, each depending on the errors before) and every state of
the server: the calls of `fn` run in the transaction `Execute` opens, on the tables
as they were before the call, and the committed tables do not move while `fn` runs;
the transaction is closed afterwards. If `fn` returns an error `e`, `Execute` returns
`e` and the committed tables are the ones before the call. If `fn` returns nil and
the commit succeeds, `Execute` returns nil and the committed tables are those the
writes of `fn` produce from the ones before the call. If the commit fails, its error
is returned and the tables are the ones before; likewise for a failed begin, where
`fn` is not run. -/
theorem C16_execute_all_or_nothing (u : gormUnitOfWork) (commitErr : Option GoError)
    (fn : Script) (m : MySQL) :
    (∀ tx, (u.transactionalRepos tx).VideoRepo.db = tx ∧
        (u.transactionalRepos tx).CommentRepo.db = tx) ∧
      (((fn.bind (u.transactionalRepos (.tx m.nextTx))).run
          { m with txs := Function.update m.txs m.nextTx (some (fun d => d)),
                   nextTx := m.nextTx + 1 }).1 = (fn.onDB m.committed).1 ∧
        ((fn.bind (u.transactionalRepos (.tx m.nextTx))).run
          { m with txs := Function.update m.txs m.nextTx (some (fun d => d)),
                   nextTx := m.nextTx + 1 }).2.committed = m.committed) ∧
      (u.Execute none commitErr fn.bind m).2.txs m.nextTx = none ∧
      (∀ e, (fn.onDB m.committed).1 = some e →
        (u.Execute none commitErr fn.bind m).1 = some e ∧
          (u.Execute none commitErr fn.bind m).2.committed = m.committed) ∧
      ((fn.onDB m.committed).1 = none → commitErr = none →
        (u.Execute none commitErr fn.bind m).1 = none ∧
          (u.Execute none commitErr fn.bind m).2.committed = (fn.onDB m.committed).2) ∧
      (∀ e, (fn.onDB m.committed).1 = none → commitErr = some e →
        (u.Execute none commitErr fn.bind m).1 = some e ∧
          (u.Execute none commitErr fn.bind m).2.committed = m.committed) ∧
      (∀ e, (u.Execute (some e) commitErr fn.bind m).1 = some e ∧
        (u.Execute (some e) commitErr fn.bind m).2.committed = m.committed) := by
  have h := execute_within u commitErr fn.bind m (fun repos => bind_within repos fn)
  simp only [bind_onDB] at h
  exact ⟨fun tx => ⟨rfl, rfl⟩, h.1, h.2.1, h.2.2.1, h.2.2.2.1, h.2.2.2.2,
    fun e => ⟨rfl, rfl⟩⟩

/-- C16, worked: the function of the golden-comment consumer run by `Execute` of the
unit of work `main` builds, on a server with video 9. With the counter statement
failing, `Execute` returns that error and the committed tables are unchanged although
the insert had been done inside the transaction; without fault it returns nil and the
committed tables hold the golden comment and the counter at 1, which is what the
state-passing consumer computes. -/
theorem C16_execute_all_or_nothing_witness :
    ((goldenScript faultsIncrGoldenDown { UserID := 7, VideoID := 9, Content := "first" }).onDB
        mysqlFresh.committed).2.comments ≠ mysqlFresh.committed.comments ∧
      (uowMain.Execute none none
        (goldenFn faultsIncrGoldenDown { UserID := 7, VideoID := 9, Content := "first" })
        mysqlFresh).1 = some (.plain "invalid connection") ∧
      (uowMain.Execute none none
        (goldenFn faultsIncrGoldenDown { UserID := 7, VideoID := 9, Content := "first" })
        mysqlFresh).2.committed = mysqlFresh.committed ∧
      (uowMain.Execute none none
        (goldenFn noFaults { UserID := 7, VideoID := 9, Content := "first" })
        mysqlFresh).1 = none ∧
      (uowMain.Execute none none
        (goldenFn noFaults { UserID := 7, VideoID := 9, Content := "first" })
        mysqlFresh).2.committed
        = (goldenTx noFaults { UserID := 7, VideoID := 9, Content := "first" }
            mysqlFresh.committed).2 ∧
      (uowMain.Execute none none
        (goldenFn noFaults { UserID := 7, VideoID := 9, Content := "first" })
        mysqlFresh).2.committed.comments
        = [{ ID := 1, UserID := 7, VideoID := 9, Content := "first", IsGolden := true }] := by
  have hfn : ∀ (f : DbFaults) (msg : GoldenCommentMessage),
      goldenFn f msg = (goldenScript f msg).bind := by
    intro f msg
    funext repos
    exact goldenFn_eq_bind f msg repos
  have h := C16_execute_all_or_nothing uowMain none
    (goldenScript faultsIncrGoldenDown { UserID := 7, VideoID := 9, Content := "first" })
    mysqlFresh
  have h2 := C16_execute_all_or_nothing uowMain none
    (goldenScript noFaults { UserID := 7, VideoID := 9, Content := "first" }) mysqlFresh
  have hbad := h.2.2.2.1 (.plain "invalid connection") (by decide)
  have hok := h2.2.2.2.2.1 (by decide) rfl
  rw [← hfn] at hbad hok
  exact ⟨by decide, hbad.1, hbad.2, hok.1, hok.2.trans (by decide), by decide⟩

/-! ## Properties: the cache-aside read path -/

theorem key5 : keyVideoInfo 5 = "video:info:5" := by decide

/-- C17 as stated fails: Redis is unreachable for the cache read and MySQL holds video
5, yet `GetVideoByID 5` returns the Redis error, not the row, and no store command is
executed (no fetch from MySQL). -/
theorem C17_cache_error_not_fallen_through :
    GetVideoCache envCacheDown.cacheGet envCacheDown.unmarshalVideo 5 storeMiss5.rdb
        = .error (.plain "dial tcp 127.0.0.1:6379: connect: connection refused") ∧
      storeMiss5.db.videos.find? (fun v => v.ID == 5) = some video5 ∧
      (GetVideoByID envCacheDown 5 storeMiss5).1
        = .error (.plain "dial tcp 127.0.0.1:6379: connect: connection refused") ∧
      (GetVideoByID envCacheDown 5 storeMiss5).1 ≠ .ok video5 ∧
      (GetVideoByID envCacheDown 5 storeMiss5).2.ops = [] := by
  decide

/-- C17, amended: when the cache read of `GetVideoByID` fails with an error that is not
a miss (an error of Redis other than `redis.Nil`, or a cached value that does not
decode), `GetVideoByID` returns that error, whatever MySQL holds; Redis and MySQL are
unchanged and the only command a store may have executed is the `GET` itself: no
fetch from MySQL, no cache write. -/
theorem C17_cache_error_returned (env : ReadEnv) (videoID : Nat) (st : Store) (e : GoError)
    (herr : GetVideoCache env.cacheGet env.unmarshalVideo videoID st.rdb = .error e)
    (hnil : e ≠ redisNil) :
    (GetVideoByID env videoID st).1 = .error e ∧
      (GetVideoByID env videoID st).2.rdb = st.rdb ∧
      (GetVideoByID env videoID st).2.db = st.db ∧
      ((GetVideoByID env videoID st).2.ops = st.ops ∨
        (GetVideoByID env videoID st).2.ops = st.ops ++ [.cacheGet (keyVideoInfo videoID)]) := by
  have hres : GetVideoByID env videoID st = (.error e, st.noteGet env.cacheGet videoID) := by
    simp [GetVideoByID, herr, hnil]
  rw [hres]
  cases hf : env.cacheGet <;> simp [Store.noteGet]

/-- C17 amended, worked: the cache entry of video 5 is present but Redis is unreachable;
`GetVideoByID 5` returns the Redis error and executes no store command. -/
theorem C17_cache_error_returned_witness :
    (GetVideoByID envCacheDown 5 storeHit5).1
        = .error (.plain "dial tcp 127.0.0.1:6379: connect: connection refused") ∧
      (GetVideoByID envCacheDown 5 storeHit5).2.ops = [] := by
  have h := C17_cache_error_returned envCacheDown 5 storeHit5
    (.plain "dial tcp 127.0.0.1:6379: connect: connection refused") (by decide) (by decide)
  exact ⟨h.1, by decide⟩

/-- C18: when the cache read reaches Redis, the entry `video:info:<id>` exists and its
value decodes to `v`, `GetVideoByID` returns `v`; Redis and MySQL are unchanged and the
only command executed is that one `GET`: no fetch from MySQL and no cache write. -/
theorem C18_cache_hit (env : ReadEnv) (videoID : Nat) (st : Store) (entry : CacheEntry)
    (v : Video) (hget : env.cacheGet = none)
    (hentry : st.rdb.cache (keyVideoInfo videoID) = some entry)
    (hdecode : env.unmarshalVideo entry.value = .ok v) :
    (GetVideoByID env videoID st).1 = .ok v ∧
      (GetVideoByID env videoID st).2.rdb = st.rdb ∧
      (GetVideoByID env videoID st).2.db = st.db ∧
      (GetVideoByID env videoID st).2.ops = st.ops ++ [.cacheGet (keyVideoInfo videoID)] := by
  have hc : GetVideoCache env.cacheGet env.unmarshalVideo videoID st.rdb = .ok (some v) := by
    simp [GetVideoCache, Redis.get, hget, hentry, hdecode]
  have hres : GetVideoByID env videoID st = (.ok v, st.noteGet env.cacheGet videoID) := by
    simp [GetVideoByID, hc]
  rw [hres]
  simp [Store.noteGet, hget]

/-- C18, worked: video 5 is cached; `GetVideoByID 5` returns it after a single `GET`. -/
theorem C18_cache_hit_witness :
    (GetVideoByID envRead 5 storeHit5).1 = .ok video5 ∧
      (GetVideoByID envRead 5 storeHit5).2.ops = [.cacheGet "video:info:5"] := by
  have h := C18_cache_hit envRead 5 storeHit5 { value := jsonVideo5, ttl := 330 * second }
    video5 rfl (by rw [key5]; rfl) (by decide)
  refine ⟨h.1, ?_⟩
  rw [h.2.2.2, key5]
  rfl

theorem find_some_id (videos : List Video) (videoID : Nat) (v : Video)
    (h : videos.find? (fun w => w.ID == videoID) = some v) : v.ID = videoID := by
  have := List.find?_some h
  simpa using this

/-- C19: the entry `video:info:<id>` is absent, MySQL holds the row `v` of that id, and
Redis, MySQL and the encoder answer. Then one call of `GetVideoByID` returns `v`; the
stores execute, in order, two cache reads, exactly one fetch from MySQL and two cache
writes of the JSON of `v` under `video:info:<id>` (one by `FindByID`, one by
`GetVideoByID` itself); at return the entry under that key is the JSON of `v` with the
expiration of the last write, every other cache entry and MySQL being unchanged. -/
theorem C19_cache_miss_fetch_and_fill (env : ReadEnv) (videoID : Nat) (st : Store)
    (v : Video) (videoJSON : String)
    (hget : env.cacheGet = none) (hgetRepo : env.cacheGetRepo = none)
    (hfind : env.dbFind = none) (hsetRepo : env.cacheSetRepo = none)
    (hset : env.cacheSet = none)
    (hmiss : st.rdb.cache (keyVideoInfo videoID) = none)
    (hrow : st.db.videos.find? (fun w => w.ID == videoID) = some v)
    (hjson : env.marshalVideo v = .ok videoJSON) :
    (GetVideoByID env videoID st).1 = .ok v ∧
      (GetVideoByID env videoID st).2.ops = st.ops ++
        [.cacheGet (keyVideoInfo videoID), .cacheGet (keyVideoInfo videoID),
         .dbFetch videoID,
         .cacheSet (keyVideoInfo videoID) videoJSON (cacheExpiration env.jitterRepo),
         .cacheSet (keyVideoInfo videoID) videoJSON (cacheExpiration env.jitter)] ∧
      (GetVideoByID env videoID st).2.rdb.cache (keyVideoInfo videoID)
        = some { value := videoJSON, ttl := cacheExpiration env.jitter } ∧
      (∀ k, k ≠ keyVideoInfo videoID →
        (GetVideoByID env videoID st).2.rdb.cache k = st.rdb.cache k) ∧
      (GetVideoByID env videoID st).2.db = st.db := by
  have hid := find_some_id st.db.videos videoID v hrow
  subst hid
  have hc : ∀ fault, fault = none →
      GetVideoCache fault env.unmarshalVideo v.ID st.rdb = .ok none := by
    intro fault hf
    simp [GetVideoCache, Redis.get, hf, hmiss, redisNil]
  have hrepo : VideoRepository.FindByID env v.ID (st.noteGet env.cacheGet v.ID)
      = (.ok v, { rdb := { st.rdb with cache := (Function.update st.rdb.cache
                    (keyVideoInfo v.ID)
                    (some { value := videoJSON, ttl := cacheExpiration env.jitterRepo })) },
                  db := st.db,
                  ops := st.ops ++ [.cacheGet (keyVideoInfo v.ID), .cacheGet (keyVideoInfo v.ID),
                    .dbFetch v.ID,
                    .cacheSet (keyVideoInfo v.ID) videoJSON (cacheExpiration env.jitterRepo)] }) := by
    simp [VideoRepository.FindByID, Store.noteGet, hget, hgetRepo, hc, hfind, hrow,
      Store.setVideoCache, SetVideoCache, Redis.set, hsetRepo, hjson]
  rw [hget] at hrepo
  have hres : GetVideoByID env v.ID st
      = (.ok v, { rdb := { st.rdb with cache := (Function.update
                    (Function.update st.rdb.cache (keyVideoInfo v.ID)
                      (some { value := videoJSON, ttl := cacheExpiration env.jitterRepo }))
                    (keyVideoInfo v.ID)
                    (some { value := videoJSON, ttl := cacheExpiration env.jitter })) },
                  db := st.db,
                  ops := st.ops ++ [.cacheGet (keyVideoInfo v.ID), .cacheGet (keyVideoInfo v.ID),
                    .dbFetch v.ID,
                    .cacheSet (keyVideoInfo v.ID) videoJSON (cacheExpiration env.jitterRepo),
                    .cacheSet (keyVideoInfo v.ID) videoJSON (cacheExpiration env.jitter)] }) := by
    simp [GetVideoByID, hc, hget, hrepo, Store.setVideoCache, SetVideoCache, Redis.set,
      hset, hjson]
  rw [hres]
  refine ⟨rfl, rfl, ?_, ?_, rfl⟩
  · simp
  · intro k hk
    simp [Function.update, hk]

/-- C19, worked: video 5 is in MySQL and not in the cache; `GetVideoByID 5` returns it
after one fetch, and the cache then holds its JSON under `video:info:5` with an
expiration of 342 seconds. -/
theorem C19_cache_miss_fetch_and_fill_witness :
    (GetVideoByID envRead 5 storeMiss5).1 = .ok video5 ∧
      (GetVideoByID envRead 5 storeMiss5).2.ops
        = [.cacheGet "video:info:5", .cacheGet "video:info:5", .dbFetch 5,
           .cacheSet "video:info:5" jsonVideo5 (317 * second),
           .cacheSet "video:info:5" jsonVideo5 (342 * second)] ∧
      (GetVideoByID envRead 5 storeMiss5).2.rdb.cache "video:info:5"
        = some { value := jsonVideo5, ttl := 342 * second } := by
  have h := C19_cache_miss_fetch_and_fill envRead 5 storeMiss5 video5 jsonVideo5
    rfl rfl rfl rfl rfl (by rw [key5]; rfl) (by decide) (by decide)
  rw [key5] at h
  exact ⟨h.1, h.2.1, h.2.2.1⟩

/-- C20: whatever jitter `j` with `0 <= j < 60` is drawn, the expiration `SetVideoCache`
computes is `300 + j` seconds, which lies in `[300, 360)` seconds (and fits a 64-bit
`time.Duration`); when the encoder and Redis answer, the entry it writes under
`video:info:<id>` carries exactly that expiration, and when they do not, it writes
nothing. -/
theorem C20_ttl_jitter_range (fault : Option GoError) (marshal : Video → Except GoError String)
    (j : Nat) (video : Video) (r : Redis) (hj : j < 60) :
    cacheExpiration j = (300 + j) * second ∧
      cacheExpiration j / second = 300 + j ∧
      300 * second ≤ cacheExpiration j ∧ cacheExpiration j < 360 * second ∧
      (cacheExpiration j : Int) ≤ int64Max ∧
      (∀ videoJSON, fault = none → marshal video = .ok videoJSON →
        (SetVideoCache fault marshal j video r).1 = none ∧
        (SetVideoCache fault marshal j video r).2.cache (keyVideoInfo video.ID)
          = some { value := videoJSON, ttl := (300 + j) * second }) ∧
      ((SetVideoCache fault marshal j video r).1 ≠ none →
        (SetVideoCache fault marshal j video r).2 = r) := by
  have hexp : cacheExpiration j = (300 + j) * second := by
    unfold cacheExpiration minute second
    omega
  refine ⟨hexp, ?_, ?_, ?_, ?_, ?_, ?_⟩
  · rw [hexp]
    exact Nat.mul_div_cancel _ (by decide)
  · rw [hexp]; unfold second; omega
  · rw [hexp]; unfold second; omega
  · rw [hexp]; unfold second int64Max; omega
  · intro videoJSON hf hm
    simp [SetVideoCache, Redis.set, hf, hm, hexp]
  · intro hne
    cases hm : marshal video with
    | error e => simp [SetVideoCache, hm]
    | ok videoJSON =>
      cases hf : fault with
      | some e => simp [SetVideoCache, Redis.set, hm]
      | none => simp [SetVideoCache, Redis.set, hm, hf] at hne

/-- C20, worked: with the jitter 59 the entry of video 5 is written with an expiration
of 359 seconds. -/
theorem C20_ttl_jitter_range_witness :
    cacheExpiration 59 = 359 * second ∧
      (SetVideoCache none marshalVideoPlain 59 video5 storeMiss5.rdb).2.cache "video:info:5"
        = some { value := jsonVideo5, ttl := 359 * second } := by
  have h := C20_ttl_jitter_range none marshalVideoPlain 59 video5 storeMiss5.rdb (by decide)
  refine ⟨h.1, ?_⟩
  have h2 := (h.2.2.2.2.2.1 jsonVideo5 rfl (by decide)).2
  have hk : keyVideoInfo video5.ID = "video:info:5" := by decide
  rw [hk] at h2
  exact h2

/-- C21: when the cache read answers, the entry `video:info:<id>` is absent, and MySQL
answers and holds no row of that id, `GetVideoByID` returns the not-found error of the
durable store; Redis (every cache entry) and MySQL are unchanged and no `SET` is among
the commands executed. -/
theorem C21_not_found_not_cached (env : ReadEnv) (videoID : Nat) (st : Store)
    (hget : env.cacheGet = none) (hfind : env.dbFind = none)
    (hmiss : st.rdb.cache (keyVideoInfo videoID) = none)
    (hrow : st.db.videos.find? (fun w => w.ID == videoID) = none) :
    (GetVideoByID env videoID st).1 = .error errRecordNotFound ∧
      (GetVideoByID env videoID st).2.rdb = st.rdb ∧
      (GetVideoByID env videoID st).2.db = st.db ∧
      (∀ op ∈ (GetVideoByID env videoID st).2.ops, op ∉ st.ops →
        op = .cacheGet (keyVideoInfo videoID) ∨ op = .dbFetch videoID) := by
  have hc : GetVideoCache env.cacheGet env.unmarshalVideo videoID st.rdb = .ok none := by
    simp [GetVideoCache, Redis.get, hget, hmiss, redisNil]
  have hrepo : ∀ st1 : Store, st1.rdb = st.rdb → st1.db = st.db →
      (VideoRepository.FindByID env videoID st1).1 = .error errRecordNotFound ∧
      (VideoRepository.FindByID env videoID st1).2.rdb = st1.rdb ∧
      (VideoRepository.FindByID env videoID st1).2.db = st1.db ∧
      (∀ op ∈ (VideoRepository.FindByID env videoID st1).2.ops, op ∉ st1.ops →
        op = .cacheGet (keyVideoInfo videoID) ∨ op = .dbFetch videoID) := by
    intro st1 h1 h2
    have hc2 : GetVideoCache env.cacheGetRepo env.unmarshalVideo videoID st1.rdb = .ok none ∨
        ∃ e, GetVideoCache env.cacheGetRepo env.unmarshalVideo videoID st1.rdb = .error e := by
      cases hf : env.cacheGetRepo with
      | none => left; simp [GetVideoCache, Redis.get, h1, hmiss, redisNil]
      | some e =>
        by_cases he : e = redisNil
        · left; simp [GetVideoCache, Redis.get, he]
        · right; exact ⟨e, by simp [GetVideoCache, Redis.get, he]⟩
    rcases hc2 with hc2 | ⟨e, hc2⟩
    · cases hf : env.cacheGetRepo <;> rw [hf] at hc2 <;>
        simp [VideoRepository.FindByID, hc2, hfind, h2, hrow, Store.noteGet, hf] <;>
        intro op hop hnot <;> tauto
    · cases hf : env.cacheGetRepo <;> rw [hf] at hc2 <;>
        simp [VideoRepository.FindByID, hc2, hfind, h2, hrow, Store.noteGet, hf] <;>
        intro op hop hnot <;> tauto
  have h := hrepo (st.noteGet env.cacheGet videoID) (by simp [Store.noteGet, hget])
    (by simp [Store.noteGet, hget])
  rcases hfb : VideoRepository.FindByID env videoID (st.noteGet env.cacheGet videoID)
    with ⟨r, st2⟩
  rw [hfb] at h
  obtain ⟨hr, hrdb, hdb, hops⟩ := h
  simp only at hr hrdb hdb hops
  subst hr
  have hres : GetVideoByID env videoID st = (.error errRecordNotFound, st2) := by
    simp [GetVideoByID, hc, hfb]
  rw [hres]
  refine ⟨rfl, ?_, ?_, ?_⟩
  · rw [hrdb]; simp [Store.noteGet, hget]
  · rw [hdb]; simp [Store.noteGet, hget]
  · intro op hop hnot
    by_cases hin : op ∈ (st.noteGet env.cacheGet videoID).ops
    · left
      simp [Store.noteGet, hget] at hin
      rcases hin with hin | hin
      · exact absurd hin hnot
      · exact hin
    · exact hops op hop hin

/-- C21, worked: video 5 is neither cached nor stored; `GetVideoByID 5` returns the
not-found error after two cache reads and one fetch, and the cache still has no entry
for it. -/
theorem C21_not_found_not_cached_witness :
    (GetVideoByID envRead 5 storeEmpty).1 = .error errRecordNotFound ∧
      (GetVideoByID envRead 5 storeEmpty).2.ops
        = [.cacheGet "video:info:5", .cacheGet "video:info:5", .dbFetch 5] ∧
      (GetVideoByID envRead 5 storeEmpty).2.rdb.cache "video:info:5" = none := by
  have h := C21_not_found_not_cached envRead 5 storeEmpty rfl rfl (by rw [key5]; rfl)
    (by decide)
  refine ⟨h.1, by decide, ?_⟩
  rw [h.2.1]
  rfl

/-! ## Properties: the seat counter outside its intended range -/

theorem toUint64_of_negative (v : Int) (hlow : int64Min ≤ v) (hneg : v < 0) :
    toUint64 v = (2 ^ 64 + v).toNat ∧ (2 ^ 64 + v).toNat > seatCap := by
  unfold int64Min at hlow
  have h1 : v % 2 ^ 64 = 2 ^ 64 + v := by
    have h2 : (v + 2 ^ 64) % 2 ^ 64 = v % 2 ^ 64 := Int.add_emod_self
    rw [← h2, Int.emod_eq_of_lt (by omega) (by omega)]
    omega
  unfold toUint64 seatCap
  rw [h1]
  constructor
  · rfl
  · omega

/-- C29: `IncrementGoldenCount_Redis` returns `uint64(v)`, that is `v mod 2^64`, for the
signed value `v` Redis answers. When the stored seat counter `c` is at most -2 (and a
64-bit value, Redis answering), the count returned is `2^64 + c + 1`, which exceeds
100; `CreateGoldenComment` then fails with the seat-full error, every Redis counter is
back at its value before the call (the seat counter at `c`) and nothing is handed to
the relay: no reservation is admitted from such a state. -/
theorem C29_negative_counter_rejects (env : Env) (userID videoID : Nat) (content : String)
    (w : World) (hincr : env.incrFault = none) (hdecr : env.decrFault = none)
    (hlow : int64Min ≤ w.rdb.counters (keyVideoGoldenCount videoID))
    (hneg : w.rdb.counters (keyVideoGoldenCount videoID) ≤ -2) :
    (IncrementGoldenCount_Redis env.incrFault videoID w.rdb).1
        = (((w.rdb.counters (keyVideoGoldenCount videoID) + 1) % 2 ^ 64).toNat, none) ∧
      (IncrementGoldenCount_Redis env.incrFault videoID w.rdb).1
        = ((2 ^ 64 + w.rdb.counters (keyVideoGoldenCount videoID) + 1).toNat, none) ∧
      (2 ^ 64 + w.rdb.counters (keyVideoGoldenCount videoID) + 1).toNat > 100 ∧
      (CreateGoldenComment env userID videoID content w).1 = .error errSeatFull ∧
      (CreateGoldenComment env userID videoID content w).2.rdb.counters = w.rdb.counters ∧
      (CreateGoldenComment env userID videoID content w).2.relay = w.relay := by
  have hu := toUint64_of_negative (w.rdb.counters (keyVideoGoldenCount videoID) + 1)
    (by omega) (by omega)
  have hu1 : toUint64 (w.rdb.counters (keyVideoGoldenCount videoID) + 1)
      = (2 ^ 64 + w.rdb.counters (keyVideoGoldenCount videoID) + 1).toNat := by
    rw [hu.1]; congr 1; omega
  have hgt : (2 ^ 64 + w.rdb.counters (keyVideoGoldenCount videoID) + 1).toNat > seatCap := by
    have := hu.2
    have e : (2 : Int) ^ 64 + w.rdb.counters (keyVideoGoldenCount videoID) + 1
        = 2 ^ 64 + (w.rdb.counters (keyVideoGoldenCount videoID) + 1) := by omega
    rw [e]; exact this
  have hmax2 : ¬ (w.rdb.counters (keyVideoGoldenCount videoID) ≥ int64Max) := by
    unfold int64Max; omega
  have hmin : ¬ (w.rdb.counters (keyVideoGoldenCount videoID) + 1 ≤ int64Min) := by omega
  have hinc : (IncrementGoldenCount_Redis env.incrFault videoID w.rdb).1
      = (toUint64 (w.rdb.counters (keyVideoGoldenCount videoID) + 1), none) := by
    simp [IncrementGoldenCount_Redis, Redis.incr, incrValue, hincr, hmax2]
  have hfull : toUint64 (w.rdb.counters (keyVideoGoldenCount videoID) + 1) > seatCap := by
    rw [hu1]; exact hgt
  refine ⟨?_, ?_, ?_, ?_, ?_, ?_⟩
  · rw [hinc]; rfl
  · rw [hinc, hu1]
  · exact hgt
  · simp [CreateGoldenComment, IncrementGoldenCount_Redis, DecrementGoldenCount_Redis,
      Redis.incr, Redis.decr, incrValue, decrValue, hincr, hdecr, hmax2, hmin, hfull]
  · simp [CreateGoldenComment, IncrementGoldenCount_Redis, DecrementGoldenCount_Redis,
      Redis.incr, Redis.decr, incrValue, decrValue, hincr, hdecr, hmax2, hmin, hfull]
  · simp [CreateGoldenComment, IncrementGoldenCount_Redis, DecrementGoldenCount_Redis,
      Redis.incr, Redis.decr, incrValue, decrValue, hincr, hdecr, hmax2, hmin, hfull]

/-- C29, worked: the seat counter of video 9 holds -5; the increment returns
2^64 - 4, the call is rejected as seat-full and the counter is at -5 again. -/
theorem C29_negative_counter_rejects_witness :
    (IncrementGoldenCount_Redis envOk.incrFault 9 (worldSeat9 (-5)).rdb).1
        = (18446744073709551612, none) ∧
      (CreateGoldenComment envOk 7 9 "first" (worldSeat9 (-5))).1 = .error errSeatFull ∧
      (CreateGoldenComment envOk 7 9 "first" (worldSeat9 (-5))).2.rdb.counters
          (keyVideoGoldenCount 9) = -5 ∧
      (CreateGoldenComment envOk 7 9 "first" (worldSeat9 (-5))).2.relay = [] := by
  have hval : (worldSeat9 (-5)).rdb.counters (keyVideoGoldenCount 9) = -5 := by
    simp [worldSeat9, rdbSeat9, key9]
  have h := C29_negative_counter_rejects envOk 7 9 "first" (worldSeat9 (-5)) rfl rfl
    (by rw [hval]; decide) (by rw [hval]; decide)
  rw [hval] at h
  refine ⟨h.2.1, h.2.2.2.1, ?_, h.2.2.2.2.2⟩
  rw [h.2.2.2.2.1, hval]

/-! ## Properties: the transient overshoot of the seat counter -/

/-- C24: `CreateReply` on a parent that is itself a reply returns an error and leaves
the store unchanged. On a top-level parent, when the insert succeeds, exactly one row
is appended to `comments`, with `ParentID = parent.ID`, `ReplyToUserID = parent.UserID`,
`VideoID = parent.VideoID` and `IsGolden = false`, and it is the comment returned when
the read-back answers and its key is new. `CreateComment`, when its insert succeeds,
appends exactly one row without parent. When an insert fails nothing is created. So a
row created by either method is top-level or is a reply to a top-level parent. -/
theorem C24_reply_parent_is_top_level (createFault findFault : Option GoError)
    (userID videoID : Nat) (parent : Comment) (content : String) (db : DB) :
    (parent.ParentID ≠ none →
      CreateReply createFault findFault userID parent content db
        = (.error errReplyToReply, db)) ∧
    (parent.ParentID = none → createFault = none →
      (CreateReply createFault findFault userID parent content db).2.comments
        = db.comments ++
          [{ ID := db.commentsNextID, VideoID := parent.VideoID, UserID := userID,
             Content := content, LikeCount := 0, IsGolden := false,
             ParentID := some parent.ID, ReplyToUserID := some parent.UserID }] ∧
      (findFault = none → db.comments.find? (fun c => c.ID == db.commentsNextID) = none →
        (CreateReply createFault findFault userID parent content db).1
          = .ok { ID := db.commentsNextID, VideoID := parent.VideoID, UserID := userID,
                  Content := content, LikeCount := 0, IsGolden := false,
                  ParentID := some parent.ID, ReplyToUserID := some parent.UserID })) ∧
    (createFault = none →
      (CreateComment createFault findFault userID videoID content db).2.comments
        = db.comments ++
          [{ ID := db.commentsNextID, VideoID := videoID, UserID := userID,
             Content := content, LikeCount := 0, IsGolden := false,
             ParentID := none, ReplyToUserID := none }]) ∧
    (∀ e, createFault = some e →
      CreateReply createFault findFault userID parent content db
        = (.error (if parent.ParentID ≠ none then errReplyToReply else e), db) ∧
      CreateComment createFault findFault userID videoID content db = (.error e, db)) ∧
    (∀ c, c ∈ (CreateReply createFault findFault userID parent content db).2.comments →
      c ∉ db.comments → c.ParentID = some parent.ID ∧ parent.ParentID = none) ∧
    (∀ c, c ∈ (CreateComment createFault findFault userID videoID content db).2.comments →
      c ∉ db.comments → c.ParentID = none) := by
  refine ⟨?_, ?_, ?_, ?_, ?_, ?_⟩
  · intro hp
    simp [CreateReply, hp]
  · intro hp hc
    constructor
    · simp [CreateReply, hp, hc, CommentRepository.Create]
    · intro hf hnew
      simp [CreateReply, hp, hc, CommentRepository.Create, CommentRepository.FindByID, hf,
        CommentRepository.assignedID, List.find?_append, hnew]
  · intro hc
    simp [CreateComment, hc, CommentRepository.Create]
  · intro e hc
    constructor
    · by_cases hp : parent.ParentID = none
      · simp [CreateReply, hp, hc, CommentRepository.Create]
      · simp [CreateReply, hp]
    · simp [CreateComment, hc, CommentRepository.Create]
  · intro c hin hnot
    by_cases hp : parent.ParentID = none
    · cases hc : createFault with
      | some e =>
        simp [CreateReply, hp, hc, CommentRepository.Create] at hin
        exact absurd hin hnot
      | none =>
        simp [CreateReply, hp, hc, CommentRepository.Create] at hin
        rcases hin with hin | hin
        · exact absurd hin hnot
        · subst hin
          exact ⟨rfl, hp⟩
    · simp [CreateReply, hp] at hin
      exact absurd hin hnot
  · intro c hin hnot
    cases hc : createFault with
    | some e =>
      simp [CreateComment, hc, CommentRepository.Create] at hin
      exact absurd hin hnot
    | none =>
      simp [CreateComment, hc, CommentRepository.Create] at hin
      rcases hin with hin | hin
      · exact absurd hin hnot
      · subst hin
        rfl

/-- C24, worked: user 4 replies to the top-level comment 1 of user 3 on video 9 and gets
reply 2 with parent 1; replying to that reply is refused and creates nothing. -/
theorem C24_reply_parent_is_top_level_witness :
    CreateReply none none 4 { ID := 1, VideoID := 9, UserID := 3, Content := "top" } "re"
        dbOneComment
      = (.ok { ID := 2, VideoID := 9, UserID := 4, Content := "re", ParentID := some 1,
               ReplyToUserID := some 3 },
         { dbOneComment with
           comments := [{ ID := 1, VideoID := 9, UserID := 3, Content := "top" },
                        { ID := 2, VideoID := 9, UserID := 4, Content := "re",
                          ParentID := some 1, ReplyToUserID := some 3 }]
           commentsNextID := 3 }) ∧
      CreateReply none none 5
          { ID := 2, VideoID := 9, UserID := 4, Content := "re", ParentID := some 1,
            ReplyToUserID := some 3 } "again" dbOneComment
        = (.error errReplyToReply, dbOneComment) := by
  have h := C24_reply_parent_is_top_level none none 5 9
    { ID := 2, VideoID := 9, UserID := 4, Content := "re", ParentID := some 1,
      ReplyToUserID := some 3 } "again" dbOneComment
  exact ⟨by decide, h.1 (by decide)⟩

/-! ## Properties: the like service -/

theorem setVideoCache_frame (fault : Option GoError) (marshal : Video → Except GoError String)
    (jitter : Nat) (video : Video) (st : Store) :
    (st.setVideoCache fault marshal jitter video).2.rdb.sets = st.rdb.sets ∧
      (st.setVideoCache fault marshal jitter video).2.rdb.hashes = st.rdb.hashes ∧
      (st.setVideoCache fault marshal jitter video).2.rdb.counters = st.rdb.counters ∧
      (st.setVideoCache fault marshal jitter video).2.db = st.db := by
  cases hm : marshal video with
  | error e => simp [Store.setVideoCache, SetVideoCache, hm]
  | ok body =>
    cases hf : fault with
    | some e => simp [Store.setVideoCache, SetVideoCache, Redis.set, hm]
    | none => simp [Store.setVideoCache, SetVideoCache, Redis.set, hm]

/-- `FindByID` touches neither the sets, the hashes and the counters of Redis nor
MySQL: it can only write a cache entry. -/
theorem FindByID_frame (env : ReadEnv) (videoID : Nat) (st : Store) :
    (VideoRepository.FindByID env videoID st).2.rdb.sets = st.rdb.sets ∧
      (VideoRepository.FindByID env videoID st).2.rdb.hashes = st.rdb.hashes ∧
      (VideoRepository.FindByID env videoID st).2.rdb.counters = st.rdb.counters ∧
      (VideoRepository.FindByID env videoID st).2.db = st.db := by
  have hnote : (st.noteGet env.cacheGetRepo videoID).rdb = st.rdb ∧
      (st.noteGet env.cacheGetRepo videoID).db = st.db := by
    cases env.cacheGetRepo <;> simp [Store.noteGet]
  unfold VideoRepository.FindByID
  rcases hc : GetVideoCache env.cacheGetRepo env.unmarshalVideo videoID st.rdb with e | o
  · simp only
    cases hd : env.dbFind with
    | some e2 => simp [hnote]
    | none =>
      cases hr : st.db.videos.find? (fun v => v.ID == videoID) with
      | none => simp [hnote]
      | some v =>
        have hs := setVideoCache_frame env.cacheSetRepo env.marshalVideo env.jitterRepo v
          { rdb := (st.noteGet env.cacheGetRepo videoID).rdb,
            db := (st.noteGet env.cacheGetRepo videoID).db,
            ops := (st.noteGet env.cacheGetRepo videoID).ops ++ [.dbFetch videoID] }
        simp only [hnote] at hs ⊢
        exact hs
  · cases o with
    | some v => simp [hnote]
    | none =>
      simp only
      cases hd : env.dbFind with
      | some e2 => simp [hnote]
      | none =>
        cases hr : st.db.videos.find? (fun v => v.ID == videoID) with
        | none => simp [hnote]
        | some v =>
          have hs := setVideoCache_frame env.cacheSetRepo env.marshalVideo env.jitterRepo v
            { rdb := (st.noteGet env.cacheGetRepo videoID).rdb,
              db := (st.noteGet env.cacheGetRepo videoID).db,
              ops := (st.noteGet env.cacheGetRepo videoID).ops ++ [.dbFetch videoID] }
          simp only [hnote] at hs ⊢
          exact hs

theorem publishLike_failed_relay (env : LikeEnv) (msg : LikeMessage) (relay : List Publishing)
    (e : GoError) (h : (publishLikeMessage env msg relay).1 = some e) :
    (publishLikeMessage env msg relay).2 = relay := by
  unfold publishLikeMessage at h ⊢
  cases hch : env.channelErr with
  | some e1 => simp
  | none =>
    cases hm : env.marshalLike msg with
    | error e2 => simp
    | ok body =>
      cases hp : env.publishErr with
      | some e3 => simp
      | none => simp [hch, hm, hp] at h

/-- C23: for a video that exists (`FindByID` returns it) and with the membership test
answering: `LikeVideo` by a user who is in the likers set of the video returns the
already-liked error, and `UnlikeVideo` by a user who is not in it returns the not-liked
error; in both cases every set and every hash of Redis (the likers set and the
fast-path like count included) and MySQL are as before the call, and nothing is handed
to the relay. -/
theorem C23_pre_enqueue_duplicate_detection (env : LikeEnv) (userID videoID : Nat)
    (w : LikeWorld) (v : Video)
    (hexists : (VideoRepository.FindByID env.read videoID w.store).1 = .ok v)
    (hsis : env.sismember = none) :
    (w.store.rdb.sets (keyVideoLikers videoID) (toString userID) = true →
      (LikeVideo env userID videoID w).1 = some errAlreadyLiked ∧
      (LikeVideo env userID videoID w).2.store.rdb.sets = w.store.rdb.sets ∧
      (LikeVideo env userID videoID w).2.store.rdb.hashes = w.store.rdb.hashes ∧
      (LikeVideo env userID videoID w).2.store.db = w.store.db ∧
      (LikeVideo env userID videoID w).2.relay = w.relay) ∧
    (w.store.rdb.sets (keyVideoLikers videoID) (toString userID) = false →
      (UnlikeVideo env userID videoID w).1 = some errNotLiked ∧
      (UnlikeVideo env userID videoID w).2.store.rdb.sets = w.store.rdb.sets ∧
      (UnlikeVideo env userID videoID w).2.store.rdb.hashes = w.store.rdb.hashes ∧
      (UnlikeVideo env userID videoID w).2.store.db = w.store.db ∧
      (UnlikeVideo env userID videoID w).2.relay = w.relay) := by
  have hframe := FindByID_frame env.read videoID w.store
  rcases hfb : VideoRepository.FindByID env.read videoID w.store with ⟨r, st1⟩
  rw [hfb] at hexists hframe
  simp only at hexists hframe
  subst hexists
  obtain ⟨hsets, hhashes, _, hdb⟩ := hframe
  constructor
  · intro hmem
    have hres : LikeVideo env userID videoID w
        = (some errAlreadyLiked, { w with store := st1 }) := by
      simp [LikeVideo, hfb, IsUserLikeVideo, hsis, hsets, hmem]
    rw [hres]
    exact ⟨rfl, hsets, hhashes, hdb, rfl⟩
  · intro hmem
    have hres : UnlikeVideo env userID videoID w
        = (some errNotLiked, { w with store := st1 }) := by
      simp [UnlikeVideo, hfb, IsUserLikeVideo, hsis, hsets, hmem]
    rw [hres]
    exact ⟨rfl, hsets, hhashes, hdb, rfl⟩

/-- C23, worked: user 7 already likes video 5 and likes it again: the call returns the
already-liked error; user 8 does not like it and unlikes it: the call returns the
not-liked error. The like count stays 1 and the relay stays empty. -/
theorem C23_pre_enqueue_duplicate_detection_witness :
    (LikeVideo envLike 7 5 likeWorld5).1 = some errAlreadyLiked ∧
      (LikeVideo envLike 7 5 likeWorld5).2.store.rdb.hashes "video:like_counts" "5" = 1 ∧
      (LikeVideo envLike 7 5 likeWorld5).2.relay = [] ∧
      (UnlikeVideo envLike 8 5 likeWorld5).1 = some errNotLiked ∧
      (UnlikeVideo envLike 8 5 likeWorld5).2.store.rdb.sets "video:likers:5" "7" = true ∧
      (UnlikeVideo envLike 8 5 likeWorld5).2.relay = [] := by
  have h7 := (C23_pre_enqueue_duplicate_detection envLike 7 5 likeWorld5 video5
    (by decide) rfl).1 (by decide)
  have h8 := (C23_pre_enqueue_duplicate_detection envLike 8 5 likeWorld5 video5
    (by decide) rfl).2 (by decide)
  refine ⟨h7.1, ?_, h7.2.2.2.2, h8.1, ?_, h8.2.2.2.2⟩
  · rw [h7.2.2.1]; rfl
  · rw [h8.2.1]; rfl

/-- C28: `LikeVideo` and `UnlikeVideo` do not compensate a failed publish. For a video
that exists, with the membership test and the pipeline answering: if the user is not
in the likers set, the like count `c` can be incremented and the publish of the like
message fails with `e`, then `LikeVideo` returns `e`, the user is in the likers set,
the like count is `c + 1` and the relay has received nothing. Symmetrically, if the
user is in the set, the count can be decremented and the publish of the unlike message
fails with `e`, then `UnlikeVideo` returns `e`, the user is out of the set, the count
is `c - 1` and the relay has received nothing. -/
theorem C28_no_compensation_on_publish_failure (env : LikeEnv) (userID videoID : Nat)
    (w : LikeWorld) (v : Video) (e : GoError)
    (hexists : (VideoRepository.FindByID env.read videoID w.store).1 = .ok v)
    (hsis : env.sismember = none) (hpipe : env.pipeline = none) :
    (w.store.rdb.sets (keyVideoLikers videoID) (toString userID) = false →
      w.store.rdb.hashes keyVideoLikeCountHash (toString videoID) < int64Max →
      (publishLikeMessage env { UserID := userID, VideoID := videoID, Action := "like" }
        w.relay).1 = some e →
      (LikeVideo env userID videoID w).1 = some e ∧
      (LikeVideo env userID videoID w).2.store.rdb.sets (keyVideoLikers videoID)
        (toString userID) = true ∧
      (LikeVideo env userID videoID w).2.store.rdb.hashes keyVideoLikeCountHash
        (toString videoID)
        = w.store.rdb.hashes keyVideoLikeCountHash (toString videoID) + 1 ∧
      (LikeVideo env userID videoID w).2.relay = w.relay) ∧
    (w.store.rdb.sets (keyVideoLikers videoID) (toString userID) = true →
      int64Min < w.store.rdb.hashes keyVideoLikeCountHash (toString videoID) →
      (publishLikeMessage env { UserID := userID, VideoID := videoID, Action := "unlike" }
        w.relay).1 = some e →
      (UnlikeVideo env userID videoID w).1 = some e ∧
      (UnlikeVideo env userID videoID w).2.store.rdb.sets (keyVideoLikers videoID)
        (toString userID) = false ∧
      (UnlikeVideo env userID videoID w).2.store.rdb.hashes keyVideoLikeCountHash
        (toString videoID)
        = w.store.rdb.hashes keyVideoLikeCountHash (toString videoID) - 1 ∧
      (UnlikeVideo env userID videoID w).2.relay = w.relay) := by
  have hframe := FindByID_frame env.read videoID w.store
  rcases hfb : VideoRepository.FindByID env.read videoID w.store with ⟨r, st1⟩
  rw [hfb] at hexists hframe
  simp only at hexists hframe
  subst hexists
  obtain ⟨hsets, hhashes, _, hdb⟩ := hframe
  constructor
  · intro hmem hmax hpub
    have hrel := publishLike_failed_relay env _ w.relay e hpub
    have hmax2 : ¬ (w.store.rdb.hashes keyVideoLikeCountHash (toString videoID)
        ≥ int64Max) := not_le.mpr hmax
    simp [LikeVideo, hfb, IsUserLikeVideo, hsis, hsets, hhashes, hmem, AddVideoLike, hpipe,
      incrValue, hmax2, hpub, hrel]
  · intro hmem hmin hpub
    have hrel := publishLike_failed_relay env _ w.relay e hpub
    have hmin2 : ¬ (w.store.rdb.hashes keyVideoLikeCountHash (toString videoID)
        ≤ int64Min) := not_le.mpr hmin
    simp [UnlikeVideo, hfb, IsUserLikeVideo, hsis, hsets, hhashes, hmem, RemoveVideoLike,
      hpipe, decrValue, hmin2, hpub, hrel]

/-- C28, worked: the relay refuses every publish. User 8 likes video 5: the call fails
with the publish error, yet user 8 is now in the likers set and the like count went
from 1 to 2. User 7 unlikes video 5: the call fails, yet user 7 is out of the set and
the count went from 1 to 0. The relay is empty in both cases. -/
theorem C28_no_compensation_on_publish_failure_witness :
    ((LikeVideo envLikePublishDown 8 5 likeWorld5).1
        = some (.plain "channel/connection is not open") ∧
      (LikeVideo envLikePublishDown 8 5 likeWorld5).2.store.rdb.sets "video:likers:5" "8"
        = true ∧
      (LikeVideo envLikePublishDown 8 5 likeWorld5).2.store.rdb.hashes
        "video:like_counts" "5" = 2 ∧
      (LikeVideo envLikePublishDown 8 5 likeWorld5).2.relay = []) ∧
    ((UnlikeVideo envLikePublishDown 7 5 likeWorld5).1
        = some (.plain "channel/connection is not open") ∧
      (UnlikeVideo envLikePublishDown 7 5 likeWorld5).2.store.rdb.sets "video:likers:5" "7"
        = false ∧
      (UnlikeVideo envLikePublishDown 7 5 likeWorld5).2.store.rdb.hashes
        "video:like_counts" "5" = 0 ∧
      (UnlikeVideo envLikePublishDown 7 5 likeWorld5).2.relay = []) := by
  have hk : keyVideoLikers 5 = "video:likers:5" := by decide
  have hh : keyVideoLikeCountHash = "video:like_counts" := rfl
  have h8 := (C28_no_compensation_on_publish_failure envLikePublishDown 8 5 likeWorld5 video5
    (.plain "channel/connection is not open") (by decide) rfl rfl).1
    (by decide) (by decide) (by decide)
  have h7 := (C28_no_compensation_on_publish_failure envLikePublishDown 7 5 likeWorld5 video5
    (.plain "channel/connection is not open") (by decide) rfl rfl).2
    (by decide) (by decide) (by decide)
  rw [hk, hh] at h8 h7
  refine ⟨⟨h8.1, h8.2.1, ?_, h8.2.2.2⟩, ⟨h7.1, h7.2.1, ?_, h7.2.2.2⟩⟩
  · exact h8.2.2.1.trans (by decide)
  · exact h7.2.2.1.trans (by decide)

/-! ## Properties: the consumer process -/

theorem likeCreate_comments (fault : Option GoError) (like : Like) (db : DB) :
    (LikeRepository.Create fault like db).2.comments = db.comments := by
  unfold LikeRepository.Create
  cases fault with
  | some e => rfl
  | none =>
    simp only
    split <;> rfl

theorem likeDelete_comments (fault : Option GoError) (userID videoID : Nat) (db : DB) :
    (LikeRepository.Delete fault userID videoID db).2.comments = db.comments := by
  unfold LikeRepository.Delete
  cases fault <;> rfl

theorem incrLike_comments (fault : Option GoError) (videoID : Nat) (db : DB) :
    (VideoRepository.IncrementLikeCount fault videoID db).2.comments = db.comments := by
  unfold VideoRepository.IncrementLikeCount
  cases fault with
  | some e => rfl
  | none =>
    simp only
    split <;> rfl

theorem decrLike_comments (fault : Option GoError) (videoID : Nat) (db : DB) :
    (VideoRepository.DecrementLikeCount fault videoID db).2.comments = db.comments := by
  unfold VideoRepository.DecrementLikeCount
  cases fault <;> rfl

theorem likeTxBody_comments (f : DbFaults) (msg : LikeMessage) (db : DB) :
    (likeTxBody f msg db).2.comments = db.comments := by
  unfold likeTxBody
  by_cases h1 : msg.Action = "like"
  · simp only [h1, if_true]
    have hc := likeCreate_comments f.likeCreate
      { UserID := msg.UserID, VideoID := msg.VideoID } db
    rcases hcr : LikeRepository.Create f.likeCreate
      { UserID := msg.UserID, VideoID := msg.VideoID } db with ⟨err, db1⟩
    rw [hcr] at hc
    cases err with
    | some e => exact hc
    | none =>
      simp only
      rw [incrLike_comments]
      exact hc
  · by_cases h2 : msg.Action = "unlike"
    · have hne : ¬ (("unlike" : String) = "like") := by decide
      simp only [h2, hne, if_false, if_true]
      have hc := likeDelete_comments f.likeDelete msg.UserID msg.VideoID db
      rcases hcr : LikeRepository.Delete f.likeDelete msg.UserID msg.VideoID db with ⟨err, db1⟩
      rw [hcr] at hc
      cases err with
      | some e => exact hc
      | none =>
        simp only
        rw [decrLike_comments]
        exact hc
    · simp [h1, h2]

theorem consumeLikesOne_comments (uL : String → Except GoError LikeMessage) (f : DbFaults)
    (d : Delivery) (db : DB) : (consumeLikesOne uL f d db).db.comments = db.comments := by
  unfold consumeLikesOne
  cases hdec : uL d.Body with
  | error e => simp
  | ok msg =>
    simp only
    have hbody := likeTxBody_comments f msg db
    unfold likeTx Transaction
    cases f.beginTx with
    | some e => simp
    | none =>
      rcases hb : likeTxBody f msg db with ⟨err, db1⟩
      rw [hb] at hbody
      cases err with
      | some e => simp
      | none =>
        cases f.commitTx with
        | some e => simp
        | none => simpa using hbody

/-- The invariant of the consumer process: no goroutine is ever ready to send on the
`forever` channel of `consumeLikes`, `consumeGoldenComments` is not entered, its
worker does not run, no golden-comment delivery is answered and the comments table is
the initial one. -/
theorem proc_step_invariant (uL : String → Except GoError LikeMessage)
    (uG : String → Except GoError GoldenCommentMessage) (comments : List Comment)
    (s : Proc) (ev : ProcEvent)
    (h : s.likesForeverSenders = 0 ∧ s.main.inGolden = false ∧ s.goldenWorker = false ∧
      s.goldenAnswers = [] ∧ s.db.comments = comments) :
    (s.step uL uG ev).likesForeverSenders = 0 ∧ (s.step uL uG ev).main.inGolden = false ∧
      (s.step uL uG ev).goldenWorker = false ∧ (s.step uL uG ev).goldenAnswers = [] ∧
      (s.step uL uG ev).db.comments = comments ∧
      (s.main = .likesForever → (s.step uL uG ev).main = .likesForever) := by
  obtain ⟨h1, h2, h3, h4, h5⟩ := h
  cases ev with
  | main ok =>
    simp only [Proc.step, Proc.mainStep]
    cases hm : s.main <;> rw [hm] at h2 <;> simp [MainPc.inGolden] at h2 <;>
      cases ok <;> simp [h1, h3, h4, h5, MainPc.inGolden, hm]
  | likeDelivery d f =>
    simp only [Proc.step]
    split
    · simp [h1, h2, h3, h4, consumeLikesOne_comments, h5]
    · simp [h1, h2, h3, h4, h5]
  | goldenDelivery d f =>
    simp only [Proc.step]
    simp [h3, h1, h2, h4, h5]

theorem proc_run_invariant (uL : String → Except GoError LikeMessage)
    (uG : String → Except GoError GoldenCommentMessage) (comments : List Comment)
    (events : List ProcEvent) :
    ∀ s : Proc, (s.likesForeverSenders = 0 ∧ s.main.inGolden = false ∧
        s.goldenWorker = false ∧ s.goldenAnswers = [] ∧ s.db.comments = comments) →
      ((s.run uL uG events).likesForeverSenders = 0 ∧
        (s.run uL uG events).main.inGolden = false ∧
        (s.run uL uG events).goldenWorker = false ∧
        (s.run uL uG events).goldenAnswers = [] ∧
        (s.run uL uG events).db.comments = comments) ∧
      (s.main = .likesForever → (s.run uL uG events).main = .likesForever) := by
  induction events with
  | nil => intro s h; exact ⟨h, fun hm => hm⟩
  | cons ev rest ih =>
    intro s h
    have hs := proc_step_invariant uL uG comments s ev h
    have hr := ih (s.step uL uG ev) ⟨hs.1, hs.2.1, hs.2.2.1, hs.2.2.2.1, hs.2.2.2.2.1⟩
    exact ⟨hr.1, fun hm => hr.2 (hs.2.2.2.2.2 hm)⟩

/-- C27: `main` runs `consumeLikes` and then `consumeGoldenComments`. Once the like
consumer is registered and its worker started, the main goroutine is at `<-forever`
of `consumeLikes`, and whatever happens afterwards (deliveries on either queue, the
main goroutine being scheduled again) it stays there: no goroutine is ever ready to
send on that channel, so `consumeLikes` does not return. Hence `consumeGoldenComments`
is never entered, its worker never runs, no golden-comment delivery is answered and
the comments table stays as it was when the process started. -/
theorem C27_golden_consumer_never_started (uL : String → Except GoError LikeMessage)
    (uG : String → Except GoError GoldenCommentMessage) (db : DB)
    (pre post : List ProcEvent)
    (hstart : (({ db := db } : Proc).run uL uG pre).main = .likesForever) :
    (({ db := db } : Proc).run uL uG (pre ++ post)).main = .likesForever ∧
      (({ db := db } : Proc).run uL uG (pre ++ post)).main.inGolden = false ∧
      (({ db := db } : Proc).run uL uG (pre ++ post)).likesForeverSenders = 0 ∧
      (({ db := db } : Proc).run uL uG (pre ++ post)).goldenWorker = false ∧
      (({ db := db } : Proc).run uL uG (pre ++ post)).goldenAnswers = [] ∧
      (({ db := db } : Proc).run uL uG (pre ++ post)).db.comments = db.comments := by
  have hpre := proc_run_invariant uL uG db.comments pre ({ db := db } : Proc)
    ⟨rfl, rfl, rfl, rfl, rfl⟩
  have happ : ({ db := db } : Proc).run uL uG (pre ++ post)
      = (({ db := db } : Proc).run uL uG pre).run uL uG post := by
    simp [Proc.run, List.foldl_append]
  rw [happ]
  have hpost := proc_run_invariant uL uG db.comments post
    (({ db := db } : Proc).run uL uG pre) hpre.1
  have hmain := hpost.2 hstart
  refine ⟨hmain, ?_, hpost.1.1, hpost.1.2.2.1, hpost.1.2.2.2.1, hpost.1.2.2.2.2⟩
  rw [hmain]
  rfl

/-- C27, worked: the process starts, connects, registers the like consumer; then a like
is delivered and applied, the main goroutine is scheduled twice and a golden comment
arrives on its queue. The main goroutine is still at `<-forever` of `consumeLikes`,
the like was acknowledged and the golden comment was neither answered nor stored. -/
theorem C27_golden_consumer_never_started_witness :
    (({ db := dbFresh } : Proc).run unmarshalLikeTable unmarshalGoldenTable
        ([.main true, .main true, .main true, .main true, .main true] ++
         [.likeDelivery { Body := bodyLike7 } noFaults, .main true,
          .goldenDelivery { Body := bodyGolden7 } noFaults, .main true])).main
        = .likesForever ∧
      (({ db := dbFresh } : Proc).run unmarshalLikeTable unmarshalGoldenTable
        ([.main true, .main true, .main true, .main true, .main true] ++
         [.likeDelivery { Body := bodyLike7 } noFaults, .main true,
          .goldenDelivery { Body := bodyGolden7 } noFaults, .main true])).likeAnswers
        = [.ack false] ∧
      (({ db := dbFresh } : Proc).run unmarshalLikeTable unmarshalGoldenTable
        ([.main true, .main true, .main true, .main true, .main true] ++
         [.likeDelivery { Body := bodyLike7 } noFaults, .main true,
          .goldenDelivery { Body := bodyGolden7 } noFaults, .main true])).goldenAnswers
        = [] ∧
      (({ db := dbFresh } : Proc).run unmarshalLikeTable unmarshalGoldenTable
        ([.main true, .main true, .main true, .main true, .main true] ++
         [.likeDelivery { Body := bodyLike7 } noFaults, .main true,
          .goldenDelivery { Body := bodyGolden7 } noFaults, .main true])).db.comments
        = [] := by
  have h := C27_golden_consumer_never_started unmarshalLikeTable unmarshalGoldenTable dbFresh
    [.main true, .main true, .main true, .main true, .main true]
    [.likeDelivery { Body := bodyLike7 } noFaults, .main true,
     .goldenDelivery { Body := bodyGolden7 } noFaults, .main true] (by decide)
  exact ⟨h.1, by decide, h.2.2.2.2.1, h.2.2.2.2.2⟩

/-! ## Properties: concurrent callers of `GetVideoByID` -/

theorem flushHi_none (acc : List Char) : flushHi acc none = acc := rfl

theorem isDigit_cases (c : Char) (h : isDigit c = true) :
    c = '0' ∨ c = '1' ∨ c = '2' ∨ c = '3' ∨ c = '4' ∨ c = '5' ∨ c = '6' ∨ c = '7' ∨
      c = '8' ∨ c = '9' := by
  have hc : Char.ofNat c.toNat = c := Char.ofNat_toNat c
  simp only [isDigit, Bool.and_eq_true, decide_eq_true_eq] at h
  rcases h with ⟨h1, h2⟩
  generalize c.toNat = n at hc h1 h2
  subst hc
  interval_cases n <;> decide

/-- The scanner reads the text written for one character back as that character. -/
theorem lex_escapeChar (shortBF : Bool) (c : Char) (acc : List Char) (toks : List JTok) :
    (escapeChar shortBF c).foldl lexStep { mode := .inStr acc none, toks := toks }
      = { mode := .inStr (acc ++ [c]) none, toks := toks } := by
  unfold escapeChar
  split_ifs with h1 h2 h3 h4 h5 h6 h7 h8 h9
  · subst h1; rfl
  · subst h2; rfl
  · subst h3; rfl
  · subst h4; rfl
  · subst h5; rfl
  · rcases h6 with ⟨_, h6⟩; subst h6; rfl
  · rcases h7 with ⟨_, h7⟩; subst h7; rfl
  · rcases h8 with h8 | h8 | h8 | h8
    · have hc : Char.ofNat c.toNat = c := Char.ofNat_toNat c
      generalize c.toNat = n at hc h8
      subst hc
      interval_cases n <;> rfl
    · subst h8; rfl
    · subst h8; rfl
    · subst h8; rfl
  · rcases h9 with h9 | h9
    · subst h9; rfl
    · subst h9; rfl
  · have h32 : ¬ c.toNat < 0x20 := fun h => h8 (Or.inl h)
    simp [List.foldl, lexStep, h1, h2, h32, flushHi]

/-- The scanner reads the text written for a string back as that string. -/
theorem lex_escapeString (shortBF : Bool) (cs acc : List Char) (toks : List JTok) :
    (escapeString shortBF cs).foldl lexStep { mode := .inStr acc none, toks := toks }
      = { mode := .inStr (acc ++ cs) none, toks := toks } := by
  induction cs generalizing acc with
  | nil => simp [escapeString]
  | cons c rest ih =>
    rw [escapeString, List.foldl_append, lex_escapeChar, ih]
    simp

/-- The scanner between two tokens reads a string literal as one token. -/
theorem lex_quoteString (shortBF : Bool) (text : String) (toks : List JTok) :
    (quoteString shortBF text).foldl lexStep { mode := .idle, toks := toks }
      = { mode := .idle, toks := toks ++ [.str text.data] } := by
  unfold quoteString
  rw [List.foldl_append, List.foldl_append]
  have h1 : List.foldl lexStep { mode := .idle, toks := toks } ['"']
      = { mode := .inStr [] none, toks := toks } := rfl
  rw [h1, lex_escapeString]
  rfl

theorem toDigitsCore_append (fuel n : Nat) (ds : List Char) :
    Nat.toDigitsCore 10 fuel n ds = Nat.toDigitsCore 10 fuel n [] ++ ds := by
  induction fuel generalizing n ds with
  | zero => simp [Nat.toDigitsCore]
  | succ fuel ih =>
    unfold Nat.toDigitsCore
    by_cases h : n / 10 = 0
    · simp [h]
    · simp only [h, if_false]
      rw [ih (n / 10) (Nat.digitChar (n % 10) :: ds), ih (n / 10) [Nat.digitChar (n % 10)]]
      simp

theorem toDigitsCore_fuel (fuel1 fuel2 n : Nat) (h1 : n < fuel1) (h2 : n < fuel2) :
    Nat.toDigitsCore 10 fuel1 n [] = Nat.toDigitsCore 10 fuel2 n [] := by
  induction fuel1 generalizing fuel2 n with
  | zero => omega
  | succ f1 ih =>
    cases fuel2 with
    | zero => omega
    | succ f2 =>
      unfold Nat.toDigitsCore
      by_cases h : n / 10 = 0
      · simp [h]
      · simp only [h, if_false]
        have hlt : n / 10 < n := by omega
        rw [toDigitsCore_append f1, toDigitsCore_append f2,
          ih f2 (n / 10) (by omega) (by omega)]

/-- The decimal text of a number: one digit below ten, otherwise the text of the
tenth followed by the last digit. -/
theorem toDigits_rec (n : Nat) :
    Nat.toDigits 10 n
      = if n < 10 then [Nat.digitChar n]
        else Nat.toDigits 10 (n / 10) ++ [Nat.digitChar (n % 10)] := by
  unfold Nat.toDigits
  rw [Nat.toDigitsCore]
  by_cases h : n < 10
  · have h0 : n / 10 = 0 := by omega
    have hm : n % 10 = n := by omega
    simp [h, h0, hm]
  · have h0 : ¬ n / 10 = 0 := by omega
    simp only [h, h0, if_false]
    rw [toDigitsCore_append, toDigitsCore_fuel n (n / 10 + 1) (n / 10) (by omega) (by omega)]

theorem digitChar_isDigit (d : Nat) (h : d < 10) :
    isDigit (Nat.digitChar d) = true ∧ (Nat.digitChar d).toNat - 48 = d ∧
      (Nat.digitChar d = '0' → d = 0) := by
  interval_cases d <;> decide

theorem toDigits_all_digits (n : Nat) : (Nat.toDigits 10 n).all isDigit = true := by
  induction n using Nat.strong_induction_on with
  | _ n ih =>
    rw [toDigits_rec]
    by_cases h : n < 10
    · simp [h, (digitChar_isDigit n h).1]
    · simp only [h, if_false, List.all_append, Bool.and_eq_true]
      exact ⟨ih (n / 10) (by omega), by simp [(digitChar_isDigit (n % 10) (by omega)).1]⟩

theorem toDigits_value (n : Nat) :
    (Nat.toDigits 10 n).foldl (fun a c => a * 10 + (c.toNat - 48)) 0 = n := by
  induction n using Nat.strong_induction_on with
  | _ n ih =>
    rw [toDigits_rec]
    by_cases h : n < 10
    · simp [h, (digitChar_isDigit n h).2.1]
    · simp only [h, if_false, List.foldl_append, List.foldl_cons, List.foldl_nil]
      rw [ih (n / 10) (by omega), (digitChar_isDigit (n % 10) (by omega)).2.1]
      omega

/-- The decimal text of a number starts with a digit, and with `0` only when the
number is zero, in which case the text is that single digit. -/
theorem toDigits_head (n : Nat) :
    ∃ d rest, Nat.toDigits 10 n = d :: rest ∧ isDigit d = true ∧
      (d = '0' → rest = []) := by
  induction n using Nat.strong_induction_on with
  | _ n ih =>
    rw [toDigits_rec]
    by_cases h : n < 10
    · exact ⟨Nat.digitChar n, [], by simp [h], (digitChar_isDigit n h).1, fun _ => rfl⟩
    · rcases ih (n / 10) (by omega) with ⟨d, rest, hd, hdig, hz⟩
      refine ⟨d, rest ++ [Nat.digitChar (n % 10)], by simp [h, hd], hdig, ?_⟩
      intro h0
      exfalso
      have hrest := hz h0
      rw [hrest, h0] at hd
      have hrec := toDigits_rec (n / 10)
      rw [hd] at hrec
      by_cases h10 : n / 10 < 10
      · simp only [h10, if_true] at hrec
        have := (digitChar_isDigit (n / 10) h10).2.2 (List.cons.inj hrec).1.symm
        omega
      · simp only [h10, if_false] at hrec
        have hlen := congrArg List.length hrec
        rcases ih (n / 10 / 10) (by omega) with ⟨d2, rest2, hd2, _, _⟩
        rw [hd2] at hlen
        simp at hlen

theorem parseUint64_toDigits (n : Nat) (h : n < 2 ^ 64) :
    parseUint64 (Nat.toDigits 10 n) = some n := by
  rcases toDigits_head n with ⟨d, rest, hd, _, _⟩
  have hne : Nat.toDigits 10 n ≠ [] := by rw [hd]; simp
  unfold parseUint64
  simp only [hne, toDigits_all_digits, toDigits_value, ne_eq, not_false_eq_true, and_self,
    if_true, h]

theorem lex_digits (ds acc : List Char) (toks : List JTok) (h : ds.all isDigit = true) :
    ds.foldl lexStep { mode := .inNum acc .int, toks := toks }
      = { mode := .inNum (acc ++ ds) .int, toks := toks } := by
  induction ds generalizing acc with
  | nil => simp
  | cons c rest ih =>
    simp only [List.all_cons, Bool.and_eq_true] at h
    have hstep : lexStep { mode := .inNum acc .int, toks := toks } c
        = { mode := .inNum (acc ++ [c]) .int, toks := toks } := by
      simp [lexStep, NumState.next, h.1]
    rw [List.foldl_cons, hstep, ih (acc ++ [c]) h.2]
    simp

/-- The scanner between two tokens reads the decimal text of a number up to its
last digit and stands in a state in which the literal may end. -/
theorem lex_number (n : Nat) :
    ∃ st, (st = NumState.zero ∨ st = NumState.int) ∧ ∀ toks,
      (Nat.toDigits 10 n).foldl lexStep { mode := .idle, toks := toks }
        = { mode := .inNum (Nat.toDigits 10 n) st, toks := toks } := by
  rcases toDigits_head n with ⟨d, rest, hd, hdig, hz⟩
  have hall := toDigits_all_digits n
  rw [hd] at hall ⊢
  simp only [List.all_cons, Bool.and_eq_true] at hall
  by_cases h0 : d = '0'
  · refine ⟨.zero, Or.inl rfl, fun toks => ?_⟩
    rw [hz h0, h0]
    rfl
  · refine ⟨.int, Or.inr rfl, fun toks => ?_⟩
    have hfirst : lexStep { mode := .idle, toks := toks } d
        = { mode := .inNum [d] .int, toks := toks } := by
      rcases isDigit_cases d hdig with h | h | h | h | h | h | h | h | h | h
      · exact absurd h h0
      all_goals subst h; rfl
    rw [List.foldl_cons, hfirst, lex_digits rest [d] toks hall.2]
    rfl

theorem lex_number_end (acc : List Char) (st : NumState) (toks : List JTok)
    (h : st = NumState.zero ∨ st = NumState.int) :
    lexStep { mode := .inNum acc st, toks := toks } ','
      = { mode := .idle, toks := toks ++ [.num acc] ++ [.comma] } := by
  rcases h with h | h <;> subst h <;> rfl

/-- The tokens of the body `json.Marshal` writes for a message. -/
theorem lex_encodeMessage (shortBF : Bool) (third : String) (userID videoID : Nat)
    (text : String) :
    lex (encodeMessage shortBF third userID videoID text)
      = some [.lbrace, .str "user_id".data, .colon, .num (Nat.toDigits 10 userID), .comma,
          .str "video_id".data, .colon, .num (Nat.toDigits 10 videoID), .comma,
          .str third.data, .colon, .str text.data, .rbrace] := by
  rcases lex_number userID with ⟨su, hsu, hu⟩
  rcases lex_number videoID with ⟨sv, hsv, hv⟩
  have hopen : ∀ toks, List.foldl lexStep { mode := .idle, toks := toks } [Char.ofNat 123]
      = { mode := .idle, toks := toks ++ [.lbrace] } := fun _ => rfl
  have hclose : ∀ toks, List.foldl lexStep { mode := .idle, toks := toks } [Char.ofNat 125]
      = { mode := .idle, toks := toks ++ [.rbrace] } := fun _ => rfl
  have hcolon : ∀ toks, List.foldl lexStep { mode := .idle, toks := toks } [':']
      = { mode := .idle, toks := toks ++ [.colon] } := fun _ => rfl
  have hcu : ∀ toks, List.foldl lexStep
      { mode := .inNum (Nat.toDigits 10 userID) su, toks := toks } [',']
      = { mode := .idle, toks := toks ++ [.num (Nat.toDigits 10 userID)] ++ [.comma] } :=
    fun toks => lex_number_end _ su toks hsu
  have hcv : ∀ toks, List.foldl lexStep
      { mode := .inNum (Nat.toDigits 10 videoID) sv, toks := toks } [',']
      = { mode := .idle, toks := toks ++ [.num (Nat.toDigits 10 videoID)] ++ [.comma] } :=
    fun toks => lex_number_end _ sv toks hsv
  unfold lex encodeMessage
  simp only [List.foldl_append, hopen, lex_quoteString, hcolon, hu, hcu, hv, hcv, hclose]
  rfl

/-- The decoder reads the tokens of a message written by `json.Marshal` back as
the message, provided the name of the string field is not taken for one of the two
number fields. -/
theorem decode_tokens (third : String) (userID videoID : Nat) (text : List Char)
    (hu : userID < 2 ^ 64) (hv : videoID < 2 ^ 64)
    (h1 : keyMatches third.data "user_id" = false)
    (h2 : keyMatches third.data "video_id" = false) :
    ([.lbrace, .str "user_id".data, .colon, .num (Nat.toDigits 10 userID), .comma,
        .str "video_id".data, .colon, .num (Nat.toDigits 10 videoID), .comma,
        .str third.data, .colon, .str text, .rbrace] : List JTok).foldl
        (decodeStep third) {}
      = { expect := .done, stack := [], key := third.data, userID := userID,
          videoID := videoID, text := text, typeErr := false } := by
  have k1 : keyMatches "user_id".data "user_id" = true := by decide
  have k2 : keyMatches "video_id".data "user_id" = false := by decide
  have k3 : keyMatches "video_id".data "video_id" = true := by decide
  have k4 : keyMatches third.data third = true := by simp [keyMatches]
  simp [decodeStep, DecodeState.assign, uintValue, textValue, afterValue, k1, k2, k3, k4,
    h1, h2, parseUint64_toDigits userID hu, parseUint64_toDigits videoID hv]

/-- What `json.Marshal` writes for a message, `json.Unmarshal` reads back as the
same message. -/
theorem decode_encodeMessage (shortBF : Bool) (third : String) (userID videoID : Nat)
    (text : String) (hu : userID < 2 ^ 64) (hv : videoID < 2 ^ 64)
    (h1 : keyMatches third.data "user_id" = false)
    (h2 : keyMatches third.data "video_id" = false) :
    decodeMessage third (encodeMessage shortBF third userID videoID text)
      = .ok (userID, videoID, text) := by
  unfold decodeMessage
  rw [lex_encodeMessage]
  simp only [decode_tokens third userID videoID text.data hu hv h1 h2]
  rfl

theorem unmarshal_marshal_like (shortBF : Bool) (msg : LikeMessage)
    (hu : msg.UserID < 2 ^ 64) (hv : msg.VideoID < 2 ^ 64) :
    jsonUnmarshalLike (String.mk (encodeMessage shortBF "action" msg.UserID msg.VideoID
      msg.Action)) = .ok msg := by
  unfold jsonUnmarshalLike
  rw [decode_encodeMessage shortBF "action" msg.UserID msg.VideoID msg.Action hu hv
    (by decide) (by decide)]

theorem unmarshal_marshal_golden (shortBF : Bool) (msg : GoldenCommentMessage)
    (hu : msg.UserID < 2 ^ 64) (hv : msg.VideoID < 2 ^ 64) :
    jsonUnmarshalGolden (String.mk (encodeMessage shortBF "content" msg.UserID msg.VideoID
      msg.Content)) = .ok msg := by
  unfold jsonUnmarshalGolden
  rw [decode_encodeMessage shortBF "content" msg.UserID msg.VideoID msg.Content hu hv
    (by decide) (by decide)]

/-- C30: what the like producer writes with `json.Marshal` for a `LikeMessage` (ids
in the range of uint64, any action), the like consumer's `json.Unmarshal` decodes
without error into the same user id, video id and action, and the consumer then runs
its transaction on that message; likewise for a `GoldenCommentMessage` with any
content (a Go string of valid UTF-8, as the request binding delivers it) and the
golden-comment consumer. Holds for both ways `json.Marshal` may write backspace and
form feed (`shortBF`). -/
theorem C30_wire_round_trip (shortBF : Bool) (like : LikeMessage)
    (golden : GoldenCommentMessage) (f : DbFaults) (db : DB)
    (h1 : like.UserID < 2 ^ 64) (h2 : like.VideoID < 2 ^ 64)
    (h3 : golden.UserID < 2 ^ 64) (h4 : golden.VideoID < 2 ^ 64) :
    (∃ body, jsonMarshalLike shortBF like = .ok body ∧
        jsonUnmarshalLike body = .ok like ∧
        (consumeLikesOne jsonUnmarshalLike f { Body := body } db).db = (likeTx f like db).2 ∧
        (consumeLikesOne jsonUnmarshalLike f { Body := body } db).transactions = 1) ∧
      (∃ body, jsonMarshalGolden shortBF golden = .ok body ∧
        jsonUnmarshalGolden body = .ok golden ∧
        (consumeGoldenCommentsOne jsonUnmarshalGolden f { Body := body } db).db
          = (goldenTx f golden db).2 ∧
        (consumeGoldenCommentsOne jsonUnmarshalGolden f { Body := body } db).transactions
          = 1) := by
  have hl := unmarshal_marshal_like shortBF like h1 h2
  have hg := unmarshal_marshal_golden shortBF golden h3 h4
  refine ⟨⟨_, rfl, hl, ?_, ?_⟩, ⟨_, rfl, hg, ?_, ?_⟩⟩
  · simp only [consumeLikesOne, hl]
  · simp only [consumeLikesOne, hl]
  · simp only [consumeGoldenCommentsOne, hg]
  · simp only [consumeGoldenCommentsOne, hg]

/-- The like message of user 7 for video 42 travels as the body of the worked
examples and is decoded as itself; a golden comment whose content holds a quote, a
backslash, control characters, `<`, `>` and characters outside ASCII comes back
unchanged. -/
theorem C30_wire_round_trip_witness :
    jsonMarshalLike true { UserID := 7, VideoID := 42, Action := "like" } = .ok bodyLike7 ∧
      jsonUnmarshalLike bodyLike7 = unmarshalLikeTable bodyLike7 ∧
      (∃ body, jsonMarshalLike true { UserID := 7, VideoID := 42, Action := "like" }
          = .ok body ∧
        jsonUnmarshalLike body = .ok { UserID := 7, VideoID := 42, Action := "like" } ∧
        (consumeLikesOne jsonUnmarshalLike noFaults { Body := body } dbFresh).db
          = (likeTx noFaults { UserID := 7, VideoID := 42, Action := "like" } dbFresh).2 ∧
        (consumeLikesOne jsonUnmarshalLike noFaults { Body := body } dbFresh).transactions
          = 1) ∧
      (∃ body, jsonMarshalGolden false goldenEscaped = .ok body ∧
        jsonUnmarshalGolden body = .ok goldenEscaped ∧
        (consumeGoldenCommentsOne jsonUnmarshalGolden noFaults { Body := body } dbFresh).db
          = (goldenTx noFaults goldenEscaped dbFresh).2 ∧
        (consumeGoldenCommentsOne jsonUnmarshalGolden noFaults { Body := body }
          dbFresh).transactions = 1) := by
  have h := C30_wire_round_trip true { UserID := 7, VideoID := 42, Action := "like" }
    goldenEscaped noFaults dbFresh (by decide) (by decide) (by decide) (by decide)
  have h2 := C30_wire_round_trip false { UserID := 7, VideoID := 42, Action := "like" }
    goldenEscaped noFaults dbFresh (by decide) (by decide) (by decide) (by decide)
  exact ⟨by decide, by decide, h.1, h2.2⟩

/-! ## Properties: a like message with an unknown action -/

/-- The transaction body of the like consumer does nothing for an action that is
neither "like" nor "unlike". -/
theorem likeTxBody_unknown_action (f : DbFaults) (msg : LikeMessage) (tx : DB)
    (h1 : msg.Action ≠ "like") (h2 : msg.Action ≠ "unlike") :
    likeTxBody f msg tx = (none, tx) := by
  simp [likeTxBody, h1, h2]

/-- C26 (as stated, refuted): two bodies of the like queue that decode, one with the
action "dislike" and one without an action (decoded as the empty action), are both
answered `Ack(false)` by the like consumer, not `Nack(false, false)`; the transaction
is run (it holds no statement) and the store is as before. -/
theorem C26_unknown_action_is_acked :
    jsonUnmarshalLike bodyDislike7 = .ok { UserID := 7, VideoID := 42, Action := "dislike" } ∧
      (consumeLikesOne jsonUnmarshalLike noFaults { Body := bodyDislike7 } dbTwoLikers).decision
        = .ack false ∧
      (consumeLikesOne jsonUnmarshalLike noFaults { Body := bodyDislike7 } dbTwoLikers).decision
        ≠ .nack false false ∧
      jsonUnmarshalLike bodyNoAction7 = .ok { UserID := 7, VideoID := 42, Action := "" } ∧
      (consumeLikesOne jsonUnmarshalLike noFaults { Body := bodyNoAction7 } dbTwoLikers).decision
        = .ack false ∧
      (consumeLikesOne jsonUnmarshalLike noFaults { Body := bodyNoAction7 } dbTwoLikers).db
        = dbTwoLikers ∧
      (consumeLikesOne jsonUnmarshalLike noFaults { Body := bodyNoAction7 }
        dbTwoLikers).transactions = 1 := by
  decide

/-- C26 (amended): for every delivery on the like queue whose body decodes into a
message with an action other than "like" and "unlike" (the empty action of a body
without one included), the like consumer runs one transaction that holds no
statement and leaves the store unchanged; it never answers `Nack` without requeue;
when the transaction begins and commits it answers `Ack(false)`, the answer of a
success, and writes no warning or error; when the begin or the commit fails with
an error other than a duplicate key it answers `Nack` with requeue. -/
theorem C26_unknown_action_acknowledged (unmarshal : String → Except GoError LikeMessage)
    (f : DbFaults) (d : Delivery) (db : DB) (msg : LikeMessage)
    (hdec : unmarshal d.Body = .ok msg)
    (h1 : msg.Action ≠ "like") (h2 : msg.Action ≠ "unlike") :
    (consumeLikesOne unmarshal f d db).db = db ∧
      (consumeLikesOne unmarshal f d db).transactions = 1 ∧
      (consumeLikesOne unmarshal f d db).decision ≠ .nack false false ∧
      (f.beginTx = none → f.commitTx = none →
        consumeLikesOne unmarshal f d db
          = { db := db, decision := .ack false, transactions := 1,
              log := [{ level := .info, msg := "收到一条点赞消息" }] }) ∧
      (∀ e, (f.beginTx = some e ∨ (f.beginTx = none ∧ f.commitTx = some e)) →
        e.isDuplicateKey = false →
        (consumeLikesOne unmarshal f d db).decision = .nack false true) := by
  have hbody : likeTxBody f msg db = (none, db) := likeTxBody_unknown_action f msg db h1 h2
  have hack : ∀ o : Option GoError, (decide_ack o).1 ≠ .nack false false := by
    intro o
    cases o with
    | none => simp [decide_ack]
    | some e => by_cases he : e.isDuplicateKey = true <;> simp [decide_ack, he]
  have htx : (likeTx f msg db).2 = db := by
    unfold likeTx Transaction
    rw [hbody]
    cases f.beginTx with
    | some e => rfl
    | none => cases f.commitTx <;> rfl
  refine ⟨?_, ?_, ?_, ?_, ?_⟩
  · simp only [consumeLikesOne, hdec]
    exact htx
  · simp only [consumeLikesOne, hdec]
  · simp only [consumeLikesOne, hdec]
    exact hack _
  · intro hb hc
    simp [consumeLikesOne, hdec, likeTx, Transaction, hbody, hb, hc, decide_ack]
  · intro e he hdup
    rcases he with hb | ⟨hb, hc⟩
    · simp [consumeLikesOne, hdec, likeTx, Transaction, hb, decide_ack, hdup]
    · simp [consumeLikesOne, hdec, likeTx, Transaction, hbody, hb, hc, decide_ack, hdup]

/-- The body with the action "dislike", decoded by the consumer's `json.Unmarshal`, is
acknowledged and leaves two likers and their counter as they were. -/
theorem C26_unknown_action_acknowledged_witness :
    jsonUnmarshalLike bodyDislike7 = .ok { UserID := 7, VideoID := 42, Action := "dislike" } ∧
      consumeLikesOne jsonUnmarshalLike noFaults { Body := bodyDislike7 } dbTwoLikers
        = { db := dbTwoLikers, decision := .ack false, transactions := 1,
            log := [{ level := .info, msg := "收到一条点赞消息" }] } := by
  have h := C26_unknown_action_acknowledged jsonUnmarshalLike noFaults
    { Body := bodyDislike7 } dbTwoLikers { UserID := 7, VideoID := 42, Action := "dislike" }
    (by decide) (by decide) (by decide)
  exact ⟨by decide, h.2.2.2.1 rfl rfl⟩

end OrionLive
